import Mathlib

/-!
Verification of the multi-device fiscal-register command queue
(`run_queue.py`, `driver.py`, `settings.py`).

This file shallowly embeds the data model and the operations of the
repository in Lean 4 and proves (or refutes) the frozen claims about it.

Conventions of the embedding:
* Python byte strings are `List Nat` (each element a byte value 0..255 in
  any run against a real device; the parser is defined on all of `Nat`
  with bitwise operations exactly as the source computes them).
* Python JSON-ish values (`command_data`, `kwargs`, `Response` fields)
  are the inductive type `Val`; Python `None` is `Val.vNull`.
* Python floats are modeled as exact rationals (`Rat`): no handler
  performs float arithmetic, values are only passed through.
* The vendor SDK session `IFptr` is an external collaborator; it is
  modeled as an oracle structure `Fptr` giving the result code of each
  operation and the value (or failure) of each parameter accessor.
  SDK numeric constants are opaque distinct numbers (their concrete
  values are private to the vendor library, which is not part of the
  repository).
* Exceptions are modeled by the `Exn` type threaded through an
  error monad; `try/except` blocks of the source become `match` on it.
-/

/-! ## TLV stream parser (source: `run_queue.py`, `read_last_document_journal`)

The source decodes the byte array returned by `getLastDocumentJournal`
by a linear scan:

* stop if fewer than 4 bytes remain;
* tag    = `b[pos] | (b[pos+1] << 8)`;
* length = `b[pos+2] | (b[pos+3] << 8)`;
* stop if fewer than `length` bytes remain after the header;
* value  = next `length` bytes, then continue.
-/

def parseTLVList : List Nat → List (Nat × Nat × List Nat)
  | b0 :: b1 :: b2 :: b3 :: rest =>
    if b2 ||| (b3 <<< 8) ≤ rest.length then
      (b0 ||| (b1 <<< 8), b2 ||| (b3 <<< 8), rest.take (b2 ||| (b3 <<< 8))) ::
        parseTLVList (rest.drop (b2 ||| (b3 <<< 8)))
    else []
  | _ => []
termination_by l => l.length
decreasing_by simp [List.length_drop]; omega

/-- The flat `(tag : 2 bytes LE, length : 2 bytes LE, value)` encoding of a
record set, as the spec describes the self-describing journal format. -/
def encodeTLVRecord (t : Nat) (v : List Nat) : List Nat :=
  t % 256 :: t / 256 % 256 :: v.length % 256 :: v.length / 256 % 256 :: v

def encodeTLVList (rs : List (Nat × List Nat)) : List Nat :=
  rs.foldr (fun r acc => encodeTLVRecord r.1 r.2 ++ acc) []

/-- A byte suffix that is a partial record for the scanner: either shorter
than the 4-byte header, or its declared length exceeds the bytes left. -/
def isPartialRecord : List Nat → Bool
  | _ :: _ :: b2 :: b3 :: rest => decide (rest.length < b2 ||| (b3 <<< 8))
  | _ => true

theorem lor_low_high {a b : Nat} (ha : a < 256) : a ||| (b <<< 8) = a + b * 256 := by
  apply Nat.eq_of_testBit_eq
  intro j
  have hmul : b * 256 + a = 2 ^ 8 * b + a := by ring_nf
  rw [Nat.add_comm a (b * 256), hmul,
    Nat.testBit_mul_pow_two_add b (show a < 2 ^ 8 by omega) j,
    Nat.testBit_lor, Nat.testBit_shiftLeft]
  by_cases hj : j < 8
  · simp [hj, Nat.not_le.mpr hj]
  · have h8 : 8 ≤ j := Nat.le_of_not_lt hj
    have : a < 2 ^ j := lt_of_lt_of_le (show a < 2 ^ 8 by omega)
      (Nat.pow_le_pow_right (by omega) h8)
    simp [hj, h8, Nat.testBit_lt_two_pow this]

theorem two_le_bytes_roundtrip {t : Nat} (ht : t < 65536) :
    t % 256 ||| ((t / 256 % 256) <<< 8) = t := by
  rw [lor_low_high (show t % 256 < 256 by omega)]
  omega

theorem parseTLVList_partial {junk : List Nat} (hj : isPartialRecord junk = true) :
    parseTLVList junk = [] := by
  match junk with
  | [] => simp [parseTLVList]
  | [_] => simp [parseTLVList]
  | [_, _] => simp [parseTLVList]
  | [_, _, _] => simp [parseTLVList]
  | b0 :: b1 :: b2 :: b3 :: rest =>
    simp only [isPartialRecord, decide_eq_true_eq] at hj
    unfold parseTLVList
    rw [if_neg (by omega)]

/-- C6 main lemma: decoding the exact encoding of a record set, followed by
any partial trailing record, reproduces the records (with their declared
lengths) in order, dropping the partial tail. -/
theorem parseTLVList_encode (rs : List (Nat × List Nat)) (junk : List Nat)
    (hb : ∀ p ∈ rs, p.1 < 65536 ∧ p.2.length < 65536)
    (hj : isPartialRecord junk = true) :
    parseTLVList (encodeTLVList rs ++ junk) =
      rs.map (fun p => (p.1, p.2.length, p.2)) := by
  induction rs with
  | nil =>
    simpa [encodeTLVList] using parseTLVList_partial hj
  | cons hd tl ih =>
    obtain ⟨t, v⟩ := hd
    have ht : t < 65536 := (hb (t, v) (by simp)).1
    have hv : v.length < 65536 := (hb (t, v) (by simp)).2
    have htl : ∀ p ∈ tl, p.1 < 65536 ∧ p.2.length < 65536 :=
      fun p hp => hb p (by simp [hp])
    have henc : encodeTLVList ((t, v) :: tl) ++ junk
        = t % 256 :: t / 256 % 256 :: v.length % 256 :: v.length / 256 % 256 ::
          (v ++ (encodeTLVList tl ++ junk)) := by
      simp [encodeTLVList, encodeTLVRecord]
    rw [henc]
    unfold parseTLVList
    rw [two_le_bytes_roundtrip ht, two_le_bytes_roundtrip hv]
    rw [if_pos (by simp)]
    rw [List.take_left, List.drop_left]
    simp [ih htl]

/-! ## Python value model

JSON-ish values flowing through `command_data`, `kwargs` and `Response`.
`vNull` is Python `None`; floats are exact rationals (pass-through only);
byte strings are lists of byte values. -/

inductive Val where
  | vNull
  | vBool (b : Bool)
  | vInt (n : Int)
  | vFloat (q : Rat)
  | vStr (s : String)
  | vBytes (bs : List Nat)
  | vList (l : List Val)
  | vDict (m : List (String × Val))
deriving Repr

/-- Python truthiness (`if x:`). -/
def pyTruthy : Val → Bool
  | .vNull => false
  | .vBool b => b
  | .vInt n => n != 0
  | .vFloat q => q != 0
  | .vStr s => s ≠ ""
  | .vBytes bs => !bs.isEmpty
  | .vList l => !l.isEmpty
  | .vDict m => !m.isEmpty

/-- Python `v == "lit"` for a string literal right-hand side: true exactly
for the equal string, false for every other value or string. -/
def pyEqStr (v : Val) (lit : String) : Bool :=
  match v with
  | .vStr s => s == lit
  | _ => false

/-- Python `v == n` for an int literal right-hand side (`bool` is an int in
Python; floats compare by value). -/
def pyEqInt (v : Val) (n : Int) : Bool :=
  match v with
  | .vInt m => m == n
  | .vBool b => (if b then (1 : Int) else 0) == n
  | .vFloat q => q == (n : Rat)
  | _ => false

/-- Python `str(x)` as used in f-string messages. Scalars are rendered
faithfully; container and float renderings are simplified (no claim
depends on them; commands and message arguments in the claims are
strings or integers). -/
def pyStr : Val → String
  | .vNull => "None"
  | .vBool b => if b then "True" else "False"
  | .vInt n => toString n
  | .vFloat q => toString q
  | .vStr s => s
  | .vBytes _ => "bytes"
  | .vList _ => "list"
  | .vDict _ => "dict"

/-- First-match association-list lookup (Python dicts in the model carry
distinct keys, as real dicts do). -/
def dlookup (m : List (String × Val)) (k : String) : Option Val :=
  match m.find? (fun p => p.1 == k) with
  | some p => some p.2
  | none => none

/-! ## Exceptions -/

/-- The Python exceptions the embedded code can raise or observe.
`atol` is `AtolDriverError` from `driver.py`, whose constructor stores
`message`, optional `error_code`, and `error_description` (defaulted to
the message when not passed). -/
inductive Exn where
  | atol (message : String) (errorCode : Option Int) (errorDescription : String)
  | keyError (k : String)
  | typeError (m : String)
  | attributeError (m : String)
  | importError (m : String)
  | exc (m : String)
deriving Repr

/-- Python `str(e)`. For `AtolDriverError`, `__str__` (driver.py) yields
`"[Код {code}] {error_description}"` when a code is present, else the
message; `str` of a `KeyError` is the repr of its key. -/
def exnStr : Exn → String
  | .atol message code desc =>
    match code with
    | some c => "[Код " ++ toString c ++ "] " ++ desc
    | none => message
  | .keyError k => "'" ++ k ++ "'"
  | .typeError m => m
  | .attributeError m => m
  | .importError m => m
  | .exc m => m

/-- `AtolDriverError.to_dict` (driver.py). -/
def atolToDict (message : String) (code : Option Int) (desc : String) : Val :=
  .vDict [("message", .vStr message),
          ("error_code", match code with | some c => .vInt c | none => .vNull),
          ("error_description", .vStr desc)]

/-! ## Python datetime (used only for rendering) -/

structure PyDateTime where
  year : Nat
  month : Nat
  day : Nat
  hour : Nat
  minute : Nat
  second : Nat
deriving Repr, DecidableEq

def pad2 (n : Nat) : String := if n < 10 then "0" ++ toString n else toString n

def pyIsoformat (t : PyDateTime) : String :=
  toString t.year ++ "-" ++ pad2 t.month ++ "-" ++ pad2 t.day ++ "T" ++
    pad2 t.hour ++ ":" ++ pad2 t.minute ++ ":" ++ pad2 t.second

/-- `strftime("%Y-%m-%d %H:%M:%S")`. -/
def pyStrftimeFull (t : PyDateTime) : String :=
  toString t.year ++ "-" ++ pad2 t.month ++ "-" ++ pad2 t.day ++ " " ++
    pad2 t.hour ++ ":" ++ pad2 t.minute ++ ":" ++ pad2 t.second

/-- `strftime("%Y-%m-%d")`. -/
def pyStrftimeDate (t : PyDateTime) : String :=
  toString t.year ++ "-" ++ pad2 t.month ++ "-" ++ pad2 t.day

/-! ## Vendor SDK constants (`libfptr10.IFptr`)

The vendor library is an external collaborator; its numeric constants are
opaque. The model assigns them distinct numbers. Parameter identifiers
are `Nat` (keys of the oracle's parameter maps); enumeration values
passed to `setParam` or compared against are `Int`. The raw numeric
parameter ids written literally in the source (1021, 1203, 1060, ...)
are used literally in the embedding as well. -/

namespace IFptr

def LIBFPTR_PARAM_FREQUENCY : Nat := 2001
def LIBFPTR_PARAM_DURATION : Nat := 2002
def LIBFPTR_PARAM_REPORT_TYPE : Nat := 2003
def LIBFPTR_PARAM_SHIFT_NUMBER : Nat := 2004
def LIBFPTR_PARAM_FISCAL_DOCUMENT_NUMBER : Nat := 2005
def LIBFPTR_PARAM_DATA_TYPE : Nat := 2006
def LIBFPTR_PARAM_DATE_TIME : Nat := 2007
def LIBFPTR_PARAM_SHIFT_STATE : Nat := 2008
def LIBFPTR_PARAM_RECEIPT_TYPE : Nat := 2009
def LIBFPTR_PARAM_RECEIPT_ELECTRONICALLY : Nat := 2010
def LIBFPTR_PARAM_BUYER_EMAIL_OR_PHONE : Nat := 2011
def LIBFPTR_PARAM_COMMODITY_NAME : Nat := 2012
def LIBFPTR_PARAM_PRICE : Nat := 2013
def LIBFPTR_PARAM_QUANTITY : Nat := 2014
def LIBFPTR_PARAM_TAX_TYPE : Nat := 2015
def LIBFPTR_PARAM_PAYMENT_TYPE_SIGN : Nat := 2016
def LIBFPTR_PARAM_COMMODITY_SIGN : Nat := 2017
def LIBFPTR_PARAM_PAYMENT_TYPE : Nat := 2018
def LIBFPTR_PARAM_PAYMENT_SUM : Nat := 2019
def LIBFPTR_PARAM_SUM : Nat := 2020
def LIBFPTR_PARAM_TEXT : Nat := 2021
def LIBFPTR_PARAM_ALIGNMENT : Nat := 2022
def LIBFPTR_PARAM_TEXT_WRAP : Nat := 2023
def LIBFPTR_PARAM_FONT : Nat := 2024
def LIBFPTR_PARAM_FONT_DOUBLE_WIDTH : Nat := 2025
def LIBFPTR_PARAM_FONT_DOUBLE_HEIGHT : Nat := 2026
def LIBFPTR_PARAM_LINESPACING : Nat := 2027
def LIBFPTR_PARAM_BRIGHTNESS : Nat := 2028
def LIBFPTR_PARAM_DEFER : Nat := 2029
def LIBFPTR_PARAM_BARCODE : Nat := 2030
def LIBFPTR_PARAM_BARCODE_TYPE : Nat := 2031
def LIBFPTR_PARAM_SCALE : Nat := 2032
def LIBFPTR_PARAM_LEFT_MARGIN : Nat := 2033
def LIBFPTR_PARAM_BARCODE_INVERT : Nat := 2034
def LIBFPTR_PARAM_HEIGHT : Nat := 2035
def LIBFPTR_PARAM_BARCODE_PRINT_TEXT : Nat := 2036
def LIBFPTR_PARAM_BARCODE_CORRECTION : Nat := 2037
def LIBFPTR_PARAM_BARCODE_VERSION : Nat := 2038
def LIBFPTR_PARAM_BARCODE_COLUMNS : Nat := 2039
def LIBFPTR_PARAM_FILENAME : Nat := 2040
def LIBFPTR_PARAM_SCALE_PERCENT : Nat := 2041
def LIBFPTR_PARAM_PICTURE_NUMBER : Nat := 2042
def LIBFPTR_PARAM_MODEL_NAME : Nat := 2043
def LIBFPTR_PARAM_SERIAL_NUMBER : Nat := 2044
def LIBFPTR_PARAM_COVER_OPENED : Nat := 2045
def LIBFPTR_PARAM_RECEIPT_PAPER_PRESENT : Nat := 2046
def LIBFPTR_PARAM_CASHDRAWER_OPENED : Nat := 2047
def LIBFPTR_PARAM_PAPER_NEAR_END : Nat := 2048
def LIBFPTR_PARAM_RECEIPT_SUM : Nat := 2049
def LIBFPTR_PARAM_RECEIPT_NUMBER : Nat := 2050
def LIBFPTR_PARAM_DOCUMENT_NUMBER : Nat := 2051
def LIBFPTR_PARAM_REMAINDER : Nat := 2052
def LIBFPTR_PARAM_CHANGE : Nat := 2053
def LIBFPTR_PARAM_MODEL : Nat := 2054
def LIBFPTR_PARAM_UNIT_VERSION : Nat := 2055
def LIBFPTR_PARAM_RECEIPT_LINE_LENGTH : Nat := 2056
def LIBFPTR_PARAM_RECEIPT_LINE_LENGTH_PIX : Nat := 2057
def LIBFPTR_PARAM_UNIT_TYPE : Nat := 2058
def LIBFPTR_PARAM_UNIT_RELEASE_VERSION : Nat := 2059
def LIBFPTR_PARAM_DOCUMENTS_COUNT : Nat := 2060
def LIBFPTR_PARAM_POWER_SOURCE_TYPE : Nat := 2061
def LIBFPTR_PARAM_BATTERY_CHARGE : Nat := 2062
def LIBFPTR_PARAM_VOLTAGE : Nat := 2063
def LIBFPTR_PARAM_USE_BATTERY : Nat := 2064
def LIBFPTR_PARAM_BATTERY_CHARGING : Nat := 2065
def LIBFPTR_PARAM_CAN_PRINT_WHILE_ON_BATTERY : Nat := 2066
def LIBFPTR_PARAM_PRINTER_TEMPERATURE : Nat := 2067
def LIBFPTR_PARAM_NO_SERIAL_NUMBER : Nat := 2068
def LIBFPTR_PARAM_RTC_FAULT : Nat := 2069
def LIBFPTR_PARAM_SETTINGS_FAULT : Nat := 2070
def LIBFPTR_PARAM_COUNTERS_FAULT : Nat := 2071
def LIBFPTR_PARAM_USER_MEMORY_FAULT : Nat := 2072
def LIBFPTR_PARAM_SERVICE_COUNTERS_FAULT : Nat := 2073
def LIBFPTR_PARAM_ATTRIBUTES_FAULT : Nat := 2074
def LIBFPTR_PARAM_FN_FAULT : Nat := 2075
def LIBFPTR_PARAM_INVALID_FN : Nat := 2076
def LIBFPTR_PARAM_HARD_FAULT : Nat := 2077
def LIBFPTR_PARAM_MEMORY_MANAGER_FAULT : Nat := 2078
def LIBFPTR_PARAM_SCRIPTS_FAULT : Nat := 2079
def LIBFPTR_PARAM_WAIT_FOR_REBOOT : Nat := 2080
def LIBFPTR_PARAM_UNIVERSAL_COUNTERS_FAULT : Nat := 2081
def LIBFPTR_PARAM_COMMODITIES_TABLE_FAULT : Nat := 2082
def LIBFPTR_PARAM_MAC_ADDRESS : Nat := 2083
def LIBFPTR_PARAM_ETHERNET_IP : Nat := 2084
def LIBFPTR_PARAM_ETHERNET_MASK : Nat := 2085
def LIBFPTR_PARAM_ETHERNET_GATEWAY : Nat := 2086
def LIBFPTR_PARAM_ETHERNET_DNS_IP : Nat := 2087
def LIBFPTR_PARAM_ETHERNET_CONFIG_TIMEOUT : Nat := 2088
def LIBFPTR_PARAM_ETHERNET_PORT : Nat := 2089
def LIBFPTR_PARAM_ETHERNET_DHCP : Nat := 2090
def LIBFPTR_PARAM_ETHERNET_DNS_STATIC : Nat := 2091
def LIBFPTR_PARAM_WIFI_IP : Nat := 2092
def LIBFPTR_PARAM_WIFI_MASK : Nat := 2093
def LIBFPTR_PARAM_WIFI_GATEWAY : Nat := 2094
def LIBFPTR_PARAM_WIFI_CONFIG_TIMEOUT : Nat := 2095
def LIBFPTR_PARAM_WIFI_PORT : Nat := 2096
def LIBFPTR_PARAM_WIFI_DHCP : Nat := 2097
def LIBFPTR_PARAM_DOCUMENT_CLOSED : Nat := 2098
def LIBFPTR_PARAM_DOCUMENT_PRINTED : Nat := 2099
def LIBFPTR_PARAM_RECORDS_TYPE : Nat := 2100
def LIBFPTR_PARAM_RECORDS_ID : Nat := 2101
def LIBFPTR_PARAM_FN_DOCUMENT_TYPE : Nat := 2102
def LIBFPTR_PARAM_COUNT : Nat := 2103
def LIBFPTR_PARAM_TAG_NUMBER : Nat := 2104
def LIBFPTR_PARAM_TAG_NAME : Nat := 2105
def LIBFPTR_PARAM_TAG_TYPE : Nat := 2106
def LIBFPTR_PARAM_TAG_IS_COMPLEX : Nat := 2107
def LIBFPTR_PARAM_TAG_IS_REPEATABLE : Nat := 2108
def LIBFPTR_PARAM_TAG_VALUE : Nat := 2109
def LIBFPTR_PARAM_LICENSE_NUMBER : Nat := 2110
def LIBFPTR_PARAM_LICENSE_NAME : Nat := 2111
def LIBFPTR_PARAM_LICENSE_VALID_FROM : Nat := 2112
def LIBFPTR_PARAM_LICENSE_VALID_UNTIL : Nat := 2113
def LIBFPTR_PARAM_REGISTRATION_NUMBER : Nat := 2114
def LIBFPTR_PARAM_SETTING_ID : Nat := 2115
def LIBFPTR_PARAM_SETTING_TYPE : Nat := 2116
def LIBFPTR_PARAM_SETTING_NAME : Nat := 2117
def LIBFPTR_PARAM_SETTING_VALUE : Nat := 2118
def LIBFPTR_PARAM_TLV_LIST : Nat := 2119
def LIBFPTR_PARAM_FN_DATA_TYPE : Nat := 2120
def LIBFPTR_PARAM_FISCAL_SIGN : Nat := 2121
def LIBFPTR_PARAM_FN_VERSION : Nat := 2122
def LIBFPTR_PARAM_FN_EXECUTION : Nat := 2123
def LIBFPTR_PARAM_FN_TYPE : Nat := 2124
def LIBFPTR_PARAM_FN_STATE : Nat := 2125
def LIBFPTR_PARAM_FN_FLAGS : Nat := 2126
def LIBFPTR_PARAM_FN_NEED_REPLACEMENT : Nat := 2127
def LIBFPTR_PARAM_FN_RESOURCE_EXHAUSTED : Nat := 2128
def LIBFPTR_PARAM_FN_MEMORY_OVERFLOW : Nat := 2129
def LIBFPTR_PARAM_FN_OFD_TIMEOUT : Nat := 2130
def LIBFPTR_PARAM_FN_CRITICAL_ERROR : Nat := 2131
def LIBFPTR_PARAM_FN_CONTAINS_KEYS_UPDATER_SERVER_URI : Nat := 2132
def LIBFPTR_PARAM_FN_KEYS_UPDATER_SERVER_URI : Nat := 2133
def LIBFPTR_PARAM_OFD_EXCHANGE_STATUS : Nat := 2134
def LIBFPTR_PARAM_LAST_SUCCESSFUL_OKP : Nat := 2135
def LIBFPTR_PARAM_OFD_MESSAGE_READ : Nat := 2136
def LIBFPTR_PARAM_REGISTRATIONS_COUNT : Nat := 2137
def LIBFPTR_PARAM_REGISTRATIONS_REMAIN : Nat := 2138
def LIBFPTR_PARAM_TRADE_MARKED_PRODUCTS : Nat := 2139
def LIBFPTR_PARAM_INSURANCE_ACTIVITY : Nat := 2140
def LIBFPTR_PARAM_PAWN_SHOP_ACTIVITY : Nat := 2141
def LIBFPTR_PARAM_VENDING : Nat := 2142
def LIBFPTR_PARAM_CATERING : Nat := 2143
def LIBFPTR_PARAM_WHOLESALE : Nat := 2144

def LIBFPTR_RT_CLOSE_SHIFT : Int := 3001
def LIBFPTR_RT_X : Int := 3002
def LIBFPTR_DT_STATUS : Int := 3003
def LIBFPTR_DT_SHORT_STATUS : Int := 3004
def LIBFPTR_DT_CASH_SUM : Int := 3005
def LIBFPTR_DT_SHIFT_STATE : Int := 3006
def LIBFPTR_DT_RECEIPT_STATE : Int := 3007
def LIBFPTR_DT_DATE_TIME : Int := 3008
def LIBFPTR_DT_SERIAL_NUMBER : Int := 3009
def LIBFPTR_DT_MODEL_INFO : Int := 3010
def LIBFPTR_DT_RECEIPT_LINE_LENGTH : Int := 3011
def LIBFPTR_DT_UNIT_VERSION : Int := 3012
def LIBFPTR_DT_PAYMENT_SUM : Int := 3013
def LIBFPTR_DT_CASHIN_SUM : Int := 3014
def LIBFPTR_DT_CASHOUT_SUM : Int := 3015
def LIBFPTR_DT_RECEIPT_COUNT : Int := 3016
def LIBFPTR_DT_NON_NULLABLE_SUM : Int := 3017
def LIBFPTR_DT_POWER_SOURCE_STATE : Int := 3018
def LIBFPTR_DT_PRINTER_TEMPERATURE : Int := 3019
def LIBFPTR_DT_FATAL_STATUS : Int := 3020
def LIBFPTR_DT_MAC_ADDRESS : Int := 3021
def LIBFPTR_DT_ETHERNET_INFO : Int := 3022
def LIBFPTR_DT_WIFI_INFO : Int := 3023
def LIBFPTR_ALIGNMENT_LEFT : Int := 3024
def LIBFPTR_TW_NONE : Int := 3025
def LIBFPTR_BT_QR : Int := 3026
def LIBFPTR_UT_FIRMWARE : Int := 3027
def LIBFPTR_UT_CONFIGURATION : Int := 3028
def LIBFPTR_PST_BATTERY : Int := 3029
def LIBFPTR_ST_NUMBER : Int := 3030
def LIBFPTR_ST_BOOL : Int := 3031
def LIBFPTR_ST_STRING : Int := 3032
def LIBFPTR_RT_FN_DOCUMENT_TLVS : Int := 3033
def LIBFPTR_RT_LICENSES : Int := 3034
def LIBFPTR_RT_FN_REGISTRATION_TLVS : Int := 3035
def LIBFPTR_RT_PARSE_COMPLEX_ATTR : Int := 3036
def LIBFPTR_RT_SETTINGS : Int := 3037
def LIBFPTR_FNDT_LAST_RECEIPT : Int := 3038
def LIBFPTR_FNDT_REG_INFO : Int := 3039
def LIBFPTR_FNDT_FN_INFO : Int := 3040
def LIBFPTR_FNDT_OFD_EXCHANGE_STATUS : Int := 3041
def LIBFPTR_FNDT_SHIFT : Int := 3042
def LIBFPTR_FNDT_LAST_DOCUMENT : Int := 3043
def LIBFPTR_FNDT_VALIDITY : Int := 3044
def LIBFPTR_RT_SELL : Int := 3045
def LIBFPTR_RT_SELL_RETURN : Int := 3046
def LIBFPTR_RT_SELL_CORRECTION : Int := 3047
def LIBFPTR_RT_BUY : Int := 3048
def LIBFPTR_RT_BUY_RETURN : Int := 3049
def LIBFPTR_RT_BUY_CORRECTION : Int := 3050
def LIBFPTR_TT_OSN : Int := 1
def LIBFPTR_TT_USN_INCOME : Int := 2
def LIBFPTR_TT_USN_INCOME_OUTCOME : Int := 4
def LIBFPTR_TT_ESN : Int := 16
def LIBFPTR_TT_PATENT : Int := 32
def LIBFPTR_AT_BANK_PAYING_AGENT : Int := 1
def LIBFPTR_AT_BANK_PAYING_SUBAGENT : Int := 2
def LIBFPTR_AT_PAYING_AGENT : Int := 4
def LIBFPTR_AT_PAYING_SUBAGENT : Int := 8
def LIBFPTR_AT_ATTORNEY : Int := 16
def LIBFPTR_AT_COMMISSION_AGENT : Int := 32
def LIBFPTR_AT_ANOTHER : Int := 64
def LIBFPTR_FFD_UNKNOWN : Int := 3060
def LIBFPTR_FFD_1_05 : Int := 3061
def LIBFPTR_FFD_1_1 : Int := 3062
def LIBFPTR_FFD_1_2 : Int := 3063
def LIBFPTR_FNT_UNKNOWN : Int := 3064
def LIBFPTR_FNT_DEBUG : Int := 3065
def LIBFPTR_FNT_RELEASE : Int := 3066
def LIBFPTR_FNS_INITIAL : Int := 3067
def LIBFPTR_FNS_CONFIGURED : Int := 3068
def LIBFPTR_FNS_FISCAL_MODE : Int := 3069
def LIBFPTR_FNS_POSTFISCAL_MODE : Int := 3070
def LIBFPTR_FNS_ACCESS_ARCHIVE : Int := 3071

end IFptr

/-! ## Device oracle

One record produced by the device-side record iterator
(`readNextRecord` populating `LIBFPTR_PARAM_TAG_*`, `LIBFPTR_PARAM_LICENSE_*`
or `LIBFPTR_PARAM_SETTING_*`). Each typed accessor either yields a value
or raises (`none`), matching real firmware that can reject a declared
accessor for a tag. DateTime accessors are total; `none` there models a
non-`datetime.datetime` result (the source guards with `isinstance`). -/
structure DevRecord where
  tagNumber : Option Int := none
  tagName : Option String := none
  tagType : Option Int := none
  isComplex : Option Bool := none
  isRepeatable : Option Bool := none
  valInt : Option Int := none
  valDouble : Option Rat := none
  valString : Option String := none
  valBool : Option Bool := none
  valBytes : Option (List Nat) := none
  licNumber : Option Int := none
  licName : Option String := none
  licFrom : Option PyDateTime := none
  licUntil : Option PyDateTime := none
  setId : Option Int := none
  setType : Option Int := none
  setName : Option String := none
  setValInt : Option Int := none
  setValBool : Option Bool := none
  setValStr : Option String := none
deriving Repr

/-- The vendor `IFptr` session as an oracle: result codes of each driver
operation, the values of readable parameters (with `none` modeling an
accessor that raises), the record stream served by the record iterator,
and the error registers read by `_check_result`. -/
structure Fptr where
  openR : Int := 0
  closeR : Int := 0
  isOpenedR : Bool := false
  operatorLoginR : Int := 0
  openShiftR : Int := 0
  checkDocumentClosedR : Int := 0
  reportR : Int := 0
  openReceiptR : Int := 0
  registrationR : Int := 0
  paymentR : Int := 0
  closeReceiptR : Int := 0
  cancelReceiptR : Int := 0
  beepR : Int := 0
  cashIncomeR : Int := 0
  cashOutcomeR : Int := 0
  printTextR : Int := 0
  printBarcodeR : Int := 0
  printPictureR : Int := 0
  printPictureByNumberR : Int := 0
  beginNonfiscalDocumentR : Int := 0
  endNonfiscalDocumentR : Int := 0
  cutR : Int := 0
  openCashDrawerR : Int := 0
  queryDataR : Int := 0
  fnQueryDataR : Int := 0
  continuePrintR : Int := 0
  beginReadRecordsR : Int := 0
  endReadRecordsR : Int := 0
  getLastDocumentJournalR : Int := 0
  changeLabelOk : Bool := true
  changeLabelErr : String := ""
  records : List DevRecord := []
  paramInt : Nat → Option Int := fun _ => none
  paramString : Nat → Option String := fun _ => none
  paramBool : Nat → Option Bool := fun _ => none
  paramDouble : Nat → Option Rat := fun _ => none
  paramBytes : Nat → Option (List Nat) := fun _ => none
  paramDateTime : Nat → Option PyDateTime := fun _ => none
  errorCode : Int := 0
  errorDescription : String := ""

/-- Trace of driver calls issued while processing one command (used to
state ordering and resource-release properties). -/
inductive DevCall where
  | setParam (p : Nat) (v : Val)
  | setSettingsCall (v : Val)
  | openCall
  | closeCall
  | isOpenedCall
  | operatorLogin
  | openShift
  | checkDocumentClosed
  | report
  | openReceipt
  | registrationCall
  | paymentCall
  | closeReceipt
  | cancelReceipt
  | beep
  | cashIncome
  | cashOutcome
  | printText
  | printBarcode
  | printPicture
  | printPictureByNumber
  | beginNonfiscalDocument
  | endNonfiscalDocument
  | cut
  | openCashDrawer
  | queryData
  | fnQueryData
  | continuePrint
  | changeLabel (v : Val)
  | beginReadRecords
  | readNextRecord
  | endReadRecords
  | getLastDocumentJournal
deriving Repr

/-! ## Processor state and effect monad

`Response` is the `response` dict built by `process_command`; the
handlers mutate only `success`, `message` and `data` (mirrored by the
three setters below). `RState` is the device-visible state: the records
not yet served by `readNextRecord`, the record currently exposed through
the `TAG_*`/`LICENSE_*`/`SETTING_*` parameters, and the call trace. -/

structure Response where
  command_id : Val
  success : Bool
  message : Val
  data : Val
deriving Repr

structure RState where
  remaining : List DevRecord
  current : Option DevRecord
  trace : List DevCall

structure PState where
  resp : Response
  dev : RState

/-- The effect monad of the embedded handlers: state plus Python
exceptions. A raised exception carries the state at the raise point
(Python state is not rolled back by `raise`). -/
def PM (α : Type) : Type := PState → Except (PState × Exn) (α × PState)

def pmPure {α : Type} (a : α) : PM α := fun s => .ok (a, s)

def pmBind {α β : Type} (m : PM α) (f : α → PM β) : PM β := fun s =>
  match m s with
  | .ok (a, s1) => f a s1
  | .error e => .error e

instance : Monad PM where
  pure := pmPure
  bind := pmBind

def pmThrow {α : Type} (e : Exn) : PM α := fun s => .error (s, e)

def setSuccess (b : Bool) : PM Unit := fun s =>
  .ok ((), { s with resp := { s.resp with success := b } })

def setMessage (m : String) : PM Unit := fun s =>
  .ok ((), { s with resp := { s.resp with message := .vStr m } })

def setData (v : Val) : PM Unit := fun s =>
  .ok ((), { s with resp := { s.resp with data := v } })

def logCall (c : DevCall) : PM Unit := fun s =>
  .ok ((), { s with dev := { s.dev with trace := s.dev.trace ++ [c] } })

/-- `fptr.setParam(p, v)`: records the call; the driver accepts any value. -/
def setParamV (p : Nat) (v : Val) : PM Unit := logCall (.setParam p v)

def setParamI (p : Nat) (n : Int) : PM Unit := setParamV p (.vInt n)

def setParamS (p : Nat) (str : String) : PM Unit := setParamV p (.vStr str)

def setParamB (p : Nat) (b : Bool) : PM Unit := setParamV p (.vBool b)

/-- A driver operation with a fixed result code from the oracle. -/
def fptrOp (c : DevCall) (r : Int) : PM Int := do
  logCall c
  pure r

/-- `fptr.readNextRecord()`: returns 0 and exposes the next record while
records remain, a nonzero end-of-records code afterwards. -/
def readNextRecord : PM Int := fun s =>
  match s.dev.remaining with
  | [] => .ok (1, { s with dev := { s.dev with trace := s.dev.trace ++ [.readNextRecord] } })
  | r :: rest =>
    .ok (0, { s with dev := { remaining := rest, current := some r,
                              trace := s.dev.trace ++ [.readNextRecord] } })

def curRecord : PM DevRecord := fun s =>
  match s.dev.current with
  | some r => .ok (r, s)
  | none => .error (s, .exc "no record available")

def ofOptInt (o : Option Int) : PM Int := fun s =>
  match o with
  | some v => .ok (v, s)
  | none => .error (s, .exc "invalid parameter")

def ofOptStr (o : Option String) : PM String := fun s =>
  match o with
  | some v => .ok (v, s)
  | none => .error (s, .exc "invalid parameter")

def ofOptBool (o : Option Bool) : PM Bool := fun s =>
  match o with
  | some v => .ok (v, s)
  | none => .error (s, .exc "invalid parameter")

def ofOptRat (o : Option Rat) : PM Rat := fun s =>
  match o with
  | some v => .ok (v, s)
  | none => .error (s, .exc "invalid parameter")

def ofOptBytes (o : Option (List Nat)) : PM (List Nat) := fun s =>
  match o with
  | some v => .ok (v, s)
  | none => .error (s, .exc "invalid parameter")

/-- `fptr.getParamInt(p)`: record-iterator parameters read the record
currently exposed by `readNextRecord`; other parameters read the device
oracle. -/
def getParamInt (F : Fptr) (p : Nat) : PM Int :=
  if p = IFptr.LIBFPTR_PARAM_TAG_NUMBER then do ofOptInt (← curRecord).tagNumber
  else if p = IFptr.LIBFPTR_PARAM_TAG_TYPE then do ofOptInt (← curRecord).tagType
  else if p = IFptr.LIBFPTR_PARAM_TAG_VALUE then do ofOptInt (← curRecord).valInt
  else if p = IFptr.LIBFPTR_PARAM_LICENSE_NUMBER then do ofOptInt (← curRecord).licNumber
  else if p = IFptr.LIBFPTR_PARAM_SETTING_ID then do ofOptInt (← curRecord).setId
  else if p = IFptr.LIBFPTR_PARAM_SETTING_TYPE then do ofOptInt (← curRecord).setType
  else if p = IFptr.LIBFPTR_PARAM_SETTING_VALUE then do ofOptInt (← curRecord).setValInt
  else ofOptInt (F.paramInt p)

def getParamString (F : Fptr) (p : Nat) : PM String :=
  if p = IFptr.LIBFPTR_PARAM_TAG_NAME then do ofOptStr (← curRecord).tagName
  else if p = IFptr.LIBFPTR_PARAM_TAG_VALUE then do ofOptStr (← curRecord).valString
  else if p = IFptr.LIBFPTR_PARAM_LICENSE_NAME then do ofOptStr (← curRecord).licName
  else if p = IFptr.LIBFPTR_PARAM_SETTING_NAME then do ofOptStr (← curRecord).setName
  else if p = IFptr.LIBFPTR_PARAM_SETTING_VALUE then do ofOptStr (← curRecord).setValStr
  else ofOptStr (F.paramString p)

def getParamBool (F : Fptr) (p : Nat) : PM Bool :=
  if p = IFptr.LIBFPTR_PARAM_TAG_IS_COMPLEX then do ofOptBool (← curRecord).isComplex
  else if p = IFptr.LIBFPTR_PARAM_TAG_IS_REPEATABLE then do ofOptBool (← curRecord).isRepeatable
  else if p = IFptr.LIBFPTR_PARAM_TAG_VALUE then do ofOptBool (← curRecord).valBool
  else if p = IFptr.LIBFPTR_PARAM_SETTING_VALUE then do ofOptBool (← curRecord).setValBool
  else ofOptBool (F.paramBool p)

def getParamDouble (F : Fptr) (p : Nat) : PM Rat :=
  if p = IFptr.LIBFPTR_PARAM_TAG_VALUE then do ofOptRat (← curRecord).valDouble
  else ofOptRat (F.paramDouble p)

def getParamByteArray (F : Fptr) (p : Nat) : PM (List Nat) :=
  if p = IFptr.LIBFPTR_PARAM_TAG_VALUE then do ofOptBytes (← curRecord).valBytes
  else ofOptBytes (F.paramBytes p)

/-- `fptr.getParamDateTime(p)`: total; `none` is a non-datetime result,
handled by the source's `isinstance` checks. -/
def getParamDateTime (F : Fptr) (p : Nat) : PM (Option PyDateTime) :=
  if p = IFptr.LIBFPTR_PARAM_LICENSE_VALID_FROM then do pure (← curRecord).licFrom
  else if p = IFptr.LIBFPTR_PARAM_LICENSE_VALID_UNTIL then do pure (← curRecord).licUntil
  else pure (F.paramDateTime p)

/-- `CommandProcessor._check_result`: raises `AtolDriverError` with the
driver's error registers when the result code is negative.
`AtolDriverError.__init__` defaults `error_description` to the message. -/
def check_result (F : Fptr) (result : Int) (operation : String) : PM Unit :=
  if result < 0 then
    pmThrow (.atol ("Ошибка " ++ operation ++ ": " ++ F.errorDescription)
      (some F.errorCode)
      ("Ошибка " ++ operation ++ ": " ++ F.errorDescription))
  else pure ()

/-! ## kwargs access (Python mapping semantics) -/

/-- `k in kwargs`. Non-mapping kwargs raise (the model restricts the
containment test to mappings; the spec defines `kwargs` as a mapping). -/
def kwIn (kwargs : Val) (k : String) : PM Bool :=
  match kwargs with
  | .vDict m => pure (dlookup m k).isSome
  | _ => pmThrow (.typeError "argument is not a mapping")

/-- `kwargs[k]`: `KeyError` on a missing key, `TypeError` when kwargs is
not subscriptable. -/
def kwGet (kwargs : Val) (k : String) : PM Val :=
  match kwargs with
  | .vDict m =>
    match dlookup m k with
    | some v => pure v
    | none => pmThrow (.keyError k)
  | _ => pmThrow (.typeError "object is not subscriptable")

/-- `kwargs.get(k, d)`: `AttributeError` when kwargs is not a mapping. -/
def kwGetD (kwargs : Val) (k : String) (d : Val) : PM Val :=
  match kwargs with
  | .vDict m => pure ((dlookup m k).getD d)
  | _ => pmThrow (.attributeError "object has no attribute get")

/-- `kwargs.items()`. -/
def kwItems (kwargs : Val) : PM (List (String × Val)) :=
  match kwargs with
  | .vDict m => pure m
  | _ => pmThrow (.attributeError "object has no attribute items")

/-! ## Configuration (`settings.py`) and Redis collaborator -/

/-- The fields of `Settings` this core reads. Environment-derived;
defaults are `cashier_name = "Кассир"`, `cashier_inn = ""`. -/
structure Settings where
  cashier_name : String := "Кассир"
  cashier_inn : String := ""

/-- A Redis hash key or field name as seen by Python code: `str` and
`bytes` of the same content are distinct and never compare equal. -/
inductive RKey where
  | kstr (s : String)
  | kbytes (s : String)
deriving Repr, DecidableEq

/-- A Redis hash value: `str` (from a client with `decode_responses=True`)
or `bytes` (otherwise). -/
inductive RVal where
  | rstr (s : String)
  | rbytes (s : String)
deriving Repr, DecidableEq

/-- `v.decode('utf-8')`: defined on bytes; `str` has no `decode`
(AttributeError). -/
def rdecode : RVal → Except Exn String
  | .rbytes s => .ok s
  | .rstr _ => .error (.attributeError "str object has no attribute decode")

/-- `d.get(k, default)` over the materialized hash dict. -/
def rkGet (d : List (RKey × RVal)) (k : RKey) (dflt : RVal) : RVal :=
  match d.find? (fun p => p.1 == k) with
  | some p => p.2
  | none => dflt

/-- The Redis collaborator: the logical store keeps hashes with plain
string fields and values (the wire content); `decodeResponses` mirrors
the `decode_responses` flag of the `redis.Redis` client, deciding
whether `hgetall` materializes `str` or `bytes` keys and values.
`hgetallFails` models an unreachable store (the call raising). -/
structure RedisClient where
  decodeResponses : Bool
  hashes : List (String × List (String × String)) := []
  hgetallFails : Bool := false

/-- `client.hgetall(key)`: an absent key yields an empty hash. -/
def hgetall (c : RedisClient) (key : String) : Except Exn (List (RKey × RVal)) :=
  if c.hgetallFails then .error (.exc "redis connection error")
  else
    match c.hashes.find? (fun p => p.1 == key) with
    | some p =>
      .ok (p.2.map (fun q =>
        if c.decodeResponses then (RKey.kstr q.1, RVal.rstr q.2)
        else (RKey.kbytes q.1, RVal.rbytes q.2)))
    | none => .ok []

/-- `CommandProcessor._get_cashier` (run_queue.py lines 20-51):
priority 1 a non-empty `cashier_name` in kwargs; priority 2 the Redis
hash `cashier:{device_id}`, read inside `try/except` with **bytes** keys
`b"cashier_name"`/`b"cashier_inn"` and `.decode('utf-8')` on the
results; priority 3 the configured defaults. -/
def get_cashier (cli : Option RedisClient) (cfg : Settings) (device_id : Val)
    (kwargs : Val) : Except Exn (Val × Val) :=
  match kwargs with
  | .vDict m =>
    -- Приоритет 1: из параметров запроса
    let fromKwargs : Option (Val × Val) :=
      if (dlookup m "cashier_name").isSome then
        let cashier_name := (dlookup m "cashier_name").getD .vNull
        let cashier_inn := (dlookup m "cashier_inn").getD (.vStr "")
        if pyTruthy cashier_name then some (cashier_name, cashier_inn) else none
      else none
    match fromKwargs with
    | some r => .ok r
    | none =>
      -- Приоритет 2: из Redis (весь блок в try/except: любая ошибка — fallthrough)
      let fromRedis : Option (Val × Val) :=
        match cli with
        | none => none
        | some c =>
          match hgetall c ("cashier:" ++ pyStr device_id) with
          | .error _ => none
          | .ok cashier_data =>
            if !cashier_data.isEmpty then
              match rdecode (rkGet cashier_data (.kbytes "cashier_name") (.rbytes "")) with
              | .error _ => none
              | .ok cashier_name =>
                match rdecode (rkGet cashier_data (.kbytes "cashier_inn") (.rbytes "")) with
                | .error _ => none
                | .ok cashier_inn =>
                  if cashier_name ≠ "" then some (.vStr cashier_name, .vStr cashier_inn)
                  else none
            else none
      match fromRedis with
      | some r => .ok r
      | none =>
        -- Приоритет 3: из настроек
        .ok (.vStr cfg.cashier_name, .vStr cfg.cashier_inn)
  | _ => .error (.typeError "argument is not a mapping")

def liftE {α : Type} (e : Except Exn α) : PM α := fun s =>
  match e with
  | .ok a => .ok (a, s)
  | .error ex => .error (s, ex)

/-! ## Beep helpers (`_play_beep`, `_play_arcane_melody`) -/

def play_beep (F : Fptr) (frequency duration : Val) : PM Unit := do
  setParamV IFptr.LIBFPTR_PARAM_FREQUENCY frequency
  setParamV IFptr.LIBFPTR_PARAM_DURATION duration
  check_result F (← fptrOp .beep F.beepR) "подачи звукового сигнала"

/-- The note list of `_play_arcane_melody` (frequency Hz, duration ms). -/
def arcaneMelody : List (Int × Int) :=
  [(392, 200), (392, 200), (440, 300), (392, 200), (100, 150),
   (349, 200), (392, 200), (440, 200), (494, 400), (100, 150),
   (523, 250), (494, 250), (440, 250), (392, 400), (100, 200),
   (440, 200), (392, 200), (349, 200), (392, 200), (440, 400), (100, 150),
   (523, 300), (494, 200), (440, 200), (392, 500), (100, 200),
   (392, 150), (392, 150), (440, 150), (440, 150), (494, 300), (523, 300), (100, 100),
   (523, 200), (494, 200), (440, 200), (392, 400), (100, 150),
   (349, 200), (392, 200), (440, 300), (494, 500), (100, 200),
   (523, 200), (523, 200), (494, 200), (440, 200), (392, 400), (100, 150),
   (587, 250), (523, 250), (494, 250), (440, 250), (392, 600), (100, 200),
   (392, 800)]

def playNotes (F : Fptr) : List (Int × Int) → PM Unit
  | [] => pure ()
  | n :: rest => do
    play_beep F (.vInt n.1) (.vInt n.2)
    playNotes F rest

/-- `_play_arcane_melody`: plays each note; any failure is caught and
re-raised as `AtolDriverError(f"Не удалось сыграть мелодию: {e}")`
without an error code. -/
def play_arcane_melody (F : Fptr) : PM Unit := fun s =>
  match playNotes F arcaneMelody s with
  | .ok (_, s1) => .ok ((), s1)
  | .error (s1, e) =>
    .error (s1, .atol ("Не удалось сыграть мелодию: " ++ exnStr e) none
      ("Не удалось сыграть мелодию: " ++ exnStr e))

/-! ## Small Python helpers used inside handlers -/

/-- `"{:.2f}".format(q)` on an exact rational (CPython formats the binary
double; the model rounds the exact value — no claim depends on the
rounding mode). -/
def ratFmt2 (q : Rat) : String :=
  let c : Int := round (q * 100)
  let a := c.natAbs
  (if c < 0 then "-" else "") ++ toString (a / 100) ++ "." ++ pad2 (a % 100)

/-- `f"{v:.2f}"`: numbers format, other values raise. -/
def pyFmt2 (v : Val) : PM String :=
  match v with
  | .vInt n => pure (ratFmt2 (n : Rat))
  | .vFloat q => pure (ratFmt2 q)
  | .vBool b => pure (if b then "1.00" else "0.00")
  | _ => pmThrow (.typeError "unsupported format string passed to format")

/-- `d.get(k, default)` over an int-keyed literal dict of names. -/
def intDictGet (d : List (Int × String)) (k : Int) (dflt : String) : String :=
  match d.find? (fun p => p.1 == k) with
  | some p => p.2
  | none => dflt

/-- `range(v)` iteration count: ints only (`bool` is an int). -/
def pyRangeCount (v : Val) : PM Nat :=
  match v with
  | .vInt n => pure n.toNat
  | .vBool b => pure (if b then 1 else 0)
  | _ => pmThrow (.typeError "object cannot be interpreted as an integer")

def valToByteList : List Val → Option (List Nat)
  | [] => some []
  | .vInt n :: rest =>
    if 0 ≤ n ∧ n < 256 then (valToByteList rest).map (fun bs => n.toNat :: bs)
    else none
  | _ :: _ => none

/-- Python `bytes(v)`: bytes pass through, a list of ints in 0..255
converts, an int `n` gives `n` zero bytes, anything else raises. -/
def pyBytes (v : Val) : PM (List Nat) :=
  match v with
  | .vBytes bs => pure bs
  | .vList l =>
    match valToByteList l with
    | some bs => pure bs
    | none => pmThrow (.exc "bytes() argument invalid")
  | .vInt n => if 0 ≤ n then pure (List.replicate n.toNat 0)
               else pmThrow (.exc "negative count")
  | _ => pmThrow (.typeError "cannot convert to bytes")

/-- `if k in kwargs: fptr.setParam(p, kwargs[k])` — the optional-parameter
pattern of the print handlers: absence leaves the device setting alone. -/
def optSetParam (kwargs : Val) (k : String) (p : Nat) : PM Unit := do
  if ← kwIn kwargs k then setParamV p (← kwGet kwargs k) else pure ()

/-- `if 'defer' in kwargs and kwargs['defer'] != 0: setParam(DEFER, ...)`. -/
def optSetDefer (kwargs : Val) : PM Unit := do
  if ← kwIn kwargs "defer" then
    let v ← kwGet kwargs "defer"
    if !(pyEqInt v 0) then setParamV IFptr.LIBFPTR_PARAM_DEFER v else pure ()
  else pure ()

/-- `dt.isoformat() if isinstance(dt, datetime.datetime) else None`. -/
def dtIsoOrNull (o : Option PyDateTime) : Val :=
  match o with
  | some t => .vStr (pyIsoformat t)
  | none => .vNull

/-- `dt.strftime("%Y-%m-%d %H:%M:%S") if dt else None`. -/
def dtFullOrNull (o : Option PyDateTime) : Val :=
  match o with
  | some t => .vStr (pyStrftimeFull t)
  | none => .vNull

/-- A `try:`-wrapped run of Bool parameter reads assigned one by one into
the local `data` dict: assignments made before a failing read are kept,
the failure itself is swallowed (`except: pass`). -/
def tryBoolFields (F : Fptr) : List (String × Nat) → List (String × Val) →
    PM (List (String × Val))
  | [], d => pure d
  | (k, p) :: rest, d => fun s =>
    match getParamBool F p s with
    | .ok (b, s1) => tryBoolFields F rest (d ++ [(k, .vBool b)]) s1
    | .error (s1, _) => .ok (d, s1)

/-- Same pattern for a String parameter read. -/
def tryStrFields (F : Fptr) : List (String × Nat) → List (String × Val) →
    PM (List (String × Val))
  | [], d => pure d
  | (k, p) :: rest, d => fun s =>
    match getParamString F p s with
    | .ok (v, s1) => tryStrFields F rest (d ++ [(k, .vStr v)]) s1
    | .error (s1, _) => .ok (d, s1)

/-! ## Command handlers (`CommandProcessor.process_command` branches)

Each `h...` definition is the body of one `elif command == '...'` branch,
translated statement by statement. Handlers mutate only `success`,
`message` and `data` of the response (`setSuccess` / `setMessage` /
`setData`), exactly as the source assigns only those keys. -/

/-- `if 'settings' in kwargs and kwargs['settings'] is not None:
fptr.setSettings(json.dumps(kwargs['settings']))`. -/
def connOpenSettings (kwargs : Val) : PM Unit := do
  if ← kwIn kwargs "settings" then
    let v ← kwGet kwargs "settings"
    match v with
    | .vNull => pure ()
    | _ => logCall (.setSettingsCall v)
  else pure ()

def hConnectionOpen (F : Fptr) (kwargs : Val) : PM Unit := do
  connOpenSettings kwargs
  check_result F (← fptrOp .openCall F.openR) "открытия соединения"
  setSuccess true
  setMessage "Соединение с ККТ успешно установлено"

def hConnectionClose (F : Fptr) : PM Unit := do
  check_result F (← fptrOp .closeCall F.closeR) "закрытия соединения"
  setSuccess true
  setMessage "Соединение с ККТ закрыто"

def fptrIsOpened (F : Fptr) : PM Bool := do
  logCall .isOpenedCall
  pure F.isOpenedR

def hConnectionIsOpened (F : Fptr) : PM Unit := do
  let is_opened ← fptrIsOpened F
  setSuccess true
  let msg := if is_opened then "Соединение активно" else "Соединение не установлено"
  setMessage msg
  setData (.vDict [("is_opened", .vBool is_opened), ("message", .vStr msg)])

/-- `if cashier_inn: fptr.setParam(1203, cashier_inn)` — the conditional
operator-INN parameter shared by the cashier and operator logins. -/
def setParam1203If (v : Val) : PM Unit :=
  if pyTruthy v then setParamV 1203 v else pure ()

/-- Shared prologue of `shift_open`/`shift_close`/`shift_print_x_report`/
`receipt_open`: resolve the cashier, set operator parameters, login. -/
def cashierLogin (F : Fptr) (cli : Option RedisClient) (cfg : Settings)
    (device_id kwargs : Val) : PM Unit := do
  let c ← liftE (get_cashier cli cfg device_id kwargs)
  setParamV 1021 c.1
  setParam1203If c.2
  check_result F (← fptrOp .operatorLogin F.operatorLoginR) "регистрации кассира"

def hShiftOpen (F : Fptr) (cli : Option RedisClient) (cfg : Settings)
    (device_id kwargs : Val) : PM Unit := do
  cashierLogin F cli cfg device_id kwargs
  check_result F (← fptrOp .openShift F.openShiftR) "открытия смены"
  check_result F (← fptrOp .checkDocumentClosed F.checkDocumentClosedR)
    "проверки закрытия документа"
  let shift_number ← getParamInt F IFptr.LIBFPTR_PARAM_SHIFT_NUMBER
  setSuccess true
  setMessage ("Смена #" ++ toString shift_number ++ " успешно открыта")
  setData (.vDict [("shift_number", .vInt shift_number)])

def hShiftClose (F : Fptr) (cli : Option RedisClient) (cfg : Settings)
    (device_id kwargs : Val) : PM Unit := do
  cashierLogin F cli cfg device_id kwargs
  setParamI IFptr.LIBFPTR_PARAM_REPORT_TYPE IFptr.LIBFPTR_RT_CLOSE_SHIFT
  check_result F (← fptrOp .report F.reportR) "закрытия смены"
  check_result F (← fptrOp .checkDocumentClosed F.checkDocumentClosedR)
    "проверки закрытия документа"
  setSuccess true
  let sn ← getParamInt F IFptr.LIBFPTR_PARAM_SHIFT_NUMBER
  let fdn ← getParamInt F IFptr.LIBFPTR_PARAM_FISCAL_DOCUMENT_NUMBER
  setData (.vDict [("shift_number", .vInt sn), ("fiscal_document_number", .vInt fdn)])
  setMessage "Смена успешно закрыта, Z-отчет напечатан"

def shiftStateNames : List (Int × String) :=
  [(0, "Смена закрыта"), (1, "Смена открыта"), (2, "Смена истекла (больше 24 часов)")]

def hShiftGetStatus (F : Fptr) : PM Unit := do
  setParamI IFptr.LIBFPTR_PARAM_DATA_TYPE IFptr.LIBFPTR_DT_SHIFT_STATE
  check_result F (← fptrOp .queryData F.queryDataR) "запроса состояния смены"
  let dt ← getParamDateTime F IFptr.LIBFPTR_PARAM_DATE_TIME
  let shift_state ← getParamInt F IFptr.LIBFPTR_PARAM_SHIFT_STATE
  let shift_number ← getParamInt F IFptr.LIBFPTR_PARAM_SHIFT_NUMBER
  setSuccess true
  setData (.vDict
    [("shift_state", .vInt shift_state),
     ("shift_state_name", .vStr (intDictGet shiftStateNames shift_state
        ("Неизвестное состояние (" ++ toString shift_state ++ ")"))),
     ("shift_number", .vInt shift_number),
     ("date_time", dtIsoOrNull dt)])
  setMessage "Статус смены получен"

def hShiftPrintXReport (F : Fptr) (cli : Option RedisClient) (cfg : Settings)
    (device_id kwargs : Val) : PM Unit := do
  cashierLogin F cli cfg device_id kwargs
  setParamI IFptr.LIBFPTR_PARAM_REPORT_TYPE IFptr.LIBFPTR_RT_X
  check_result F (← fptrOp .report F.reportR) "печати X-отчета"
  setSuccess true
  setMessage "X-отчет успешно напечатан"

/-- `if kwargs.get('customer_contact'): ...` — the electronic-receipt
parameters of `receipt_open`. -/
def receiptOpenContact (kwargs : Val) : PM Unit := do
  let contact ← kwGetD kwargs "customer_contact" .vNull
  if pyTruthy contact then
    setParamB IFptr.LIBFPTR_PARAM_RECEIPT_ELECTRONICALLY true
    setParamV IFptr.LIBFPTR_PARAM_BUYER_EMAIL_OR_PHONE (← kwGet kwargs "customer_contact")
  else pure ()

def hReceiptOpen (F : Fptr) (cli : Option RedisClient) (cfg : Settings)
    (device_id kwargs : Val) : PM Unit := do
  cashierLogin F cli cfg device_id kwargs
  setParamV IFptr.LIBFPTR_PARAM_RECEIPT_TYPE (← kwGet kwargs "receipt_type")
  receiptOpenContact kwargs
  check_result F (← fptrOp .openReceipt F.openReceiptR) "открытия чека"
  setSuccess true
  setMessage ("Чек типа " ++ pyStr (← kwGet kwargs "receipt_type") ++ " успешно открыт")

/-- One iteration of the `for key, value in kwargs.items()` loop of the
`registration` handler. -/
def regSetOne (k : String) (v : Val) : PM Unit :=
  if k == "name" then setParamV IFptr.LIBFPTR_PARAM_COMMODITY_NAME v
  else if k == "price" then setParamV IFptr.LIBFPTR_PARAM_PRICE v
  else if k == "quantity" then setParamV IFptr.LIBFPTR_PARAM_QUANTITY v
  else if k == "tax_type" then setParamV IFptr.LIBFPTR_PARAM_TAX_TYPE v
  else if k == "payment_method" then setParamV IFptr.LIBFPTR_PARAM_PAYMENT_TYPE_SIGN v
  else if k == "payment_object" then setParamV IFptr.LIBFPTR_PARAM_COMMODITY_SIGN v
  else pure ()

def regSetParams : List (String × Val) → PM Unit
  | [] => pure ()
  | (k, v) :: rest => do
    regSetOne k v
    regSetParams rest

def hRegistration (F : Fptr) (kwargs : Val) : PM Unit := do
  regSetParams (← kwItems kwargs)
  check_result F (← fptrOp .registrationCall F.registrationR) "регистрации позиции"
  setSuccess true
  setMessage ("Позиция '" ++ pyStr (← kwGet kwargs "name") ++ "' добавлена")

def hPayment (F : Fptr) (kwargs : Val) : PM Unit := do
  setParamV IFptr.LIBFPTR_PARAM_PAYMENT_TYPE (← kwGet kwargs "payment_type")
  setParamV IFptr.LIBFPTR_PARAM_PAYMENT_SUM (← kwGet kwargs "sum")
  check_result F (← fptrOp .paymentCall F.paymentR) "регистрации оплаты"
  setSuccess true
  setMessage ("Оплата " ++ (← pyFmt2 (← kwGet kwargs "sum")) ++ " добавлена")

def hReceiptClose (F : Fptr) : PM Unit := do
  check_result F (← fptrOp .closeReceipt F.closeReceiptR) "закрытия чека"
  setSuccess true
  setData .vNull
  setMessage "Чек успешно закрыт и напечатан"

def hReceiptCancel (F : Fptr) : PM Unit := do
  check_result F (← fptrOp .cancelReceipt F.cancelReceiptR) "отмены чека"
  setSuccess true
  setMessage "Чек отменен"

def hBeep (F : Fptr) (kwargs : Val) : PM Unit := do
  let frequency ← kwGetD kwargs "frequency" (.vInt 2000)
  let duration ← kwGetD kwargs "duration" (.vInt 100)
  play_beep F frequency duration
  setSuccess true
  setMessage ("Звуковой сигнал воспроизведен (частота: " ++ pyStr frequency ++
    " Гц, длительность: " ++ pyStr duration ++ " мс)")

def hPlayArcaneMelody (F : Fptr) : PM Unit := do
  play_arcane_melody F
  setSuccess true
  setMessage "Мелодия 'Enemy' из Arcane успешно воспроизведена!"

def hCashIncome (F : Fptr) (kwargs : Val) : PM Unit := do
  setParamV IFptr.LIBFPTR_PARAM_SUM (← kwGet kwargs "amount")
  check_result F (← fptrOp .cashIncome F.cashIncomeR) "внесения наличных"
  setSuccess true
  setMessage ("Внесено наличных: " ++ (← pyFmt2 (← kwGet kwargs "amount")))

def hCashOutcome (F : Fptr) (kwargs : Val) : PM Unit := do
  setParamV IFptr.LIBFPTR_PARAM_SUM (← kwGet kwargs "amount")
  check_result F (← fptrOp .cashOutcome F.cashOutcomeR) "выплаты наличных"
  setSuccess true
  setMessage ("Выплачено наличных: " ++ (← pyFmt2 (← kwGet kwargs "amount")))

def hPrintText (F : Fptr) (kwargs : Val) : PM Unit := do
  let text ← kwGetD kwargs "text" (.vStr "")
  -- Обязательные параметры
  setParamV IFptr.LIBFPTR_PARAM_TEXT text
  setParamV IFptr.LIBFPTR_PARAM_ALIGNMENT
    (← kwGetD kwargs "alignment" (.vInt IFptr.LIBFPTR_ALIGNMENT_LEFT))
  setParamV IFptr.LIBFPTR_PARAM_TEXT_WRAP
    (← kwGetD kwargs "wrap" (.vInt IFptr.LIBFPTR_TW_NONE))
  -- Опциональные параметры
  optSetParam kwargs "font" IFptr.LIBFPTR_PARAM_FONT
  optSetParam kwargs "double_width" IFptr.LIBFPTR_PARAM_FONT_DOUBLE_WIDTH
  optSetParam kwargs "double_height" IFptr.LIBFPTR_PARAM_FONT_DOUBLE_HEIGHT
  optSetParam kwargs "linespacing" IFptr.LIBFPTR_PARAM_LINESPACING
  optSetParam kwargs "brightness" IFptr.LIBFPTR_PARAM_BRIGHTNESS
  optSetDefer kwargs
  check_result F (← fptrOp .printText F.printTextR) "печати текста"
  setSuccess true
  setMessage ("Текст напечатан: '" ++ pyStr text ++ "'")

def feedLoop (F : Fptr) : Nat → PM Unit
  | 0 => pure ()
  | n + 1 => do
    check_result F (← fptrOp .printText F.printTextR) "промотки ленты"
    feedLoop F n

def hPrintFeed (F : Fptr) (kwargs : Val) : PM Unit := do
  let lines ← kwGetD kwargs "lines" (.vInt 1)
  feedLoop F (← pyRangeCount lines)
  setSuccess true
  setMessage ("Промотано строк: " ++ pyStr lines)

def hPrintBarcode (F : Fptr) (kwargs : Val) : PM Unit := do
  let barcode ← kwGet kwargs "barcode"
  -- Обязательные параметры
  setParamV IFptr.LIBFPTR_PARAM_BARCODE barcode
  setParamV IFptr.LIBFPTR_PARAM_BARCODE_TYPE
    (← kwGetD kwargs "barcode_type" (.vInt IFptr.LIBFPTR_BT_QR))
  setParamV IFptr.LIBFPTR_PARAM_ALIGNMENT
    (← kwGetD kwargs "alignment" (.vInt IFptr.LIBFPTR_ALIGNMENT_LEFT))
  setParamV IFptr.LIBFPTR_PARAM_SCALE (← kwGetD kwargs "scale" (.vInt 2))
  -- Опциональные параметры
  optSetParam kwargs "left_margin" IFptr.LIBFPTR_PARAM_LEFT_MARGIN
  optSetParam kwargs "invert" IFptr.LIBFPTR_PARAM_BARCODE_INVERT
  optSetParam kwargs "height" IFptr.LIBFPTR_PARAM_HEIGHT
  optSetParam kwargs "print_text" IFptr.LIBFPTR_PARAM_BARCODE_PRINT_TEXT
  optSetParam kwargs "correction" IFptr.LIBFPTR_PARAM_BARCODE_CORRECTION
  optSetParam kwargs "version" IFptr.LIBFPTR_PARAM_BARCODE_VERSION
  optSetParam kwargs "columns" IFptr.LIBFPTR_PARAM_BARCODE_COLUMNS
  optSetDefer kwargs
  check_result F (← fptrOp .printBarcode F.printBarcodeR) "печати штрихкода"
  setSuccess true
  setMessage ("Штрихкод напечатан: '" ++ pyStr barcode ++ "'")

def hPrintPicture (F : Fptr) (kwargs : Val) : PM Unit := do
  let filename ← kwGet kwargs "filename"
  setParamV IFptr.LIBFPTR_PARAM_FILENAME filename
  setParamV IFptr.LIBFPTR_PARAM_ALIGNMENT
    (← kwGetD kwargs "alignment" (.vInt IFptr.LIBFPTR_ALIGNMENT_LEFT))
  setParamV IFptr.LIBFPTR_PARAM_SCALE_PERCENT (← kwGetD kwargs "scale_percent" (.vInt 100))
  optSetParam kwargs "left_margin" IFptr.LIBFPTR_PARAM_LEFT_MARGIN
  check_result F (← fptrOp .printPicture F.printPictureR) "печати картинки"
  setSuccess true
  setMessage ("Картинка напечатана: '" ++ pyStr filename ++ "'")

def hPrintPictureByNumber (F : Fptr) (kwargs : Val) : PM Unit := do
  let picture_number ← kwGet kwargs "picture_number"
  setParamV IFptr.LIBFPTR_PARAM_PICTURE_NUMBER picture_number
  setParamV IFptr.LIBFPTR_PARAM_ALIGNMENT
    (← kwGetD kwargs "alignment" (.vInt IFptr.LIBFPTR_ALIGNMENT_LEFT))
  optSetParam kwargs "left_margin" IFptr.LIBFPTR_PARAM_LEFT_MARGIN
  optSetDefer kwargs
  check_result F (← fptrOp .printPictureByNumber F.printPictureByNumberR)
    "печати картинки из памяти"
  setSuccess true
  setMessage ("Картинка №" ++ pyStr picture_number ++ " напечатана")

def hOpenNonfiscalDocument (F : Fptr) : PM Unit := do
  check_result F (← fptrOp .beginNonfiscalDocument F.beginNonfiscalDocumentR)
    "открытия нефискального документа"
  setSuccess true
  setMessage "Нефискальный документ открыт"

def hCloseNonfiscalDocument (F : Fptr) : PM Unit := do
  check_result F (← fptrOp .endNonfiscalDocument F.endNonfiscalDocumentR)
    "закрытия нефискального документа"
  setSuccess true
  setMessage "Нефискальный документ закрыт"

def hCutPaper (F : Fptr) : PM Unit := do
  check_result F (← fptrOp .cut F.cutR) "отрезания чека"
  setSuccess true
  setMessage "Чек отрезан"

def hOpenCashDrawer (F : Fptr) : PM Unit := do
  check_result F (← fptrOp .openCashDrawer F.openCashDrawerR) "открытия денежного ящика"
  setSuccess true
  setMessage "Денежный ящик открыт"

def hPrintXReport (F : Fptr) : PM Unit := do
  setParamI IFptr.LIBFPTR_PARAM_REPORT_TYPE IFptr.LIBFPTR_RT_X
  check_result F (← fptrOp .report F.reportR) "печати X-отчета"
  setSuccess true
  setMessage "X-отчет напечатан"

def hOperatorLogin (F : Fptr) (kwargs : Val) : PM Unit := do
  let operator_name ← kwGet kwargs "operator_name"
  let operator_vatin ← kwGetD kwargs "operator_vatin" (.vStr "")
  setParamV 1021 operator_name
  setParam1203If operator_vatin
  check_result F (← fptrOp .operatorLogin F.operatorLoginR) "регистрации кассира"
  setSuccess true
  setMessage ("Кассир '" ++ pyStr operator_name ++ "' зарегистрирован")

def hContinuePrint (F : Fptr) : PM Unit := do
  check_result F (← fptrOp .continuePrint F.continuePrintR) "допечатывания документа"
  setSuccess true
  setMessage "Документ допечатан"

def hCheckDocumentClosed (F : Fptr) : PM Unit := do
  check_result F (← fptrOp .checkDocumentClosed F.checkDocumentClosedR)
    "проверки закрытия документа"
  setData (.vDict
    [("document_closed", .vBool (← getParamBool F IFptr.LIBFPTR_PARAM_DOCUMENT_CLOSED)),
     ("document_printed", .vBool (← getParamBool F IFptr.LIBFPTR_PARAM_DOCUMENT_PRINTED))])
  setSuccess true
  setMessage "Состояние документа проверено"

/-- `configure_logging` starts with `from .config.logging_config import
LoggingConfig`. `run_queue.py` is executed as a top-level module (not a
package), so the relative import always raises `ImportError` — and no
`config` module exists in the repository at all. The rest of the branch
is unreachable. -/
def hConfigureLogging : PM Unit :=
  pmThrow (.importError "attempted relative import with no known parent package")

/-- `AtolDriver.change_label` (driver.py): `self.fptr` is always set
after construction; the external `changeLabel` call is wrapped in
`try/except`, any failure re-raised as
`AtolDriverError(f"Не удалось изменить метку: {e}")` without a code. -/
def change_label (F : Fptr) (label : Val) : PM Unit := do
  logCall (.changeLabel label)
  if F.changeLabelOk then pure ()
  else pmThrow (.atol ("Не удалось изменить метку: " ++ F.changeLabelErr) none
    ("Не удалось изменить метку: " ++ F.changeLabelErr))

def hChangeDriverLabel (F : Fptr) (kwargs : Val) : PM Unit := do
  let label ← kwGet kwargs "label"
  change_label F label
  setSuccess true
  setMessage ("Метка драйвера изменена на: " ++ pyStr label)

/-- `get_default_logging_config` starts with the same doomed relative
module import as `configure_logging`. -/
def hGetDefaultLoggingConfig : PM Unit :=
  pmThrow (.importError "attempted relative import with no known parent package")

def hGetStatus (F : Fptr) : PM Unit := do
  setParamI IFptr.LIBFPTR_PARAM_DATA_TYPE IFptr.LIBFPTR_DT_STATUS
  check_result F (← fptrOp .queryData F.queryDataR) "запроса статуса"
  setData (.vDict
    [("model_name", .vStr (← getParamString F IFptr.LIBFPTR_PARAM_MODEL_NAME)),
     ("serial_number", .vStr (← getParamString F IFptr.LIBFPTR_PARAM_SERIAL_NUMBER)),
     ("shift_state", .vInt (← getParamInt F IFptr.LIBFPTR_PARAM_SHIFT_STATE)),
     ("cover_opened", .vBool (← getParamBool F IFptr.LIBFPTR_PARAM_COVER_OPENED)),
     ("paper_present", .vBool (← getParamBool F IFptr.LIBFPTR_PARAM_RECEIPT_PAPER_PRESENT))])
  setSuccess true

def hGetShortStatus (F : Fptr) : PM Unit := do
  setParamI IFptr.LIBFPTR_PARAM_DATA_TYPE IFptr.LIBFPTR_DT_SHORT_STATUS
  check_result F (← fptrOp .queryData F.queryDataR) "короткого запроса статуса"
  setData (.vDict
    [("cashdrawer_opened", .vBool (← getParamBool F IFptr.LIBFPTR_PARAM_CASHDRAWER_OPENED)),
     ("paper_present", .vBool (← getParamBool F IFptr.LIBFPTR_PARAM_RECEIPT_PAPER_PRESENT)),
     ("paper_near_end", .vBool (← getParamBool F IFptr.LIBFPTR_PARAM_PAPER_NEAR_END)),
     ("cover_opened", .vBool (← getParamBool F IFptr.LIBFPTR_PARAM_COVER_OPENED))])
  setSuccess true

def hGetCashSum (F : Fptr) : PM Unit := do
  setParamI IFptr.LIBFPTR_PARAM_DATA_TYPE IFptr.LIBFPTR_DT_CASH_SUM
  check_result F (← fptrOp .queryData F.queryDataR) "запроса суммы наличных"
  setData (.vDict [("cash_sum", .vFloat (← getParamDouble F IFptr.LIBFPTR_PARAM_SUM))])
  setSuccess true

def hGetShiftState (F : Fptr) : PM Unit := do
  setParamI IFptr.LIBFPTR_PARAM_DATA_TYPE IFptr.LIBFPTR_DT_SHIFT_STATE
  check_result F (← fptrOp .queryData F.queryDataR) "запроса состояния смены"
  let dt ← getParamDateTime F IFptr.LIBFPTR_PARAM_DATE_TIME
  setData (.vDict
    [("shift_state", .vInt (← getParamInt F IFptr.LIBFPTR_PARAM_SHIFT_STATE)),
     ("shift_number", .vInt (← getParamInt F IFptr.LIBFPTR_PARAM_SHIFT_NUMBER)),
     ("date_time", dtIsoOrNull dt)])
  setSuccess true

def hGetReceiptState (F : Fptr) : PM Unit := do
  setParamI IFptr.LIBFPTR_PARAM_DATA_TYPE IFptr.LIBFPTR_DT_RECEIPT_STATE
  check_result F (← fptrOp .queryData F.queryDataR) "запроса состояния чека"
  setData (.vDict
    [("receipt_type", .vInt (← getParamInt F IFptr.LIBFPTR_PARAM_RECEIPT_TYPE)),
     ("receipt_sum", .vFloat (← getParamDouble F IFptr.LIBFPTR_PARAM_RECEIPT_SUM)),
     ("receipt_number", .vInt (← getParamInt F IFptr.LIBFPTR_PARAM_RECEIPT_NUMBER)),
     ("document_number", .vInt (← getParamInt F IFptr.LIBFPTR_PARAM_DOCUMENT_NUMBER)),
     ("remainder", .vFloat (← getParamDouble F IFptr.LIBFPTR_PARAM_REMAINDER)),
     ("change", .vFloat (← getParamDouble F IFptr.LIBFPTR_PARAM_CHANGE))])
  setSuccess true

def hGetDatetime (F : Fptr) : PM Unit := do
  setParamI IFptr.LIBFPTR_PARAM_DATA_TYPE IFptr.LIBFPTR_DT_DATE_TIME
  check_result F (← fptrOp .queryData F.queryDataR) "запроса даты и времени"
  let dt ← getParamDateTime F IFptr.LIBFPTR_PARAM_DATE_TIME
  setData (.vDict [("date_time", dtIsoOrNull dt)])
  setSuccess true

def hGetSerialNumber (F : Fptr) : PM Unit := do
  setParamI IFptr.LIBFPTR_PARAM_DATA_TYPE IFptr.LIBFPTR_DT_SERIAL_NUMBER
  check_result F (← fptrOp .queryData F.queryDataR) "запроса заводского номера"
  setData (.vDict
    [("serial_number", .vStr (← getParamString F IFptr.LIBFPTR_PARAM_SERIAL_NUMBER))])
  setSuccess true

def hGetModelInfo (F : Fptr) : PM Unit := do
  setParamI IFptr.LIBFPTR_PARAM_DATA_TYPE IFptr.LIBFPTR_DT_MODEL_INFO
  check_result F (← fptrOp .queryData F.queryDataR) "запроса информации о модели"
  setData (.vDict
    [("model", .vInt (← getParamInt F IFptr.LIBFPTR_PARAM_MODEL)),
     ("model_name", .vStr (← getParamString F IFptr.LIBFPTR_PARAM_MODEL_NAME)),
     ("firmware_version", .vStr (← getParamString F IFptr.LIBFPTR_PARAM_UNIT_VERSION))])
  setSuccess true

def hGetReceiptLineLength (F : Fptr) : PM Unit := do
  setParamI IFptr.LIBFPTR_PARAM_DATA_TYPE IFptr.LIBFPTR_DT_RECEIPT_LINE_LENGTH
  check_result F (← fptrOp .queryData F.queryDataR) "запроса ширины чековой ленты"
  setData (.vDict
    [("char_line_length", .vInt (← getParamInt F IFptr.LIBFPTR_PARAM_RECEIPT_LINE_LENGTH)),
     ("pix_line_length", .vInt (← getParamInt F IFptr.LIBFPTR_PARAM_RECEIPT_LINE_LENGTH_PIX))])
  setSuccess true

/-- `result_data` of `get_unit_version`: for
`LIBFPTR_UT_CONFIGURATION` the release version is also returned. -/
def unitVersionData (F : Fptr) (unit_type : Val) (uv : String) :
    PM (List (String × Val)) :=
  if pyEqInt unit_type IFptr.LIBFPTR_UT_CONFIGURATION then do
    let rv ← getParamString F IFptr.LIBFPTR_PARAM_UNIT_RELEASE_VERSION
    pure [("unit_version", Val.vStr uv), ("release_version", Val.vStr rv)]
  else
    pure [("unit_version", Val.vStr uv)]

def hGetUnitVersion (F : Fptr) (kwargs : Val) : PM Unit := do
  let unit_type ← kwGetD kwargs "unit_type" (.vInt IFptr.LIBFPTR_UT_FIRMWARE)
  setParamI IFptr.LIBFPTR_PARAM_DATA_TYPE IFptr.LIBFPTR_DT_UNIT_VERSION
  setParamV IFptr.LIBFPTR_PARAM_UNIT_TYPE unit_type
  check_result F (← fptrOp .queryData F.queryDataR) "запроса версии модуля"
  let uv ← getParamString F IFptr.LIBFPTR_PARAM_UNIT_VERSION
  let result_data ← unitVersionData F unit_type uv
  setData (.vDict result_data)
  setSuccess true

def hGetPaymentSum (F : Fptr) (kwargs : Val) : PM Unit := do
  let payment_type ← kwGet kwargs "payment_type"
  let receipt_type ← kwGet kwargs "receipt_type"
  setParamI IFptr.LIBFPTR_PARAM_DATA_TYPE IFptr.LIBFPTR_DT_PAYMENT_SUM
  setParamV IFptr.LIBFPTR_PARAM_PAYMENT_TYPE payment_type
  setParamV IFptr.LIBFPTR_PARAM_RECEIPT_TYPE receipt_type
  check_result F (← fptrOp .queryData F.queryDataR) "запроса суммы платежей"
  setData (.vDict [("sum", .vFloat (← getParamDouble F IFptr.LIBFPTR_PARAM_SUM))])
  setSuccess true

def hGetCashinSum (F : Fptr) : PM Unit := do
  setParamI IFptr.LIBFPTR_PARAM_DATA_TYPE IFptr.LIBFPTR_DT_CASHIN_SUM
  check_result F (← fptrOp .queryData F.queryDataR) "запроса суммы внесений"
  setData (.vDict [("sum", .vFloat (← getParamDouble F IFptr.LIBFPTR_PARAM_SUM))])
  setSuccess true

def hGetCashoutSum (F : Fptr) : PM Unit := do
  setParamI IFptr.LIBFPTR_PARAM_DATA_TYPE IFptr.LIBFPTR_DT_CASHOUT_SUM
  check_result F (← fptrOp .queryData F.queryDataR) "запроса суммы выплат"
  setData (.vDict [("sum", .vFloat (← getParamDouble F IFptr.LIBFPTR_PARAM_SUM))])
  setSuccess true

def hGetReceiptCount (F : Fptr) (kwargs : Val) : PM Unit := do
  let receipt_type ← kwGet kwargs "receipt_type"
  setParamI IFptr.LIBFPTR_PARAM_DATA_TYPE IFptr.LIBFPTR_DT_RECEIPT_COUNT
  setParamV IFptr.LIBFPTR_PARAM_RECEIPT_TYPE receipt_type
  check_result F (← fptrOp .queryData F.queryDataR) "запроса количества чеков"
  setData (.vDict [("count", .vInt (← getParamInt F IFptr.LIBFPTR_PARAM_DOCUMENTS_COUNT))])
  setSuccess true

def hGetNonNullableSum (F : Fptr) (kwargs : Val) : PM Unit := do
  let receipt_type ← kwGet kwargs "receipt_type"
  setParamI IFptr.LIBFPTR_PARAM_DATA_TYPE IFptr.LIBFPTR_DT_NON_NULLABLE_SUM
  setParamV IFptr.LIBFPTR_PARAM_RECEIPT_TYPE receipt_type
  check_result F (← fptrOp .queryData F.queryDataR) "запроса необнуляемой суммы"
  setData (.vDict [("sum", .vFloat (← getParamDouble F IFptr.LIBFPTR_PARAM_SUM))])
  setSuccess true

def hGetPowerSourceState (F : Fptr) (kwargs : Val) : PM Unit := do
  let power_source_type ← kwGetD kwargs "power_source_type" (.vInt IFptr.LIBFPTR_PST_BATTERY)
  setParamI IFptr.LIBFPTR_PARAM_DATA_TYPE IFptr.LIBFPTR_DT_POWER_SOURCE_STATE
  setParamV IFptr.LIBFPTR_PARAM_POWER_SOURCE_TYPE power_source_type
  check_result F (← fptrOp .queryData F.queryDataR) "запроса состояния источника питания"
  setData (.vDict
    [("battery_charge", .vInt (← getParamInt F IFptr.LIBFPTR_PARAM_BATTERY_CHARGE)),
     ("voltage", .vFloat (← getParamDouble F IFptr.LIBFPTR_PARAM_VOLTAGE)),
     ("use_battery", .vBool (← getParamBool F IFptr.LIBFPTR_PARAM_USE_BATTERY)),
     ("battery_charging", .vBool (← getParamBool F IFptr.LIBFPTR_PARAM_BATTERY_CHARGING)),
     ("can_print_while_on_battery",
       .vBool (← getParamBool F IFptr.LIBFPTR_PARAM_CAN_PRINT_WHILE_ON_BATTERY))])
  setSuccess true

def hGetPrinterTemperature (F : Fptr) : PM Unit := do
  setParamI IFptr.LIBFPTR_PARAM_DATA_TYPE IFptr.LIBFPTR_DT_PRINTER_TEMPERATURE
  check_result F (← fptrOp .queryData F.queryDataR) "запроса температуры ТПГ"
  setData (.vDict
    [("printer_temperature",
      .vFloat (← getParamDouble F IFptr.LIBFPTR_PARAM_PRINTER_TEMPERATURE))])
  setSuccess true

def hGetFatalStatus (F : Fptr) : PM Unit := do
  setParamI IFptr.LIBFPTR_PARAM_DATA_TYPE IFptr.LIBFPTR_DT_FATAL_STATUS
  check_result F (← fptrOp .queryData F.queryDataR) "запроса фатальных ошибок"
  setData (.vDict
    [("no_serial_number", .vBool (← getParamBool F IFptr.LIBFPTR_PARAM_NO_SERIAL_NUMBER)),
     ("rtc_fault", .vBool (← getParamBool F IFptr.LIBFPTR_PARAM_RTC_FAULT)),
     ("settings_fault", .vBool (← getParamBool F IFptr.LIBFPTR_PARAM_SETTINGS_FAULT)),
     ("counters_fault", .vBool (← getParamBool F IFptr.LIBFPTR_PARAM_COUNTERS_FAULT)),
     ("user_memory_fault", .vBool (← getParamBool F IFptr.LIBFPTR_PARAM_USER_MEMORY_FAULT)),
     ("service_counters_fault",
       .vBool (← getParamBool F IFptr.LIBFPTR_PARAM_SERVICE_COUNTERS_FAULT)),
     ("attributes_fault", .vBool (← getParamBool F IFptr.LIBFPTR_PARAM_ATTRIBUTES_FAULT)),
     ("fn_fault", .vBool (← getParamBool F IFptr.LIBFPTR_PARAM_FN_FAULT)),
     ("invalid_fn", .vBool (← getParamBool F IFptr.LIBFPTR_PARAM_INVALID_FN)),
     ("hard_fault", .vBool (← getParamBool F IFptr.LIBFPTR_PARAM_HARD_FAULT)),
     ("memory_manager_fault",
       .vBool (← getParamBool F IFptr.LIBFPTR_PARAM_MEMORY_MANAGER_FAULT)),
     ("scripts_fault", .vBool (← getParamBool F IFptr.LIBFPTR_PARAM_SCRIPTS_FAULT)),
     ("wait_for_reboot", .vBool (← getParamBool F IFptr.LIBFPTR_PARAM_WAIT_FOR_REBOOT)),
     ("universal_counters_fault",
       .vBool (← getParamBool F IFptr.LIBFPTR_PARAM_UNIVERSAL_COUNTERS_FAULT)),
     ("commodities_table_fault",
       .vBool (← getParamBool F IFptr.LIBFPTR_PARAM_COMMODITIES_TABLE_FAULT))])
  setSuccess true

def hGetMacAddress (F : Fptr) : PM Unit := do
  setParamI IFptr.LIBFPTR_PARAM_DATA_TYPE IFptr.LIBFPTR_DT_MAC_ADDRESS
  check_result F (← fptrOp .queryData F.queryDataR) "запроса MAC-адреса"
  setData (.vDict
    [("mac_address", .vStr (← getParamString F IFptr.LIBFPTR_PARAM_MAC_ADDRESS))])
  setSuccess true

def hGetEthernetInfo (F : Fptr) : PM Unit := do
  setParamI IFptr.LIBFPTR_PARAM_DATA_TYPE IFptr.LIBFPTR_DT_ETHERNET_INFO
  check_result F (← fptrOp .queryData F.queryDataR) "запроса конфигурации Ethernet"
  setData (.vDict
    [("ip", .vStr (← getParamString F IFptr.LIBFPTR_PARAM_ETHERNET_IP)),
     ("mask", .vStr (← getParamString F IFptr.LIBFPTR_PARAM_ETHERNET_MASK)),
     ("gateway", .vStr (← getParamString F IFptr.LIBFPTR_PARAM_ETHERNET_GATEWAY)),
     ("dns", .vStr (← getParamString F IFptr.LIBFPTR_PARAM_ETHERNET_DNS_IP)),
     ("timeout", .vInt (← getParamInt F IFptr.LIBFPTR_PARAM_ETHERNET_CONFIG_TIMEOUT)),
     ("port", .vInt (← getParamInt F IFptr.LIBFPTR_PARAM_ETHERNET_PORT)),
     ("dhcp", .vBool (← getParamBool F IFptr.LIBFPTR_PARAM_ETHERNET_DHCP)),
     ("dns_static", .vBool (← getParamBool F IFptr.LIBFPTR_PARAM_ETHERNET_DNS_STATIC))])
  setSuccess true

def hGetWifiInfo (F : Fptr) : PM Unit := do
  setParamI IFptr.LIBFPTR_PARAM_DATA_TYPE IFptr.LIBFPTR_DT_WIFI_INFO
  check_result F (← fptrOp .queryData F.queryDataR) "запроса конфигурации Wi-Fi"
  setData (.vDict
    [("ip", .vStr (← getParamString F IFptr.LIBFPTR_PARAM_WIFI_IP)),
     ("mask", .vStr (← getParamString F IFptr.LIBFPTR_PARAM_WIFI_MASK)),
     ("gateway", .vStr (← getParamString F IFptr.LIBFPTR_PARAM_WIFI_GATEWAY)),
     ("timeout", .vInt (← getParamInt F IFptr.LIBFPTR_PARAM_WIFI_CONFIG_TIMEOUT)),
     ("port", .vInt (← getParamInt F IFptr.LIBFPTR_PARAM_WIFI_PORT)),
     ("dhcp", .vBool (← getParamBool F IFptr.LIBFPTR_PARAM_WIFI_DHCP))])
  setSuccess true

/-! ## Record-read commands (TLV / licenses / settings drains)

The three TLV-record commands (`read_fn_document`,
`read_registration_document`, `parse_complex_attribute`) contain the
same drain loop verbatim in the source; it is shared here as
`drainTLVGo`. The fuel argument bounds the iteration count by the number
of records the device can still serve (`readNextRecord` returns nonzero
exactly when they are exhausted, which terminates the Python `while`);
the fuel-0 branch is unreachable. -/

/-- The typed read of `LIBFPTR_PARAM_TAG_VALUE` dispatched on the
declared `tag_type` (the body of the `try:` block). -/
def typedTagRead (F : Fptr) (tag_type : Int) : PM Val :=
  if tag_type == 4 || tag_type == 5 || tag_type == 6 || tag_type == 7 then do
    -- BYTE, UINT_16, UINT_32, VLN
    pure (.vInt (← getParamInt F IFptr.LIBFPTR_PARAM_TAG_VALUE))
  else if tag_type == 3 then do
    -- FVLN (float)
    pure (.vFloat (← getParamDouble F IFptr.LIBFPTR_PARAM_TAG_VALUE))
  else if tag_type == 8 then do
    -- STRING
    pure (.vStr (← getParamString F IFptr.LIBFPTR_PARAM_TAG_VALUE))
  else if tag_type == 10 then do
    -- BOOL
    pure (.vBool (← getParamBool F IFptr.LIBFPTR_PARAM_TAG_VALUE))
  else do
    -- STLV, ARRAY, BITS, UNIX_TIME
    pure (.vBytes (← getParamByteArray F IFptr.LIBFPTR_PARAM_TAG_VALUE))

/-- `try: <typed read> except: tag_value = list(getParamByteArray(...))`:
the bare `except` falls back to the raw bytes. -/
def readTagValue (F : Fptr) (tag_type : Int) : PM Val := fun s =>
  match typedTagRead F tag_type s with
  | .ok r => .ok r
  | .error (s1, _) =>
    (do pure (Val.vBytes (← getParamByteArray F IFptr.LIBFPTR_PARAM_TAG_VALUE)) : PM Val) s1

def drainTLVGo (F : Fptr) (records_id : String) : Nat → List Val → PM (List Val)
  | 0, acc => pure acc
  | fuel + 1, acc => do
    let rc ← readNextRecord
    if rc == 0 then do
      let tag_number ← getParamInt F IFptr.LIBFPTR_PARAM_TAG_NUMBER
      let tag_name ← getParamString F IFptr.LIBFPTR_PARAM_TAG_NAME
      let tag_type ← getParamInt F IFptr.LIBFPTR_PARAM_TAG_TYPE
      let is_complex ← getParamBool F IFptr.LIBFPTR_PARAM_TAG_IS_COMPLEX
      let is_repeatable ← getParamBool F IFptr.LIBFPTR_PARAM_TAG_IS_REPEATABLE
      let tag_value ← readTagValue F tag_type
      setParamS IFptr.LIBFPTR_PARAM_RECORDS_ID records_id
      drainTLVGo F records_id fuel (acc ++
        [.vDict [("tag_number", .vInt tag_number),
                 ("tag_name", .vStr tag_name),
                 ("tag_type", .vInt tag_type),
                 ("tag_value", tag_value),
                 ("is_complex", .vBool is_complex),
                 ("is_repeatable", .vBool is_repeatable)]])
    else pure acc

def drainTLV (F : Fptr) (records_id : String) : PM (List Val) := fun s =>
  drainTLVGo F records_id (s.dev.remaining.length + 1) [] s

def hReadFnDocument (F : Fptr) (kwargs : Val) : PM Unit := do
  let document_number ← kwGet kwargs "document_number"
  -- Начинаем чтение документа из ФН
  setParamI IFptr.LIBFPTR_PARAM_RECORDS_TYPE IFptr.LIBFPTR_RT_FN_DOCUMENT_TLVS
  setParamV IFptr.LIBFPTR_PARAM_DOCUMENT_NUMBER document_number
  check_result F (← fptrOp .beginReadRecords F.beginReadRecordsR)
    "начала чтения документа из ФН"
  -- Получаем информацию о документе
  let document_type ← getParamInt F IFptr.LIBFPTR_PARAM_FN_DOCUMENT_TYPE
  let document_size ← getParamInt F IFptr.LIBFPTR_PARAM_COUNT
  let records_id ← getParamString F IFptr.LIBFPTR_PARAM_RECORDS_ID
  -- Читаем все TLV-записи
  setParamS IFptr.LIBFPTR_PARAM_RECORDS_ID records_id
  let tlv_records ← drainTLV F records_id
  -- Завершаем чтение
  setParamS IFptr.LIBFPTR_PARAM_RECORDS_ID records_id
  check_result F (← fptrOp .endReadRecords F.endReadRecordsR) "завершения чтения документа"
  setSuccess true
  setMessage ("Документ №" ++ pyStr document_number ++ " успешно прочитан из ФН")
  setData (.vDict
    [("document_number", document_number),
     ("document_type", .vInt document_type),
     ("document_size", .vInt document_size),
     ("tlv_records", .vList tlv_records)])

def drainLicensesGo (F : Fptr) (records_id : String) : Nat → List Val → PM (List Val)
  | 0, acc => pure acc
  | fuel + 1, acc => do
    let rc ← readNextRecord
    if rc == 0 then do
      let license_number ← getParamInt F IFptr.LIBFPTR_PARAM_LICENSE_NUMBER
      let license_name ← getParamString F IFptr.LIBFPTR_PARAM_LICENSE_NAME
      let date_from ← getParamDateTime F IFptr.LIBFPTR_PARAM_LICENSE_VALID_FROM
      let date_until ← getParamDateTime F IFptr.LIBFPTR_PARAM_LICENSE_VALID_UNTIL
      setParamS IFptr.LIBFPTR_PARAM_RECORDS_ID records_id
      drainLicensesGo F records_id fuel (acc ++
        [.vDict [("license_number", .vInt license_number),
                 ("license_name", .vStr license_name),
                 ("valid_from", .vStr (match date_from with
                   | some t => pyIsoformat t
                   | none => "1970-01-01T00:00:00")),
                 ("valid_until", .vStr (match date_until with
                   | some t => pyIsoformat t
                   | none => "1970-01-01T00:00:00"))]])
    else pure acc

def drainLicenses (F : Fptr) (records_id : String) : PM (List Val) := fun s =>
  drainLicensesGo F records_id (s.dev.remaining.length + 1) [] s

def hReadLicenses (F : Fptr) : PM Unit := do
  -- Начинаем чтение лицензий
  setParamI IFptr.LIBFPTR_PARAM_RECORDS_TYPE IFptr.LIBFPTR_RT_LICENSES
  check_result F (← fptrOp .beginReadRecords F.beginReadRecordsR) "начала чтения лицензий"
  let records_id ← getParamString F IFptr.LIBFPTR_PARAM_RECORDS_ID
  -- Читаем все лицензии
  setParamS IFptr.LIBFPTR_PARAM_RECORDS_ID records_id
  let licenses ← drainLicenses F records_id
  -- Завершаем чтение
  setParamS IFptr.LIBFPTR_PARAM_RECORDS_ID records_id
  check_result F (← fptrOp .endReadRecords F.endReadRecordsR) "завершения чтения лицензий"
  setSuccess true
  setMessage ("Прочитано лицензий: " ++ toString licenses.length)
  setData (.vDict [("licenses", .vList licenses)])

def hReadRegistrationDocument (F : Fptr) (kwargs : Val) : PM Unit := do
  let registration_number ← kwGet kwargs "registration_number"
  -- Начинаем чтение документа регистрации
  setParamI IFptr.LIBFPTR_PARAM_RECORDS_TYPE IFptr.LIBFPTR_RT_FN_REGISTRATION_TLVS
  setParamV IFptr.LIBFPTR_PARAM_REGISTRATION_NUMBER registration_number
  check_result F (← fptrOp .beginReadRecords F.beginReadRecordsR)
    "начала чтения документа регистрации"
  let records_id ← getParamString F IFptr.LIBFPTR_PARAM_RECORDS_ID
  setParamS IFptr.LIBFPTR_PARAM_RECORDS_ID records_id
  let tlv_records ← drainTLV F records_id
  setParamS IFptr.LIBFPTR_PARAM_RECORDS_ID records_id
  check_result F (← fptrOp .endReadRecords F.endReadRecordsR)
    "завершения чтения документа регистрации"
  setSuccess true
  setMessage ("Документ регистрации №" ++ pyStr registration_number ++ " успешно прочитан")
  setData (.vDict
    [("registration_number", registration_number),
     ("tlv_records", .vList tlv_records)])

def hParseComplexAttribute (F : Fptr) (kwargs : Val) : PM Unit := do
  let tag_value_bytes ← pyBytes (← kwGet kwargs "tag_value")
  -- Начинаем разбор составного реквизита
  setParamI IFptr.LIBFPTR_PARAM_RECORDS_TYPE IFptr.LIBFPTR_RT_PARSE_COMPLEX_ATTR
  setParamV IFptr.LIBFPTR_PARAM_TAG_VALUE (.vBytes tag_value_bytes)
  check_result F (← fptrOp .beginReadRecords F.beginReadRecordsR)
    "начала разбора составного реквизита"
  let records_id ← getParamString F IFptr.LIBFPTR_PARAM_RECORDS_ID
  setParamS IFptr.LIBFPTR_PARAM_RECORDS_ID records_id
  let parsed_records ← drainTLV F records_id
  setParamS IFptr.LIBFPTR_PARAM_RECORDS_ID records_id
  check_result F (← fptrOp .endReadRecords F.endReadRecordsR)
    "завершения разбора составного реквизита"
  setSuccess true
  setMessage ("Составной реквизит успешно разобран, найдено элементов: " ++
    toString parsed_records.length)
  setData (.vDict [("parsed_records", .vList parsed_records)])

/-- The `setting_type`-dispatched read of `LIBFPTR_PARAM_SETTING_VALUE`
(`read_kkt_settings`); an unknown type yields `None`. -/
def readSettingValue (F : Fptr) (setting_type : Int) : PM Val :=
  if setting_type == IFptr.LIBFPTR_ST_NUMBER then do
    pure (Val.vInt (← getParamInt F IFptr.LIBFPTR_PARAM_SETTING_VALUE))
  else if setting_type == IFptr.LIBFPTR_ST_BOOL then do
    pure (Val.vBool (← getParamBool F IFptr.LIBFPTR_PARAM_SETTING_VALUE))
  else if setting_type == IFptr.LIBFPTR_ST_STRING then do
    pure (Val.vStr (← getParamString F IFptr.LIBFPTR_PARAM_SETTING_VALUE))
  else pure Val.vNull

def drainSettingsGo (F : Fptr) (records_id : String) : Nat → List Val → PM (List Val)
  | 0, acc => pure acc
  | fuel + 1, acc => do
    let rc ← readNextRecord
    if rc == 0 then do
      let setting_id ← getParamInt F IFptr.LIBFPTR_PARAM_SETTING_ID
      let setting_type ← getParamInt F IFptr.LIBFPTR_PARAM_SETTING_TYPE
      let setting_name ← getParamString F IFptr.LIBFPTR_PARAM_SETTING_NAME
      -- Читаем значение в зависимости от типа
      let setting_value ← readSettingValue F setting_type
      setParamS IFptr.LIBFPTR_PARAM_RECORDS_ID records_id
      drainSettingsGo F records_id fuel (acc ++
        [.vDict [("setting_id", .vInt setting_id),
                 ("setting_type", .vInt setting_type),
                 ("setting_name", .vStr setting_name),
                 ("setting_value", setting_value)]])
    else pure acc

def drainSettings (F : Fptr) (records_id : String) : PM (List Val) := fun s =>
  drainSettingsGo F records_id (s.dev.remaining.length + 1) [] s

def hReadKktSettings (F : Fptr) : PM Unit := do
  -- Начинаем чтение настроек
  setParamI IFptr.LIBFPTR_PARAM_RECORDS_TYPE IFptr.LIBFPTR_RT_SETTINGS
  check_result F (← fptrOp .beginReadRecords F.beginReadRecordsR) "начала чтения настроек ККТ"
  let records_id ← getParamString F IFptr.LIBFPTR_PARAM_RECORDS_ID
  setParamS IFptr.LIBFPTR_PARAM_RECORDS_ID records_id
  let settings_list ← drainSettings F records_id
  setParamS IFptr.LIBFPTR_PARAM_RECORDS_ID records_id
  check_result F (← fptrOp .endReadRecords F.endReadRecordsR) "завершения чтения настроек"
  setSuccess true
  setMessage ("Прочитано настроек ККТ: " ++ toString settings_list.length)
  setData (.vDict [("settings", .vList settings_list)])

def tlvStructVal (t : Nat × Nat × List Nat) : Val :=
  .vDict [("tag", .vInt t.1),
          ("length", .vInt t.2.1),
          ("value", .vList (t.2.2.map (fun b => .vInt b)))]

def hReadLastDocumentJournal (F : Fptr) : PM Unit := do
  -- Читаем последний закрытый документ из электронного журнала
  check_result F (← fptrOp .getLastDocumentJournal F.getLastDocumentJournalR)
    "чтения последнего документа из журнала"
  -- Получаем TLV-массив
  let tlv_list ← getParamByteArray F IFptr.LIBFPTR_PARAM_TLV_LIST
  -- Парсим TLV-структуры (the linear scan formalized as parseTLVList)
  let tlv_structures := parseTLVList tlv_list
  setSuccess true
  setMessage ("Последний документ из журнала успешно прочитан, TLV структур: " ++
    toString tlv_structures.length)
  setData (.vDict
    [("tlv_structures", .vList (tlv_structures.map tlvStructVal)),
     ("raw_bytes", .vList (tlv_list.map (fun b => .vInt b)))])

/-! ## FN query commands -/

def receiptTypeNames : List (Int × String) :=
  [(IFptr.LIBFPTR_RT_SELL, "Чек прихода"),
   (IFptr.LIBFPTR_RT_SELL_RETURN, "Чек возврата прихода"),
   (IFptr.LIBFPTR_RT_SELL_CORRECTION, "Чек коррекции прихода"),
   (IFptr.LIBFPTR_RT_BUY, "Чек расхода"),
   (IFptr.LIBFPTR_RT_BUY_RETURN, "Чек возврата расхода"),
   (IFptr.LIBFPTR_RT_BUY_CORRECTION, "Чек коррекции расхода")]

def hQueryLastReceipt (F : Fptr) : PM Unit := do
  -- Запрос информации о последнем чеке из ФН
  setParamI IFptr.LIBFPTR_PARAM_FN_DATA_TYPE IFptr.LIBFPTR_FNDT_LAST_RECEIPT
  check_result F (← fptrOp .fnQueryData F.fnQueryDataR) "запроса информации о последнем чеке"
  let document_number ← getParamInt F IFptr.LIBFPTR_PARAM_DOCUMENT_NUMBER
  let receipt_sum ← getParamDouble F IFptr.LIBFPTR_PARAM_RECEIPT_SUM
  let fiscal_sign ← getParamString F IFptr.LIBFPTR_PARAM_FISCAL_SIGN
  let date_time ← getParamDateTime F IFptr.LIBFPTR_PARAM_DATE_TIME
  let receipt_type ← getParamInt F IFptr.LIBFPTR_PARAM_RECEIPT_TYPE
  let receipt_type_name := intDictGet receiptTypeNames receipt_type
    ("Неизвестный тип (" ++ toString receipt_type ++ ")")
  setSuccess true
  setMessage ("Информация о последнем чеке (№" ++ toString document_number ++
    ") успешно получена")
  setData (.vDict
    [("document_number", .vInt document_number),
     ("receipt_sum", .vFloat receipt_sum),
     ("fiscal_sign", .vStr fiscal_sign),
     ("date_time", dtFullOrNull date_time),
     ("receipt_type", .vInt receipt_type),
     ("receipt_type_name", .vStr receipt_type_name)])

def ffdVersionNames : List (Int × String) :=
  [(IFptr.LIBFPTR_FFD_UNKNOWN, "Неизвестная"),
   (IFptr.LIBFPTR_FFD_1_05, "ФФД 1.05"),
   (IFptr.LIBFPTR_FFD_1_1, "ФФД 1.1"),
   (IFptr.LIBFPTR_FFD_1_2, "ФФД 1.2")]

/-- Python `n & mask` on the non-negative bitmask words returned by the
device registers (`taxation_types`, `agent_sign`, `exchange_status`). -/
def intBand (n mask : Int) : Int := Int.ofNat (n.toNat &&& mask.toNat)

/-- The bit-tested taxation systems of `query_registration_info`
(`if taxation_types & LIBFPTR_TT_...`). -/
def taxationSystemsOf (taxation_types : Int) : List Val :=
  (if intBand taxation_types IFptr.LIBFPTR_TT_OSN != 0 then [Val.vStr "Общая"] else []) ++
  (if intBand taxation_types IFptr.LIBFPTR_TT_USN_INCOME != 0 then [Val.vStr "УСН доход"] else []) ++
  (if intBand taxation_types IFptr.LIBFPTR_TT_USN_INCOME_OUTCOME != 0 then
    [Val.vStr "УСН доход минус расход"] else []) ++
  (if intBand taxation_types IFptr.LIBFPTR_TT_ESN != 0 then [Val.vStr "ЕСХН"] else []) ++
  (if intBand taxation_types IFptr.LIBFPTR_TT_PATENT != 0 then [Val.vStr "Патентная"] else [])

/-- The agent-sign decoding of `query_registration_info`. -/
def agentTypesOf (agent_sign : Int) : List Val :=
  if agent_sign == 0 then [Val.vStr "Признак агента отсутствует"]
  else
    (if intBand agent_sign IFptr.LIBFPTR_AT_BANK_PAYING_AGENT != 0 then
      [Val.vStr "Банковский платежный агент"] else []) ++
    (if intBand agent_sign IFptr.LIBFPTR_AT_BANK_PAYING_SUBAGENT != 0 then
      [Val.vStr "Банковский платежный субагент"] else []) ++
    (if intBand agent_sign IFptr.LIBFPTR_AT_PAYING_AGENT != 0 then
      [Val.vStr "Платежный агент"] else []) ++
    (if intBand agent_sign IFptr.LIBFPTR_AT_PAYING_SUBAGENT != 0 then
      [Val.vStr "Платежный субагент"] else []) ++
    (if intBand agent_sign IFptr.LIBFPTR_AT_ATTORNEY != 0 then
      [Val.vStr "Поверенный"] else []) ++
    (if intBand agent_sign IFptr.LIBFPTR_AT_COMMISSION_AGENT != 0 then
      [Val.vStr "Комиссионер"] else []) ++
    (if intBand agent_sign IFptr.LIBFPTR_AT_ANOTHER != 0 then
      [Val.vStr "Другой тип агента"] else [])

def hQueryRegistrationInfo (F : Fptr) : PM Unit := do
  -- Запрос регистрационных данных ККТ
  setParamI IFptr.LIBFPTR_PARAM_FN_DATA_TYPE IFptr.LIBFPTR_FNDT_REG_INFO
  check_result F (← fptrOp .fnQueryData F.fnQueryDataR) "запроса регистрационных данных"
  -- Строковые параметры (raw numeric tag ids as in the source)
  let fns_url ← getParamString F 1060
  let organization_address ← getParamString F 1009
  let organization_vatin ← getParamString F 1018
  let organization_name ← getParamString F 1048
  let organization_email ← getParamString F 1117
  let payments_address ← getParamString F 1187
  let registration_number ← getParamString F 1037
  let machine_number ← getParamString F 1036
  let ofd_vatin ← getParamString F 1017
  let ofd_name ← getParamString F 1046
  -- Числовые параметры
  let taxation_types ← getParamInt F 1062
  let agent_sign ← getParamInt F 1057
  let ffd_version ← getParamInt F 1209
  -- Булевы параметры
  let auto_mode_sign ← getParamBool F 1001
  let offline_mode_sign ← getParamBool F 1002
  let encryption_sign ← getParamBool F 1056
  let internet_sign ← getParamBool F 1108
  let service_sign ← getParamBool F 1109
  let bso_sign ← getParamBool F 1110
  let base : List (String × Val) :=
    [("fns_url", .vStr fns_url),
     ("organization_address", .vStr organization_address),
     ("organization_vatin", .vStr organization_vatin),
     ("organization_name", .vStr organization_name),
     ("organization_email", .vStr organization_email),
     ("payments_address", .vStr payments_address),
     ("registration_number", .vStr registration_number),
     ("machine_number", .vStr machine_number),
     ("ofd_vatin", .vStr ofd_vatin),
     ("ofd_name", .vStr ofd_name),
     ("taxation_systems", .vList (taxationSystemsOf taxation_types)),
     ("agent_types", .vList (agentTypesOf agent_sign)),
     ("ffd_version", .vStr (intDictGet ffdVersionNames ffd_version
        ("Неизвестная (" ++ toString ffd_version ++ ")"))),
     ("ffd_version_code", .vInt ffd_version),
     ("auto_mode_sign", .vBool auto_mode_sign),
     ("offline_mode_sign", .vBool offline_mode_sign),
     ("encryption_sign", .vBool encryption_sign),
     ("internet_sign", .vBool internet_sign),
     ("service_sign", .vBool service_sign),
     ("bso_sign", .vBool bso_sign)]
  -- Дополнительные признаки (try/except pass: may be absent on old FFD)
  let d1 ← tryBoolFields F
    [("lottery_sign", 1126), ("gambling_sign", 1193),
     ("excise_sign", 1207), ("machine_installation_sign", 1221)] base
  -- Дополнительные параметры через именованные константы (try/except pass)
  let d2 ← tryBoolFields F
    [("trade_marked_products", IFptr.LIBFPTR_PARAM_TRADE_MARKED_PRODUCTS),
     ("insurance_activity", IFptr.LIBFPTR_PARAM_INSURANCE_ACTIVITY),
     ("pawn_shop_activity", IFptr.LIBFPTR_PARAM_PAWN_SHOP_ACTIVITY),
     ("vending", IFptr.LIBFPTR_PARAM_VENDING),
     ("catering", IFptr.LIBFPTR_PARAM_CATERING),
     ("wholesale", IFptr.LIBFPTR_PARAM_WHOLESALE)] d1
  setSuccess true
  setMessage "Регистрационные данные ККТ успешно получены"
  setData (.vDict d2)

def fnTypeNames : List (Int × String) :=
  [(IFptr.LIBFPTR_FNT_UNKNOWN, "Неизвестный"),
   (IFptr.LIBFPTR_FNT_DEBUG, "Отладочная версия"),
   (IFptr.LIBFPTR_FNT_RELEASE, "Боевая версия")]

def fnStateNames : List (Int × String) :=
  [(IFptr.LIBFPTR_FNS_INITIAL, "Настройка ФН"),
   (IFptr.LIBFPTR_FNS_CONFIGURED, "Готовность к активации"),
   (IFptr.LIBFPTR_FNS_FISCAL_MODE, "Фискальный режим"),
   (IFptr.LIBFPTR_FNS_POSTFISCAL_MODE, "Постфискальный режим"),
   (IFptr.LIBFPTR_FNS_ACCESS_ARCHIVE, "Доступ к архиву")]

/-- `if fn_contains_uri: data['fn_keys_updater_server_uri'] = ...`
(`query_fn_info`). -/
def fnInfoUriData (F : Fptr) (fn_contains_uri : Bool)
    (d : List (String × Val)) : PM (List (String × Val)) :=
  if fn_contains_uri then do
    let uri ← getParamString F IFptr.LIBFPTR_PARAM_FN_KEYS_UPDATER_SERVER_URI
    pure (d ++ [("fn_keys_updater_server_uri", Val.vStr uri)])
  else pure d

def hQueryFnInfo (F : Fptr) : PM Unit := do
  -- Запрос информации и статуса ФН
  setParamI IFptr.LIBFPTR_PARAM_FN_DATA_TYPE IFptr.LIBFPTR_FNDT_FN_INFO
  check_result F (← fptrOp .fnQueryData F.fnQueryDataR) "запроса информации о ФН"
  let fn_serial ← getParamString F IFptr.LIBFPTR_PARAM_SERIAL_NUMBER
  let fn_version ← getParamString F IFptr.LIBFPTR_PARAM_FN_VERSION
  let base : List (String × Val) :=
    [("fn_serial", .vStr fn_serial), ("fn_version", .vStr fn_version)]
  -- Исполнение ФН (только для ФН-М): try/except pass
  let d1 ← tryStrFields F [("fn_execution", IFptr.LIBFPTR_PARAM_FN_EXECUTION)] base
  -- Тип ФН
  let fn_type ← getParamInt F IFptr.LIBFPTR_PARAM_FN_TYPE
  let d2 := d1 ++
    [("fn_type", Val.vStr (intDictGet fnTypeNames fn_type
        ("Неизвестный (" ++ toString fn_type ++ ")"))),
     ("fn_type_code", Val.vInt fn_type)]
  -- Состояние ФН
  let fn_state ← getParamInt F IFptr.LIBFPTR_PARAM_FN_STATE
  let d3 := d2 ++
    [("fn_state", Val.vStr (intDictGet fnStateNames fn_state
        ("Неизвестное (" ++ toString fn_state ++ ")"))),
     ("fn_state_code", Val.vInt fn_state)]
  -- Флаги и статусы
  let fn_flags ← getParamInt F IFptr.LIBFPTR_PARAM_FN_FLAGS
  let need_replacement ← getParamBool F IFptr.LIBFPTR_PARAM_FN_NEED_REPLACEMENT
  let resource_exhausted ← getParamBool F IFptr.LIBFPTR_PARAM_FN_RESOURCE_EXHAUSTED
  let memory_overflow ← getParamBool F IFptr.LIBFPTR_PARAM_FN_MEMORY_OVERFLOW
  let ofd_timeout ← getParamBool F IFptr.LIBFPTR_PARAM_FN_OFD_TIMEOUT
  let critical_error ← getParamBool F IFptr.LIBFPTR_PARAM_FN_CRITICAL_ERROR
  let d4 := d3 ++
    [("fn_flags", Val.vInt fn_flags),
     ("fn_need_replacement", Val.vBool need_replacement),
     ("fn_resource_exhausted", Val.vBool resource_exhausted),
     ("fn_memory_overflow", Val.vBool memory_overflow),
     ("fn_ofd_timeout", Val.vBool ofd_timeout),
     ("fn_critical_error", Val.vBool critical_error)]
  -- URI сервера ОКП
  let fn_contains_uri ← getParamBool F IFptr.LIBFPTR_PARAM_FN_CONTAINS_KEYS_UPDATER_SERVER_URI
  let d5 := d4 ++ [("fn_contains_keys_updater_server_uri", Val.vBool fn_contains_uri)]
  let d6 ← fnInfoUriData F fn_contains_uri d5
  setSuccess true
  setMessage "Информация о ФН успешно получена"
  setData (.vDict d6)

/-- The bit decoding of the OFD exchange status word. -/
def exchangeStatusFlags (exchange_status : Int) : List Val :=
  (if intBand exchange_status 1 != 0 then
    [Val.vStr "Транспортное соединение установлено"] else []) ++
  (if intBand exchange_status 2 != 0 then
    [Val.vStr "Есть сообщение для передачи в ОФД"] else []) ++
  (if intBand exchange_status 4 != 0 then
    [Val.vStr "Ожидание ответного сообщения (квитанции) от ОФД"] else []) ++
  (if intBand exchange_status 8 != 0 then
    [Val.vStr "Есть команда от ОФД"] else []) ++
  (if intBand exchange_status 16 != 0 then
    [Val.vStr "Изменились настройки соединения с ОФД"] else []) ++
  (if intBand exchange_status 32 != 0 then
    [Val.vStr "Ожидание ответа на команду от ОФД"] else [])

def hQueryOfdExchangeStatus (F : Fptr) : PM Unit := do
  -- Запрос статуса информационного обмена с ОФД
  setParamI IFptr.LIBFPTR_PARAM_FN_DATA_TYPE IFptr.LIBFPTR_FNDT_OFD_EXCHANGE_STATUS
  check_result F (← fptrOp .fnQueryData F.fnQueryDataR) "запроса статуса обмена с ОФД"
  let exchange_status ← getParamInt F IFptr.LIBFPTR_PARAM_OFD_EXCHANGE_STATUS
  let date_time ← getParamDateTime F IFptr.LIBFPTR_PARAM_DATE_TIME
  let okp_time ← getParamDateTime F IFptr.LIBFPTR_PARAM_LAST_SUCCESSFUL_OKP
  let unsent ← getParamInt F IFptr.LIBFPTR_PARAM_DOCUMENTS_COUNT
  let first_unsent ← getParamInt F IFptr.LIBFPTR_PARAM_DOCUMENT_NUMBER
  let message_read ← getParamBool F IFptr.LIBFPTR_PARAM_OFD_MESSAGE_READ
  setSuccess true
  setMessage "Статус обмена с ОФД успешно получен"
  setData (.vDict
    [("exchange_status_code", .vInt exchange_status),
     ("exchange_status_flags", .vList (exchangeStatusFlags exchange_status)),
     ("unsent_documents_count", .vInt unsent),
     ("first_unsent_document_number", .vInt first_unsent),
     ("ofd_message_read", .vBool message_read),
     ("first_unsent_date_time", dtFullOrNull date_time),
     ("last_successful_okp_time", dtFullOrNull okp_time)])

def hQueryShiftInfo (F : Fptr) : PM Unit := do
  -- Запрос информации о текущей смене в ФН
  setParamI IFptr.LIBFPTR_PARAM_FN_DATA_TYPE IFptr.LIBFPTR_FNDT_SHIFT
  check_result F (← fptrOp .fnQueryData F.fnQueryDataR) "запроса информации о смене"
  let receipts_count ← getParamInt F IFptr.LIBFPTR_PARAM_RECEIPT_NUMBER
  let shift_number ← getParamInt F IFptr.LIBFPTR_PARAM_SHIFT_NUMBER
  setSuccess true
  setMessage "Информация о смене успешно получена"
  setData (.vDict
    [("receipts_count", .vInt receipts_count),
     ("shift_number", .vInt shift_number)])

def hQueryLastDocument (F : Fptr) : PM Unit := do
  -- Запрос информации о последнем фискальном документе
  setParamI IFptr.LIBFPTR_PARAM_FN_DATA_TYPE IFptr.LIBFPTR_FNDT_LAST_DOCUMENT
  check_result F (← fptrOp .fnQueryData F.fnQueryDataR)
    "запроса информации о последнем документе"
  let date_time ← getParamDateTime F IFptr.LIBFPTR_PARAM_DATE_TIME
  let document_number ← getParamInt F IFptr.LIBFPTR_PARAM_DOCUMENT_NUMBER
  let fiscal_sign ← getParamString F IFptr.LIBFPTR_PARAM_FISCAL_SIGN
  setSuccess true
  setMessage "Информация о последнем документе успешно получена"
  setData (.vDict
    [("document_number", .vInt document_number),
     ("fiscal_sign", .vStr fiscal_sign),
     ("date_time", dtFullOrNull date_time)])

def hQueryFnValidity (F : Fptr) : PM Unit := do
  -- Запрос срока действия ФН
  setParamI IFptr.LIBFPTR_PARAM_FN_DATA_TYPE IFptr.LIBFPTR_FNDT_VALIDITY
  check_result F (← fptrOp .fnQueryData F.fnQueryDataR) "запроса срока действия ФН"
  let date_time ← getParamDateTime F IFptr.LIBFPTR_PARAM_DATE_TIME
  let registrations_count ← getParamInt F IFptr.LIBFPTR_PARAM_REGISTRATIONS_COUNT
  let registrations_remain ← getParamInt F IFptr.LIBFPTR_PARAM_REGISTRATIONS_REMAIN
  setSuccess true
  setMessage "Срок действия ФН успешно получен"
  setData (.vDict
    [("validity_date", match date_time with
       | some t => .vStr (pyStrftimeDate t)
       | none => .vNull),
     ("registrations_count", .vInt registrations_count),
     ("registrations_remain", .vInt registrations_remain)])

/-! ## Dispatch and the `process_command` wrapper -/

/-- The `if/elif` dispatch chain of `process_command` (the body of its
`try:` block). The final `else` writes the unknown-command message and
leaves `success` as `False`. -/
def runCmd (F : Fptr) (cli : Option RedisClient) (cfg : Settings)
    (command kwargs device_id : Val) : PM Unit :=
  if pyEqStr command "connection_open" then hConnectionOpen F kwargs
  else if pyEqStr command "connection_close" then hConnectionClose F
  else if pyEqStr command "connection_is_opened" then hConnectionIsOpened F
  else if pyEqStr command "shift_open" then hShiftOpen F cli cfg device_id kwargs
  else if pyEqStr command "shift_close" then hShiftClose F cli cfg device_id kwargs
  else if pyEqStr command "shift_get_status" then hShiftGetStatus F
  else if pyEqStr command "shift_print_x_report" then
    hShiftPrintXReport F cli cfg device_id kwargs
  else if pyEqStr command "receipt_open" then hReceiptOpen F cli cfg device_id kwargs
  else if pyEqStr command "registration" then hRegistration F kwargs
  else if pyEqStr command "payment" then hPayment F kwargs
  else if pyEqStr command "receipt_close" then hReceiptClose F
  else if pyEqStr command "receipt_cancel" then hReceiptCancel F
  else if pyEqStr command "beep" then hBeep F kwargs
  else if pyEqStr command "play_arcane_melody" then hPlayArcaneMelody F
  else if pyEqStr command "cash_income" then hCashIncome F kwargs
  else if pyEqStr command "cash_outcome" then hCashOutcome F kwargs
  else if pyEqStr command "print_text" then hPrintText F kwargs
  else if pyEqStr command "print_feed" then hPrintFeed F kwargs
  else if pyEqStr command "print_barcode" then hPrintBarcode F kwargs
  else if pyEqStr command "print_picture" then hPrintPicture F kwargs
  else if pyEqStr command "print_picture_by_number" then hPrintPictureByNumber F kwargs
  else if pyEqStr command "open_nonfiscal_document" then hOpenNonfiscalDocument F
  else if pyEqStr command "close_nonfiscal_document" then hCloseNonfiscalDocument F
  else if pyEqStr command "cut_paper" then hCutPaper F
  else if pyEqStr command "open_cash_drawer" then hOpenCashDrawer F
  else if pyEqStr command "print_x_report" then hPrintXReport F
  else if pyEqStr command "get_status" then hGetStatus F
  else if pyEqStr command "get_short_status" then hGetShortStatus F
  else if pyEqStr command "get_cash_sum" then hGetCashSum F
  else if pyEqStr command "get_shift_state" then hGetShiftState F
  else if pyEqStr command "get_receipt_state" then hGetReceiptState F
  else if pyEqStr command "get_datetime" then hGetDatetime F
  else if pyEqStr command "get_serial_number" then hGetSerialNumber F
  else if pyEqStr command "get_model_info" then hGetModelInfo F
  else if pyEqStr command "get_receipt_line_length" then hGetReceiptLineLength F
  else if pyEqStr command "get_unit_version" then hGetUnitVersion F kwargs
  else if pyEqStr command "get_payment_sum" then hGetPaymentSum F kwargs
  else if pyEqStr command "get_cashin_sum" then hGetCashinSum F
  else if pyEqStr command "get_cashout_sum" then hGetCashoutSum F
  else if pyEqStr command "get_receipt_count" then hGetReceiptCount F kwargs
  else if pyEqStr command "get_non_nullable_sum" then hGetNonNullableSum F kwargs
  else if pyEqStr command "get_power_source_state" then hGetPowerSourceState F kwargs
  else if pyEqStr command "get_printer_temperature" then hGetPrinterTemperature F
  else if pyEqStr command "get_fatal_status" then hGetFatalStatus F
  else if pyEqStr command "get_mac_address" then hGetMacAddress F
  else if pyEqStr command "get_ethernet_info" then hGetEthernetInfo F
  else if pyEqStr command "get_wifi_info" then hGetWifiInfo F
  else if pyEqStr command "operator_login" then hOperatorLogin F kwargs
  else if pyEqStr command "continue_print" then hContinuePrint F
  else if pyEqStr command "check_document_closed" then hCheckDocumentClosed F
  else if pyEqStr command "configure_logging" then hConfigureLogging
  else if pyEqStr command "change_driver_label" then hChangeDriverLabel F kwargs
  else if pyEqStr command "get_default_logging_config" then hGetDefaultLoggingConfig
  else if pyEqStr command "read_fn_document" then hReadFnDocument F kwargs
  else if pyEqStr command "read_licenses" then hReadLicenses F
  else if pyEqStr command "read_registration_document" then hReadRegistrationDocument F kwargs
  else if pyEqStr command "parse_complex_attribute" then hParseComplexAttribute F kwargs
  else if pyEqStr command "read_kkt_settings" then hReadKktSettings F
  else if pyEqStr command "read_last_document_journal" then hReadLastDocumentJournal F
  else if pyEqStr command "query_last_receipt" then hQueryLastReceipt F
  else if pyEqStr command "query_registration_info" then hQueryRegistrationInfo F
  else if pyEqStr command "query_fn_info" then hQueryFnInfo F
  else if pyEqStr command "query_ofd_exchange_status" then hQueryOfdExchangeStatus F
  else if pyEqStr command "query_shift_info" then hQueryShiftInfo F
  else if pyEqStr command "query_last_document" then hQueryLastDocument F
  else if pyEqStr command "query_fn_validity" then hQueryFnValidity F
  else setMessage ("Неизвестная команда: " ++ pyStr command)

/-- The dispatch-table names, in source order (used to state the
unknown-command property). -/
def knownCommands : List String :=
  ["connection_open", "connection_close", "connection_is_opened",
   "shift_open", "shift_close", "shift_get_status", "shift_print_x_report",
   "receipt_open", "registration", "payment", "receipt_close", "receipt_cancel",
   "beep", "play_arcane_melody", "cash_income", "cash_outcome",
   "print_text", "print_feed", "print_barcode", "print_picture",
   "print_picture_by_number", "open_nonfiscal_document", "close_nonfiscal_document",
   "cut_paper", "open_cash_drawer", "print_x_report",
   "get_status", "get_short_status", "get_cash_sum", "get_shift_state",
   "get_receipt_state", "get_datetime", "get_serial_number", "get_model_info",
   "get_receipt_line_length", "get_unit_version", "get_payment_sum",
   "get_cashin_sum", "get_cashout_sum", "get_receipt_count", "get_non_nullable_sum",
   "get_power_source_state", "get_printer_temperature", "get_fatal_status",
   "get_mac_address", "get_ethernet_info", "get_wifi_info",
   "operator_login", "continue_print", "check_document_closed",
   "configure_logging", "change_driver_label", "get_default_logging_config",
   "read_fn_document", "read_licenses", "read_registration_document",
   "parse_complex_attribute", "read_kkt_settings", "read_last_document_journal",
   "query_last_receipt", "query_registration_info", "query_fn_info",
   "query_ofd_exchange_status", "query_shift_info", "query_last_document",
   "query_fn_validity"]

/-- `command_data.get(k)`: `.get` on anything but a mapping raises
`AttributeError` (this happens outside the `try:` of `process_command`,
so it propagates to the caller). -/
def pyGet (cd : Val) (k : String) : Except Exn (Option Val) :=
  match cd with
  | .vDict m => .ok (dlookup m k)
  | _ => .error (.attributeError "object has no attribute get")

/-- `CommandProcessor.process_command(command_data)` (run_queue.py
172-1393): builds the response dict with the echoed `command_id`, runs
the dispatch inside `try:`, and converts any exception into the error
message (plus `data = e.to_dict()` for `AtolDriverError`), leaving the
other response fields as the handler last set them. -/
def process_command (F : Fptr) (cli : Option RedisClient) (cfg : Settings)
    (command_data : Val) : Except Exn (Response × RState) := do
  let cid := (← pyGet command_data "command_id").getD .vNull
  let command := (← pyGet command_data "command").getD .vNull
  let kwargs := (← pyGet command_data "kwargs").getD (.vDict [])
  let device_id := (← pyGet command_data "device_id").getD (.vStr "default")
  let s0 : PState :=
    { resp := { command_id := cid, success := false, message := .vNull, data := .vNull },
      dev := { remaining := F.records, current := none, trace := [] } }
  match runCmd F cli cfg command kwargs device_id s0 with
  | .ok (_, s) => .ok (s.resp, s.dev)
  | .error (s, e) =>
    let error_msg := "Ошибка при выполнении команды '" ++ pyStr command ++ "': " ++ exnStr e
    let r1 := { s.resp with message := Val.vStr error_msg }
    let r2 :=
      match e with
      | .atol m c d => { r1 with data := atolToDict m c d }
      | _ => r1
    .ok (r2, s.dev)

/-! ## `DeviceWorker.process_message` (the router's message step) -/

/-- `DeviceWorker.process_message`: drops non-`message` events and
`"ping"` probes; decodes the payload with `json.loads` (modeled by the
external-stdlib oracle `parse_json`, `none` = `JSONDecodeError`); runs
`process_command` and publishes exactly one response on success;
any exception (decode failure, non-mapping payload, unexpected error) is
logged and the message dropped — the step always returns. The returned
list is the sequence of responses published to the response channel. -/
def process_message (F : Fptr) (cli : Option RedisClient) (cfg : Settings)
    (parse_json : String → Option Val) (message : List (String × Val)) :
    List Response :=
  if pyEqStr ((dlookup message "type").getD .vNull) "message" then
    if pyEqStr ((dlookup message "data").getD .vNull) "ping" then []
    else
      match (dlookup message "data").getD .vNull with
      | .vStr payload =>
        match parse_json payload with
        | none => []                    -- json.JSONDecodeError: logged, dropped
        | some command_data =>
          match process_command F cli cfg command_data with
          | .ok (response, _) => [response]   -- r.publish(response_channel, ...)
          | .error _ => []                -- except Exception: logged, dropped
      | _ => []                          -- json.loads on non-str raises: logged, dropped
  else []

/-! ## Concrete device scenarios (used by the scenario theorems below) -/

/-- A device whose calls all succeed and whose shift-number register
reports `n`. -/
def shiftOpenDevice (n : Int) : Fptr :=
  { paramInt := fun p => if p = IFptr.LIBFPTR_PARAM_SHIFT_NUMBER then some n else none }

/-- A TLV record whose name register is unavailable (the `TAG_NAME`
accessor raises). -/
def namelessRecord : DevRecord :=
  { tagNumber := some 1000 }

/-- A device serving one TLV record whose `TAG_NAME` accessor raises
mid-drain; `beginReadRecords` itself succeeds. -/
def leakDevice : Fptr :=
  { records := [namelessRecord]
    paramInt := fun p =>
      if p = IFptr.LIBFPTR_PARAM_FN_DOCUMENT_TYPE then some 3
      else if p = IFptr.LIBFPTR_PARAM_COUNT then some 1
      else none
    paramString := fun p =>
      if p = IFptr.LIBFPTR_PARAM_RECORDS_ID then some "rid" else none }

/-- A TLV record that declares the string tag type (8) but whose string
register raises; only the raw bytes `bs` are readable. -/
def mismatchRecord (bs : List Nat) : DevRecord :=
  { tagNumber := some 1000
    tagName := some "first"
    tagType := some 8
    isComplex := some false
    isRepeatable := some false
    valBytes := some bs }

/-- A well-formed string-typed TLV record carrying `s2`. -/
def okRecord (s2 : String) : DevRecord :=
  { tagNumber := some 1001
    tagName := some "second"
    tagType := some 8
    isComplex := some false
    isRepeatable := some false
    valString := some s2 }

/-- A device serving the mismatched record followed by a well-formed
one. -/
def mismatchDevice (bs : List Nat) (s2 : String) : Fptr :=
  { records := [mismatchRecord bs, okRecord s2]
    paramInt := fun p =>
      if p = IFptr.LIBFPTR_PARAM_FN_DOCUMENT_TYPE then some 3
      else if p = IFptr.LIBFPTR_PARAM_COUNT then some 2
      else none
    paramString := fun p =>
      if p = IFptr.LIBFPTR_PARAM_RECORDS_ID then some "rid" else none }

/-! ## The command-id invariant (claim C1 machinery)

`outState` is the processor state in which a computation ended, whether
it returned or raised. `PreservesCid m` says running `m` never changes
`response['command_id']` — proved for every primitive and then for every
handler branch, establishing that only the response construction at the
top of `process_command` ever writes that key. -/

def outState {α : Type} : Except (PState × Exn) (α × PState) → PState
  | .ok (_, t) => t
  | .error (t, _) => t

def PreservesCid {α : Type} (m : PM α) : Prop :=
  ∀ s, (outState (m s)).resp.command_id = s.resp.command_id

theorem pres_pure {α : Type} (a : α) : PreservesCid (pure (f := PM) a) :=
  fun _ => rfl

theorem pres_pmPure {α : Type} (a : α) : PreservesCid (pmPure a) :=
  fun _ => rfl

theorem pres_bind {α β : Type} {m : PM α} {f : α → PM β} (hm : PreservesCid m)
    (hf : ∀ a, PreservesCid (f a)) : PreservesCid (m >>= f) := by
  intro s
  show (outState (pmBind m f s)).resp.command_id = s.resp.command_id
  unfold pmBind
  cases hms : m s with
  | ok p =>
    obtain ⟨a, s1⟩ := p
    have h1 := hm s
    rw [hms] at h1
    exact (hf a s1).trans h1
  | error e =>
    have h1 := hm s
    rw [hms] at h1
    exact h1

theorem pres_throw {α : Type} (e : Exn) : PreservesCid (pmThrow (α := α) e) :=
  fun _ => rfl

theorem pres_setSuccess (b : Bool) : PreservesCid (setSuccess b) := fun _ => rfl

theorem pres_setMessage (m : String) : PreservesCid (setMessage m) := fun _ => rfl

theorem pres_setData (v : Val) : PreservesCid (setData v) := fun _ => rfl

theorem pres_logCall (c : DevCall) : PreservesCid (logCall c) := fun _ => rfl

theorem pres_setParamV (p : Nat) (v : Val) : PreservesCid (setParamV p v) := fun _ => rfl

theorem pres_setParamI (p : Nat) (n : Int) : PreservesCid (setParamI p n) := fun _ => rfl

theorem pres_setParamS (p : Nat) (str : String) : PreservesCid (setParamS p str) :=
  fun _ => rfl

theorem pres_setParamB (p : Nat) (b : Bool) : PreservesCid (setParamB p b) := fun _ => rfl

theorem pres_fptrOp (c : DevCall) (r : Int) : PreservesCid (fptrOp c r) := fun _ => rfl

theorem pres_fptrIsOpened (F : Fptr) : PreservesCid (fptrIsOpened F) := fun _ => rfl

theorem pres_readNextRecord : PreservesCid readNextRecord := by
  intro s
  obtain ⟨resp, rem, cur, tr⟩ := s
  cases rem <;> rfl

theorem pres_curRecord : PreservesCid curRecord := by
  intro s
  obtain ⟨resp, rem, cur, tr⟩ := s
  cases cur <;> rfl

theorem pres_ofOptInt (o : Option Int) : PreservesCid (ofOptInt o) := by
  intro s; cases o <;> rfl

theorem pres_ofOptStr (o : Option String) : PreservesCid (ofOptStr o) := by
  intro s; cases o <;> rfl

theorem pres_ofOptBool (o : Option Bool) : PreservesCid (ofOptBool o) := by
  intro s; cases o <;> rfl

theorem pres_ofOptRat (o : Option Rat) : PreservesCid (ofOptRat o) := by
  intro s; cases o <;> rfl

theorem pres_ofOptBytes (o : Option (List Nat)) : PreservesCid (ofOptBytes o) := by
  intro s; cases o <;> rfl

theorem pres_getParamInt (F : Fptr) (p : Nat) : PreservesCid (getParamInt F p) := by
  unfold getParamInt
  split_ifs <;>
    first
      | exact pres_ofOptInt _
      | exact pres_bind pres_curRecord (fun r => pres_ofOptInt _)

theorem pres_getParamString (F : Fptr) (p : Nat) : PreservesCid (getParamString F p) := by
  unfold getParamString
  split_ifs <;>
    first
      | exact pres_ofOptStr _
      | exact pres_bind pres_curRecord (fun r => pres_ofOptStr _)

theorem pres_getParamBool (F : Fptr) (p : Nat) : PreservesCid (getParamBool F p) := by
  unfold getParamBool
  split_ifs <;>
    first
      | exact pres_ofOptBool _
      | exact pres_bind pres_curRecord (fun r => pres_ofOptBool _)

theorem pres_getParamDouble (F : Fptr) (p : Nat) : PreservesCid (getParamDouble F p) := by
  unfold getParamDouble
  split_ifs <;>
    first
      | exact pres_ofOptRat _
      | exact pres_bind pres_curRecord (fun r => pres_ofOptRat _)

theorem pres_getParamByteArray (F : Fptr) (p : Nat) :
    PreservesCid (getParamByteArray F p) := by
  unfold getParamByteArray
  split_ifs <;>
    first
      | exact pres_ofOptBytes _
      | exact pres_bind pres_curRecord (fun r => pres_ofOptBytes _)

theorem pres_getParamDateTime (F : Fptr) (p : Nat) :
    PreservesCid (getParamDateTime F p) := by
  unfold getParamDateTime
  split_ifs <;>
    first
      | exact pres_pure _
      | exact pres_bind pres_curRecord (fun r => pres_pure _)

theorem pres_check (F : Fptr) (result : Int) (op : String) :
    PreservesCid (check_result F result op) := by
  unfold check_result
  split_ifs
  · exact pres_throw _
  · exact pres_pure _

theorem pres_kwIn (kwargs : Val) (k : String) : PreservesCid (kwIn kwargs k) := by
  unfold kwIn
  cases kwargs <;> first | exact pres_pure _ | exact pres_throw _

theorem pres_kwGet (kwargs : Val) (k : String) : PreservesCid (kwGet kwargs k) := by
  intro s
  unfold kwGet
  split <;> first | rfl | (rename_i m; cases dlookup m k <;> rfl)

theorem pres_kwGetD (kwargs : Val) (k : String) (d : Val) :
    PreservesCid (kwGetD kwargs k d) := by
  unfold kwGetD
  cases kwargs <;> first | exact pres_pure _ | exact pres_throw _

theorem pres_kwItems (kwargs : Val) : PreservesCid (kwItems kwargs) := by
  unfold kwItems
  cases kwargs <;> first | exact pres_pure _ | exact pres_throw _

theorem pres_liftE {α : Type} (e : Except Exn α) : PreservesCid (liftE e) := by
  intro s; cases e <;> rfl

theorem pres_pyFmt2 (v : Val) : PreservesCid (pyFmt2 v) := by
  unfold pyFmt2
  cases v <;> first | exact pres_pure _ | exact pres_throw _

theorem pres_pyRangeCount (v : Val) : PreservesCid (pyRangeCount v) := by
  unfold pyRangeCount
  cases v <;> first | exact pres_pure _ | exact pres_throw _

theorem pres_pyBytes (v : Val) : PreservesCid (pyBytes v) := by
  intro s
  unfold pyBytes
  split <;>
    first
      | rfl
      | (rename_i l; cases valToByteList l <;> rfl)
      | (rename_i n
         by_cases h : 0 ≤ n
         · simp only [if_pos h]; rfl
         · simp only [if_neg h]; rfl)

theorem pres_play_beep (F : Fptr) (f d : Val) : PreservesCid (play_beep F f d) := by
  unfold play_beep
  refine pres_bind (pres_setParamV _ _) (fun _ => ?_)
  refine pres_bind (pres_setParamV _ _) (fun _ => ?_)
  exact pres_bind (pres_fptrOp _ _) (fun r => pres_check _ _ _)

theorem pres_playNotes (F : Fptr) (l : List (Int × Int)) :
    PreservesCid (playNotes F l) := by
  induction l with
  | nil => exact pres_pure _
  | cons n rest ih =>
    unfold playNotes
    exact pres_bind (pres_play_beep _ _ _) (fun _ => ih)

theorem pres_play_arcane_melody (F : Fptr) : PreservesCid (play_arcane_melody F) := by
  intro s
  unfold play_arcane_melody
  have h := pres_playNotes F arcaneMelody s
  cases hm : playNotes F arcaneMelody s with
  | ok p =>
    obtain ⟨a, s1⟩ := p
    rw [hm] at h
    exact h
  | error e =>
    obtain ⟨s1, ex⟩ := e
    rw [hm] at h
    exact h

theorem pres_feedLoop (F : Fptr) (n : Nat) : PreservesCid (feedLoop F n) := by
  induction n with
  | zero => exact pres_pure _
  | succ k ih =>
    unfold feedLoop
    exact pres_bind (pres_fptrOp _ _) (fun r => pres_bind (pres_check _ _ _) (fun _ => ih))

theorem pres_regSetParams (items : List (String × Val)) :
    PreservesCid (regSetParams items) := by
  induction items with
  | nil => exact pres_pure _
  | cons p rest ih =>
    obtain ⟨k, v⟩ := p
    unfold regSetParams
    refine pres_bind ?_ (fun _ => ih)
    unfold regSetOne
    split_ifs <;> first | exact pres_setParamV _ _ | exact pres_pure _

theorem pres_optSetParam (kwargs : Val) (k : String) (p : Nat) :
    PreservesCid (optSetParam kwargs k p) := by
  unfold optSetParam
  refine pres_bind (pres_kwIn _ _) (fun b => ?_)
  split
  · exact pres_bind (pres_kwGet _ _) (fun v => pres_setParamV _ _)
  · exact pres_pure _

theorem pres_optSetDefer (kwargs : Val) : PreservesCid (optSetDefer kwargs) := by
  unfold optSetDefer
  refine pres_bind (pres_kwIn _ _) (fun b => ?_)
  split
  · refine pres_bind (pres_kwGet _ _) (fun v => ?_)
    split
    · exact pres_setParamV _ _
    · exact pres_pure _
  · exact pres_pure _

theorem pres_tryBoolFields (F : Fptr) (l : List (String × Nat)) :
    ∀ d, PreservesCid (tryBoolFields F l d) := by
  induction l with
  | nil => intro d; exact pres_pure _
  | cons p rest ih =>
    intro d s
    obtain ⟨k, q⟩ := p
    unfold tryBoolFields
    have h := pres_getParamBool F q s
    cases hm : getParamBool F q s with
    | ok r =>
      obtain ⟨b, s1⟩ := r
      rw [hm] at h
      exact (ih _ s1).trans h
    | error e =>
      obtain ⟨s1, ex⟩ := e
      rw [hm] at h
      exact h

theorem pres_tryStrFields (F : Fptr) (l : List (String × Nat)) :
    ∀ d, PreservesCid (tryStrFields F l d) := by
  induction l with
  | nil => intro d; exact pres_pure _
  | cons p rest ih =>
    intro d s
    obtain ⟨k, q⟩ := p
    unfold tryStrFields
    have h := pres_getParamString F q s
    cases hm : getParamString F q s with
    | ok r =>
      obtain ⟨v, s1⟩ := r
      rw [hm] at h
      exact (ih _ s1).trans h
    | error e =>
      obtain ⟨s1, ex⟩ := e
      rw [hm] at h
      exact h

theorem pres_typedTagRead (F : Fptr) (t : Int) : PreservesCid (typedTagRead F t) := by
  unfold typedTagRead
  split_ifs <;>
    first
      | exact pres_bind (pres_getParamInt _ _) (fun _ => pres_pure _)
      | exact pres_bind (pres_getParamDouble _ _) (fun _ => pres_pure _)
      | exact pres_bind (pres_getParamString _ _) (fun _ => pres_pure _)
      | exact pres_bind (pres_getParamBool _ _) (fun _ => pres_pure _)
      | exact pres_bind (pres_getParamByteArray _ _) (fun _ => pres_pure _)

theorem pres_readTagValue (F : Fptr) (t : Int) : PreservesCid (readTagValue F t) := by
  intro s
  unfold readTagValue
  have h := pres_typedTagRead F t s
  cases hm : typedTagRead F t s with
  | ok p =>
    obtain ⟨v, s1⟩ := p
    rw [hm] at h
    exact h
  | error e =>
    obtain ⟨s1, ex⟩ := e
    rw [hm] at h
    have h2 := pres_bind (m := getParamByteArray F IFptr.LIBFPTR_PARAM_TAG_VALUE)
      (f := fun bs => pure (Val.vBytes bs))
      (pres_getParamByteArray _ _) (fun _ => pres_pure _) s1
    exact h2.trans h

theorem pres_drainTLVGo (F : Fptr) (rid : String) :
    ∀ fuel acc, PreservesCid (drainTLVGo F rid fuel acc) := by
  intro fuel
  induction fuel with
  | zero => intro acc; exact pres_pure _
  | succ n ih =>
    intro acc
    unfold drainTLVGo
    refine pres_bind pres_readNextRecord (fun rc => ?_)
    split
    · refine pres_bind (pres_getParamInt _ _) (fun _ => ?_)
      refine pres_bind (pres_getParamString _ _) (fun _ => ?_)
      refine pres_bind (pres_getParamInt _ _) (fun _ => ?_)
      refine pres_bind (pres_getParamBool _ _) (fun _ => ?_)
      refine pres_bind (pres_getParamBool _ _) (fun _ => ?_)
      refine pres_bind (pres_readTagValue _ _) (fun _ => ?_)
      refine pres_bind (pres_setParamS _ _) (fun _ => ?_)
      exact ih _
    · exact pres_pure _

theorem pres_drainTLV (F : Fptr) (rid : String) : PreservesCid (drainTLV F rid) := by
  intro s
  unfold drainTLV
  exact pres_drainTLVGo F rid _ [] s

theorem pres_drainLicensesGo (F : Fptr) (rid : String) :
    ∀ fuel acc, PreservesCid (drainLicensesGo F rid fuel acc) := by
  intro fuel
  induction fuel with
  | zero => intro acc; exact pres_pure _
  | succ n ih =>
    intro acc
    unfold drainLicensesGo
    refine pres_bind pres_readNextRecord (fun rc => ?_)
    split
    · refine pres_bind (pres_getParamInt _ _) (fun _ => ?_)
      refine pres_bind (pres_getParamString _ _) (fun _ => ?_)
      refine pres_bind (pres_getParamDateTime _ _) (fun _ => ?_)
      refine pres_bind (pres_getParamDateTime _ _) (fun _ => ?_)
      refine pres_bind (pres_setParamS _ _) (fun _ => ?_)
      exact ih _
    · exact pres_pure _

theorem pres_drainLicenses (F : Fptr) (rid : String) :
    PreservesCid (drainLicenses F rid) := by
  intro s
  unfold drainLicenses
  exact pres_drainLicensesGo F rid _ [] s

theorem pres_drainSettingsGo (F : Fptr) (rid : String) :
    ∀ fuel acc, PreservesCid (drainSettingsGo F rid fuel acc) := by
  intro fuel
  induction fuel with
  | zero => intro acc; exact pres_pure _
  | succ n ih =>
    intro acc
    unfold drainSettingsGo
    refine pres_bind pres_readNextRecord (fun rc => ?_)
    split
    · refine pres_bind (pres_getParamInt _ _) (fun _ => ?_)
      refine pres_bind (pres_getParamInt _ _) (fun _ => ?_)
      refine pres_bind (pres_getParamString _ _) (fun _ => ?_)
      refine pres_bind ?_ (fun _ => ?_)
      · unfold readSettingValue
        split_ifs <;>
          first
            | exact pres_bind (pres_getParamInt _ _) (fun _ => pres_pure _)
            | exact pres_bind (pres_getParamBool _ _) (fun _ => pres_pure _)
            | exact pres_bind (pres_getParamString _ _) (fun _ => pres_pure _)
            | exact pres_pure _
      · refine pres_bind (pres_setParamS _ _) (fun _ => ?_)
        exact ih _
    · exact pres_pure _

theorem pres_drainSettings (F : Fptr) (rid : String) :
    PreservesCid (drainSettings F rid) := by
  intro s
  unfold drainSettings
  exact pres_drainSettingsGo F rid _ [] s

theorem pres_change_label (F : Fptr) (label : Val) :
    PreservesCid (change_label F label) := by
  unfold change_label
  refine pres_bind (pres_logCall _) (fun _ => ?_)
  split_ifs
  · exact pres_pure _
  · exact pres_throw _

theorem pres_cashierLogin (F : Fptr) (cli : Option RedisClient) (cfg : Settings)
    (device_id kwargs : Val) : PreservesCid (cashierLogin F cli cfg device_id kwargs) := by
  unfold cashierLogin
  refine pres_bind (pres_liftE _) (fun c => ?_)
  refine pres_bind (pres_setParamV _ _) (fun _ => ?_)
  refine pres_bind ?_ (fun _ => ?_)
  · unfold setParam1203If
    split
    · exact pres_setParamV _ _
    · exact pres_pure _
  · exact pres_bind (pres_fptrOp _ _) (fun r => pres_check _ _ _)

theorem pres_connOpenSettings (kwargs : Val) : PreservesCid (connOpenSettings kwargs) := by
  unfold connOpenSettings
  refine pres_bind (pres_kwIn _ _) (fun b => ?_)
  split
  · refine pres_bind (pres_kwGet _ _) (fun v => ?_)
    split
    · exact pres_pure _
    · exact pres_logCall _
  · exact pres_pure _

theorem pres_hConnectionOpen (F : Fptr) (kwargs : Val) :
    PreservesCid (hConnectionOpen F kwargs) :=
  pres_bind (pres_connOpenSettings _) (fun _ =>
    pres_bind (pres_fptrOp _ _) (fun r =>
      pres_bind (pres_check _ _ _) (fun _ =>
        pres_bind (pres_setSuccess _) (fun _ => pres_setMessage _))))

theorem pres_hConnectionClose (F : Fptr) : PreservesCid (hConnectionClose F) :=
  pres_bind (pres_fptrOp _ _) (fun r =>
    pres_bind (pres_check _ _ _) (fun _ =>
      pres_bind (pres_setSuccess _) (fun _ => pres_setMessage _)))

theorem pres_hConnectionIsOpened (F : Fptr) : PreservesCid (hConnectionIsOpened F) :=
  pres_bind (pres_fptrIsOpened _) (fun o =>
    pres_bind (pres_setSuccess _) (fun _ =>
      pres_bind (pres_setMessage _) (fun _ => pres_setData _)))

theorem pres_hShiftOpen (F : Fptr) (cli : Option RedisClient) (cfg : Settings)
    (device_id kwargs : Val) : PreservesCid (hShiftOpen F cli cfg device_id kwargs) :=
  pres_bind (pres_cashierLogin _ _ _ _ _) (fun _ =>
    pres_bind (pres_fptrOp _ _) (fun r =>
      pres_bind (pres_check _ _ _) (fun _ =>
        pres_bind (pres_fptrOp _ _) (fun r2 =>
          pres_bind (pres_check _ _ _) (fun _ =>
            pres_bind (pres_getParamInt _ _) (fun sn =>
              pres_bind (pres_setSuccess _) (fun _ =>
                pres_bind (pres_setMessage _) (fun _ => pres_setData _))))))))

theorem pres_hShiftClose (F : Fptr) (cli : Option RedisClient) (cfg : Settings)
    (device_id kwargs : Val) : PreservesCid (hShiftClose F cli cfg device_id kwargs) :=
  pres_bind (pres_cashierLogin _ _ _ _ _) (fun _ =>
    pres_bind (pres_setParamI _ _) (fun _ =>
      pres_bind (pres_fptrOp _ _) (fun r =>
        pres_bind (pres_check _ _ _) (fun _ =>
          pres_bind (pres_fptrOp _ _) (fun r2 =>
            pres_bind (pres_check _ _ _) (fun _ =>
              pres_bind (pres_setSuccess _) (fun _ =>
                pres_bind (pres_getParamInt _ _) (fun sn =>
                  pres_bind (pres_getParamInt _ _) (fun fdn =>
                    pres_bind (pres_setData _) (fun _ => pres_setMessage _))))))))))

theorem pres_hShiftGetStatus (F : Fptr) : PreservesCid (hShiftGetStatus F) :=
  pres_bind (pres_setParamI _ _) (fun _ =>
    pres_bind (pres_fptrOp _ _) (fun r =>
      pres_bind (pres_check _ _ _) (fun _ =>
        pres_bind (pres_getParamDateTime _ _) (fun dt =>
          pres_bind (pres_getParamInt _ _) (fun st =>
            pres_bind (pres_getParamInt _ _) (fun sn =>
              pres_bind (pres_setSuccess _) (fun _ =>
                pres_bind (pres_setData _) (fun _ => pres_setMessage _))))))))

theorem pres_hShiftPrintXReport (F : Fptr) (cli : Option RedisClient) (cfg : Settings)
    (device_id kwargs : Val) :
    PreservesCid (hShiftPrintXReport F cli cfg device_id kwargs) :=
  pres_bind (pres_cashierLogin _ _ _ _ _) (fun _ =>
    pres_bind (pres_setParamI _ _) (fun _ =>
      pres_bind (pres_fptrOp _ _) (fun r =>
        pres_bind (pres_check _ _ _) (fun _ =>
          pres_bind (pres_setSuccess _) (fun _ => pres_setMessage _)))))

theorem pres_receiptOpenContact (kwargs : Val) :
    PreservesCid (receiptOpenContact kwargs) := by
  unfold receiptOpenContact
  refine pres_bind (pres_kwGetD _ _ _) (fun c => ?_)
  split
  · exact pres_bind (pres_setParamB _ _) (fun _ =>
      pres_bind (pres_kwGet _ _) (fun v => pres_setParamV _ _))
  · exact pres_pure _

theorem pres_hReceiptOpen (F : Fptr) (cli : Option RedisClient) (cfg : Settings)
    (device_id kwargs : Val) : PreservesCid (hReceiptOpen F cli cfg device_id kwargs) :=
  pres_bind (pres_cashierLogin _ _ _ _ _) (fun _ =>
    pres_bind (pres_kwGet _ _) (fun rt =>
      pres_bind (pres_setParamV _ _) (fun _ =>
        pres_bind (pres_receiptOpenContact _) (fun _ =>
          pres_bind (pres_fptrOp _ _) (fun r =>
            pres_bind (pres_check _ _ _) (fun _ =>
              pres_bind (pres_setSuccess _) (fun _ =>
                pres_bind (pres_kwGet _ _) (fun rt2 => pres_setMessage _))))))))

theorem pres_hRegistration (F : Fptr) (kwargs : Val) :
    PreservesCid (hRegistration F kwargs) :=
  pres_bind (pres_kwItems _) (fun items =>
    pres_bind (pres_regSetParams _) (fun _ =>
      pres_bind (pres_fptrOp _ _) (fun r =>
        pres_bind (pres_check _ _ _) (fun _ =>
          pres_bind (pres_setSuccess _) (fun _ =>
            pres_bind (pres_kwGet _ _) (fun nm => pres_setMessage _))))))

theorem pres_hPayment (F : Fptr) (kwargs : Val) : PreservesCid (hPayment F kwargs) :=
  pres_bind (pres_kwGet _ _) (fun pt =>
    pres_bind (pres_setParamV _ _) (fun _ =>
      pres_bind (pres_kwGet _ _) (fun sm =>
        pres_bind (pres_setParamV _ _) (fun _ =>
          pres_bind (pres_fptrOp _ _) (fun r =>
            pres_bind (pres_check _ _ _) (fun _ =>
              pres_bind (pres_setSuccess _) (fun _ =>
                pres_bind (pres_kwGet _ _) (fun s2 =>
                  pres_bind (pres_pyFmt2 _) (fun str => pres_setMessage _)))))))))

theorem pres_hReceiptClose (F : Fptr) : PreservesCid (hReceiptClose F) :=
  pres_bind (pres_fptrOp _ _) (fun r =>
    pres_bind (pres_check _ _ _) (fun _ =>
      pres_bind (pres_setSuccess _) (fun _ =>
        pres_bind (pres_setData _) (fun _ => pres_setMessage _))))

theorem pres_hReceiptCancel (F : Fptr) : PreservesCid (hReceiptCancel F) :=
  pres_bind (pres_fptrOp _ _) (fun r =>
    pres_bind (pres_check _ _ _) (fun _ =>
      pres_bind (pres_setSuccess _) (fun _ => pres_setMessage _)))

theorem pres_hBeep (F : Fptr) (kwargs : Val) : PreservesCid (hBeep F kwargs) :=
  pres_bind (pres_kwGetD _ _ _) (fun f =>
    pres_bind (pres_kwGetD _ _ _) (fun d =>
      pres_bind (pres_play_beep _ _ _) (fun _ =>
        pres_bind (pres_setSuccess _) (fun _ => pres_setMessage _))))

theorem pres_hPlayArcaneMelody (F : Fptr) : PreservesCid (hPlayArcaneMelody F) :=
  pres_bind (pres_play_arcane_melody _) (fun _ =>
    pres_bind (pres_setSuccess _) (fun _ => pres_setMessage _))

theorem pres_hCashIncome (F : Fptr) (kwargs : Val) : PreservesCid (hCashIncome F kwargs) :=
  pres_bind (pres_kwGet _ _) (fun a =>
    pres_bind (pres_setParamV _ _) (fun _ =>
      pres_bind (pres_fptrOp _ _) (fun r =>
        pres_bind (pres_check _ _ _) (fun _ =>
          pres_bind (pres_setSuccess _) (fun _ =>
            pres_bind (pres_kwGet _ _) (fun a2 =>
              pres_bind (pres_pyFmt2 _) (fun str => pres_setMessage _)))))))

theorem pres_hCashOutcome (F : Fptr) (kwargs : Val) :
    PreservesCid (hCashOutcome F kwargs) :=
  pres_bind (pres_kwGet _ _) (fun a =>
    pres_bind (pres_setParamV _ _) (fun _ =>
      pres_bind (pres_fptrOp _ _) (fun r =>
        pres_bind (pres_check _ _ _) (fun _ =>
          pres_bind (pres_setSuccess _) (fun _ =>
            pres_bind (pres_kwGet _ _) (fun a2 =>
              pres_bind (pres_pyFmt2 _) (fun str => pres_setMessage _)))))))

theorem pres_hPrintText (F : Fptr) (kwargs : Val) : PreservesCid (hPrintText F kwargs) :=
  pres_bind (pres_kwGetD _ _ _) (fun text =>
    pres_bind (pres_setParamV _ _) (fun _ =>
      pres_bind (pres_kwGetD _ _ _) (fun _a =>
        pres_bind (pres_setParamV _ _) (fun _ =>
          pres_bind (pres_kwGetD _ _ _) (fun _w =>
            pres_bind (pres_setParamV _ _) (fun _ =>
              pres_bind (pres_optSetParam _ _ _) (fun _ =>
                pres_bind (pres_optSetParam _ _ _) (fun _ =>
                  pres_bind (pres_optSetParam _ _ _) (fun _ =>
                    pres_bind (pres_optSetParam _ _ _) (fun _ =>
                      pres_bind (pres_optSetParam _ _ _) (fun _ =>
                        pres_bind (pres_optSetDefer _) (fun _ =>
                          pres_bind (pres_fptrOp _ _) (fun _r =>
                            pres_bind (pres_check _ _ _) (fun _ =>
                              pres_bind (pres_setSuccess _) (fun _ =>
                                pres_setMessage _)))))))))))))))

theorem pres_hPrintFeed (F : Fptr) (kwargs : Val) : PreservesCid (hPrintFeed F kwargs) :=
  pres_bind (pres_kwGetD _ _ _) (fun lines =>
    pres_bind (pres_pyRangeCount _) (fun n =>
      pres_bind (pres_feedLoop _ _) (fun _ =>
        pres_bind (pres_setSuccess _) (fun _ => pres_setMessage _))))

theorem pres_hPrintBarcode (F : Fptr) (kwargs : Val) :
    PreservesCid (hPrintBarcode F kwargs) :=
  pres_bind (pres_kwGet _ _) (fun barcode =>
    pres_bind (pres_setParamV _ _) (fun _ =>
      pres_bind (pres_kwGetD _ _ _) (fun _b =>
        pres_bind (pres_setParamV _ _) (fun _ =>
          pres_bind (pres_kwGetD _ _ _) (fun _a =>
            pres_bind (pres_setParamV _ _) (fun _ =>
              pres_bind (pres_kwGetD _ _ _) (fun _s =>
                pres_bind (pres_setParamV _ _) (fun _ =>
                  pres_bind (pres_optSetParam _ _ _) (fun _ =>
                    pres_bind (pres_optSetParam _ _ _) (fun _ =>
                      pres_bind (pres_optSetParam _ _ _) (fun _ =>
                        pres_bind (pres_optSetParam _ _ _) (fun _ =>
                          pres_bind (pres_optSetParam _ _ _) (fun _ =>
                            pres_bind (pres_optSetParam _ _ _) (fun _ =>
                              pres_bind (pres_optSetParam _ _ _) (fun _ =>
                                pres_bind (pres_optSetDefer _) (fun _ =>
                                  pres_bind (pres_fptrOp _ _) (fun _r =>
                                    pres_bind (pres_check _ _ _) (fun _ =>
                                      pres_bind (pres_setSuccess _) (fun _ =>
                                        pres_setMessage _)))))))))))))))))))

theorem pres_hPrintPicture (F : Fptr) (kwargs : Val) :
    PreservesCid (hPrintPicture F kwargs) :=
  pres_bind (pres_kwGet _ _) (fun filename =>
    pres_bind (pres_setParamV _ _) (fun _ =>
      pres_bind (pres_kwGetD _ _ _) (fun _a =>
        pres_bind (pres_setParamV _ _) (fun _ =>
          pres_bind (pres_kwGetD _ _ _) (fun _s =>
            pres_bind (pres_setParamV _ _) (fun _ =>
              pres_bind (pres_optSetParam _ _ _) (fun _ =>
                pres_bind (pres_fptrOp _ _) (fun _r =>
                  pres_bind (pres_check _ _ _) (fun _ =>
                    pres_bind (pres_setSuccess _) (fun _ =>
                      pres_setMessage _))))))))))

theorem pres_hPrintPictureByNumber (F : Fptr) (kwargs : Val) :
    PreservesCid (hPrintPictureByNumber F kwargs) :=
  pres_bind (pres_kwGet _ _) (fun pn =>
    pres_bind (pres_setParamV _ _) (fun _ =>
      pres_bind (pres_kwGetD _ _ _) (fun _a =>
        pres_bind (pres_setParamV _ _) (fun _ =>
          pres_bind (pres_optSetParam _ _ _) (fun _ =>
            pres_bind (pres_optSetDefer _) (fun _ =>
              pres_bind (pres_fptrOp _ _) (fun _r =>
                pres_bind (pres_check _ _ _) (fun _ =>
                  pres_bind (pres_setSuccess _) (fun _ =>
                    pres_setMessage _)))))))))

theorem pres_hOpenNonfiscalDocument (F : Fptr) :
    PreservesCid (hOpenNonfiscalDocument F) :=
  pres_bind (pres_fptrOp _ _) (fun _r =>
    pres_bind (pres_check _ _ _) (fun _ =>
      pres_bind (pres_setSuccess _) (fun _ => pres_setMessage _)))

theorem pres_hCloseNonfiscalDocument (F : Fptr) :
    PreservesCid (hCloseNonfiscalDocument F) :=
  pres_bind (pres_fptrOp _ _) (fun _r =>
    pres_bind (pres_check _ _ _) (fun _ =>
      pres_bind (pres_setSuccess _) (fun _ => pres_setMessage _)))

theorem pres_hCutPaper (F : Fptr) : PreservesCid (hCutPaper F) :=
  pres_bind (pres_fptrOp _ _) (fun _r =>
    pres_bind (pres_check _ _ _) (fun _ =>
      pres_bind (pres_setSuccess _) (fun _ => pres_setMessage _)))

theorem pres_hOpenCashDrawer (F : Fptr) : PreservesCid (hOpenCashDrawer F) :=
  pres_bind (pres_fptrOp _ _) (fun _r =>
    pres_bind (pres_check _ _ _) (fun _ =>
      pres_bind (pres_setSuccess _) (fun _ => pres_setMessage _)))

theorem pres_hPrintXReport (F : Fptr) : PreservesCid (hPrintXReport F) :=
  pres_bind (pres_setParamI _ _) (fun _ =>
    pres_bind (pres_fptrOp _ _) (fun _r =>
      pres_bind (pres_check _ _ _) (fun _ =>
        pres_bind (pres_setSuccess _) (fun _ => pres_setMessage _))))

theorem pres_hOperatorLogin (F : Fptr) (kwargs : Val) :
    PreservesCid (hOperatorLogin F kwargs) :=
  pres_bind (pres_kwGet _ _) (fun nm =>
    pres_bind (pres_kwGetD _ _ _) (fun vt =>
      pres_bind (pres_setParamV _ _) (fun _ =>
        pres_bind ((by
          unfold setParam1203If
          split
          · exact pres_setParamV _ _
          · exact pres_pure _) : PreservesCid (setParam1203If vt)) (fun _ =>
          pres_bind (pres_fptrOp _ _) (fun _r =>
            pres_bind (pres_check _ _ _) (fun _ =>
              pres_bind (pres_setSuccess _) (fun _ => pres_setMessage _)))))))

theorem pres_hContinuePrint (F : Fptr) : PreservesCid (hContinuePrint F) :=
  pres_bind (pres_fptrOp _ _) (fun _r =>
    pres_bind (pres_check _ _ _) (fun _ =>
      pres_bind (pres_setSuccess _) (fun _ => pres_setMessage _)))

theorem pres_hCheckDocumentClosed (F : Fptr) : PreservesCid (hCheckDocumentClosed F) :=
  pres_bind (pres_fptrOp _ _) (fun _r =>
    pres_bind (pres_check _ _ _) (fun _ =>
      pres_bind (pres_getParamBool _ _) (fun _a =>
        pres_bind (pres_getParamBool _ _) (fun _b =>
          pres_bind (pres_setData _) (fun _ =>
            pres_bind (pres_setSuccess _) (fun _ => pres_setMessage _))))))

theorem pres_hConfigureLogging : PreservesCid hConfigureLogging :=
  pres_throw _

theorem pres_hChangeDriverLabel (F : Fptr) (kwargs : Val) :
    PreservesCid (hChangeDriverLabel F kwargs) :=
  pres_bind (pres_kwGet _ _) (fun label =>
    pres_bind (pres_change_label _ _) (fun _ =>
      pres_bind (pres_setSuccess _) (fun _ => pres_setMessage _)))

theorem pres_hGetDefaultLoggingConfig : PreservesCid hGetDefaultLoggingConfig :=
  pres_throw _

theorem pres_hGetStatus (F : Fptr) : PreservesCid (hGetStatus F) :=
  pres_bind (pres_setParamI _ _) (fun _ =>
    pres_bind (pres_fptrOp _ _) (fun _r =>
      pres_bind (pres_check _ _ _) (fun _ =>
        pres_bind (pres_getParamString _ _) (fun _1 =>
          pres_bind (pres_getParamString _ _) (fun _2 =>
            pres_bind (pres_getParamInt _ _) (fun _3 =>
              pres_bind (pres_getParamBool _ _) (fun _4 =>
                pres_bind (pres_getParamBool _ _) (fun _5 =>
                  pres_bind (pres_setData _) (fun _ => pres_setSuccess _)))))))))

theorem pres_hGetShortStatus (F : Fptr) : PreservesCid (hGetShortStatus F) :=
  pres_bind (pres_setParamI _ _) (fun _ =>
    pres_bind (pres_fptrOp _ _) (fun _r =>
      pres_bind (pres_check _ _ _) (fun _ =>
        pres_bind (pres_getParamBool _ _) (fun _1 =>
          pres_bind (pres_getParamBool _ _) (fun _2 =>
            pres_bind (pres_getParamBool _ _) (fun _3 =>
              pres_bind (pres_getParamBool _ _) (fun _4 =>
                pres_bind (pres_setData _) (fun _ => pres_setSuccess _))))))))

theorem pres_hGetCashSum (F : Fptr) : PreservesCid (hGetCashSum F) :=
  pres_bind (pres_setParamI _ _) (fun _ =>
    pres_bind (pres_fptrOp _ _) (fun _r =>
      pres_bind (pres_check _ _ _) (fun _ =>
        pres_bind (pres_getParamDouble _ _) (fun _1 =>
          pres_bind (pres_setData _) (fun _ => pres_setSuccess _)))))

theorem pres_hGetShiftState (F : Fptr) : PreservesCid (hGetShiftState F) :=
  pres_bind (pres_setParamI _ _) (fun _ =>
    pres_bind (pres_fptrOp _ _) (fun _r =>
      pres_bind (pres_check _ _ _) (fun _ =>
        pres_bind (pres_getParamDateTime _ _) (fun _dt =>
          pres_bind (pres_getParamInt _ _) (fun _1 =>
            pres_bind (pres_getParamInt _ _) (fun _2 =>
              pres_bind (pres_setData _) (fun _ => pres_setSuccess _)))))))

theorem pres_hGetReceiptState (F : Fptr) : PreservesCid (hGetReceiptState F) :=
  pres_bind (pres_setParamI _ _) (fun _ =>
    pres_bind (pres_fptrOp _ _) (fun _r =>
      pres_bind (pres_check _ _ _) (fun _ =>
        pres_bind (pres_getParamInt _ _) (fun _1 =>
          pres_bind (pres_getParamDouble _ _) (fun _2 =>
            pres_bind (pres_getParamInt _ _) (fun _3 =>
              pres_bind (pres_getParamInt _ _) (fun _4 =>
                pres_bind (pres_getParamDouble _ _) (fun _5 =>
                  pres_bind (pres_getParamDouble _ _) (fun _6 =>
                    pres_bind (pres_setData _) (fun _ => pres_setSuccess _))))))))))

theorem pres_hGetDatetime (F : Fptr) : PreservesCid (hGetDatetime F) :=
  pres_bind (pres_setParamI _ _) (fun _ =>
    pres_bind (pres_fptrOp _ _) (fun _r =>
      pres_bind (pres_check _ _ _) (fun _ =>
        pres_bind (pres_getParamDateTime _ _) (fun _dt =>
          pres_bind (pres_setData _) (fun _ => pres_setSuccess _)))))

theorem pres_hGetSerialNumber (F : Fptr) : PreservesCid (hGetSerialNumber F) :=
  pres_bind (pres_setParamI _ _) (fun _ =>
    pres_bind (pres_fptrOp _ _) (fun _r =>
      pres_bind (pres_check _ _ _) (fun _ =>
        pres_bind (pres_getParamString _ _) (fun _1 =>
          pres_bind (pres_setData _) (fun _ => pres_setSuccess _)))))

theorem pres_hGetModelInfo (F : Fptr) : PreservesCid (hGetModelInfo F) :=
  pres_bind (pres_setParamI _ _) (fun _ =>
    pres_bind (pres_fptrOp _ _) (fun _r =>
      pres_bind (pres_check _ _ _) (fun _ =>
        pres_bind (pres_getParamInt _ _) (fun _1 =>
          pres_bind (pres_getParamString _ _) (fun _2 =>
            pres_bind (pres_getParamString _ _) (fun _3 =>
              pres_bind (pres_setData _) (fun _ => pres_setSuccess _)))))))

theorem pres_hGetReceiptLineLength (F : Fptr) : PreservesCid (hGetReceiptLineLength F) :=
  pres_bind (pres_setParamI _ _) (fun _ =>
    pres_bind (pres_fptrOp _ _) (fun _r =>
      pres_bind (pres_check _ _ _) (fun _ =>
        pres_bind (pres_getParamInt _ _) (fun _1 =>
          pres_bind (pres_getParamInt _ _) (fun _2 =>
            pres_bind (pres_setData _) (fun _ => pres_setSuccess _))))))

theorem pres_unitVersionData (F : Fptr) (ut : Val) (uv : String) :
    PreservesCid (unitVersionData F ut uv) := by
  unfold unitVersionData
  split
  · exact pres_bind (pres_getParamString _ _) (fun rv => pres_pure _)
  · exact pres_pure _

theorem pres_hGetUnitVersion (F : Fptr) (kwargs : Val) :
    PreservesCid (hGetUnitVersion F kwargs) :=
  pres_bind (pres_kwGetD _ _ _) (fun ut =>
    pres_bind (pres_setParamI _ _) (fun _ =>
      pres_bind (pres_setParamV _ _) (fun _ =>
        pres_bind (pres_fptrOp _ _) (fun _r =>
          pres_bind (pres_check _ _ _) (fun _ =>
            pres_bind (pres_getParamString _ _) (fun uv =>
              pres_bind (pres_unitVersionData _ _ _) (fun rd =>
                pres_bind (pres_setData _) (fun _ => pres_setSuccess _))))))))

theorem pres_hGetPaymentSum (F : Fptr) (kwargs : Val) :
    PreservesCid (hGetPaymentSum F kwargs) :=
  pres_bind (pres_kwGet _ _) (fun _pt =>
    pres_bind (pres_kwGet _ _) (fun _rt =>
      pres_bind (pres_setParamI _ _) (fun _ =>
        pres_bind (pres_setParamV _ _) (fun _ =>
          pres_bind (pres_setParamV _ _) (fun _ =>
            pres_bind (pres_fptrOp _ _) (fun _r =>
              pres_bind (pres_check _ _ _) (fun _ =>
                pres_bind (pres_getParamDouble _ _) (fun _1 =>
                  pres_bind (pres_setData _) (fun _ => pres_setSuccess _)))))))))

theorem pres_hGetCashinSum (F : Fptr) : PreservesCid (hGetCashinSum F) :=
  pres_bind (pres_setParamI _ _) (fun _ =>
    pres_bind (pres_fptrOp _ _) (fun _r =>
      pres_bind (pres_check _ _ _) (fun _ =>
        pres_bind (pres_getParamDouble _ _) (fun _1 =>
          pres_bind (pres_setData _) (fun _ => pres_setSuccess _)))))

theorem pres_hGetCashoutSum (F : Fptr) : PreservesCid (hGetCashoutSum F) :=
  pres_bind (pres_setParamI _ _) (fun _ =>
    pres_bind (pres_fptrOp _ _) (fun _r =>
      pres_bind (pres_check _ _ _) (fun _ =>
        pres_bind (pres_getParamDouble _ _) (fun _1 =>
          pres_bind (pres_setData _) (fun _ => pres_setSuccess _)))))

theorem pres_hGetReceiptCount (F : Fptr) (kwargs : Val) :
    PreservesCid (hGetReceiptCount F kwargs) :=
  pres_bind (pres_kwGet _ _) (fun _rt =>
    pres_bind (pres_setParamI _ _) (fun _ =>
      pres_bind (pres_setParamV _ _) (fun _ =>
        pres_bind (pres_fptrOp _ _) (fun _r =>
          pres_bind (pres_check _ _ _) (fun _ =>
            pres_bind (pres_getParamInt _ _) (fun _1 =>
              pres_bind (pres_setData _) (fun _ => pres_setSuccess _)))))))

theorem pres_hGetNonNullableSum (F : Fptr) (kwargs : Val) :
    PreservesCid (hGetNonNullableSum F kwargs) :=
  pres_bind (pres_kwGet _ _) (fun _rt =>
    pres_bind (pres_setParamI _ _) (fun _ =>
      pres_bind (pres_setParamV _ _) (fun _ =>
        pres_bind (pres_fptrOp _ _) (fun _r =>
          pres_bind (pres_check _ _ _) (fun _ =>
            pres_bind (pres_getParamDouble _ _) (fun _1 =>
              pres_bind (pres_setData _) (fun _ => pres_setSuccess _)))))))

theorem pres_hGetPowerSourceState (F : Fptr) (kwargs : Val) :
    PreservesCid (hGetPowerSourceState F kwargs) :=
  pres_bind (pres_kwGetD _ _ _) (fun _ps =>
    pres_bind (pres_setParamI _ _) (fun _ =>
      pres_bind (pres_setParamV _ _) (fun _ =>
        pres_bind (pres_fptrOp _ _) (fun _r =>
          pres_bind (pres_check _ _ _) (fun _ =>
            pres_bind (pres_getParamInt _ _) (fun _1 =>
              pres_bind (pres_getParamDouble _ _) (fun _2 =>
                pres_bind (pres_getParamBool _ _) (fun _3 =>
                  pres_bind (pres_getParamBool _ _) (fun _4 =>
                    pres_bind (pres_getParamBool _ _) (fun _5 =>
                      pres_bind (pres_setData _) (fun _ => pres_setSuccess _)))))))))))

theorem pres_hGetPrinterTemperature (F : Fptr) :
    PreservesCid (hGetPrinterTemperature F) :=
  pres_bind (pres_setParamI _ _) (fun _ =>
    pres_bind (pres_fptrOp _ _) (fun _r =>
      pres_bind (pres_check _ _ _) (fun _ =>
        pres_bind (pres_getParamDouble _ _) (fun _1 =>
          pres_bind (pres_setData _) (fun _ => pres_setSuccess _)))))

theorem pres_hGetFatalStatus (F : Fptr) : PreservesCid (hGetFatalStatus F) :=
  pres_bind (pres_setParamI _ _) (fun _ =>
    pres_bind (pres_fptrOp _ _) (fun _r =>
      pres_bind (pres_check _ _ _) (fun _ =>
        pres_bind (pres_getParamBool _ _) (fun _1 =>
          pres_bind (pres_getParamBool _ _) (fun _2 =>
            pres_bind (pres_getParamBool _ _) (fun _3 =>
              pres_bind (pres_getParamBool _ _) (fun _4 =>
                pres_bind (pres_getParamBool _ _) (fun _5 =>
                  pres_bind (pres_getParamBool _ _) (fun _6 =>
                    pres_bind (pres_getParamBool _ _) (fun _7 =>
                      pres_bind (pres_getParamBool _ _) (fun _8 =>
                        pres_bind (pres_getParamBool _ _) (fun _9 =>
                          pres_bind (pres_getParamBool _ _) (fun _10 =>
                            pres_bind (pres_getParamBool _ _) (fun _11 =>
                              pres_bind (pres_getParamBool _ _) (fun _12 =>
                                pres_bind (pres_getParamBool _ _) (fun _13 =>
                                  pres_bind (pres_getParamBool _ _) (fun _14 =>
                                    pres_bind (pres_getParamBool _ _) (fun _15 =>
                                      pres_bind (pres_setData _) (fun _ =>
                                        pres_setSuccess _)))))))))))))))))))

theorem pres_hGetMacAddress (F : Fptr) : PreservesCid (hGetMacAddress F) :=
  pres_bind (pres_setParamI _ _) (fun _ =>
    pres_bind (pres_fptrOp _ _) (fun _r =>
      pres_bind (pres_check _ _ _) (fun _ =>
        pres_bind (pres_getParamString _ _) (fun _1 =>
          pres_bind (pres_setData _) (fun _ => pres_setSuccess _)))))

theorem pres_hGetEthernetInfo (F : Fptr) : PreservesCid (hGetEthernetInfo F) :=
  pres_bind (pres_setParamI _ _) (fun _ =>
    pres_bind (pres_fptrOp _ _) (fun _r =>
      pres_bind (pres_check _ _ _) (fun _ =>
        pres_bind (pres_getParamString _ _) (fun _1 =>
          pres_bind (pres_getParamString _ _) (fun _2 =>
            pres_bind (pres_getParamString _ _) (fun _3 =>
              pres_bind (pres_getParamString _ _) (fun _4 =>
                pres_bind (pres_getParamInt _ _) (fun _5 =>
                  pres_bind (pres_getParamInt _ _) (fun _6 =>
                    pres_bind (pres_getParamBool _ _) (fun _7 =>
                      pres_bind (pres_getParamBool _ _) (fun _8 =>
                        pres_bind (pres_setData _) (fun _ =>
                          pres_setSuccess _))))))))))))

theorem pres_hGetWifiInfo (F : Fptr) : PreservesCid (hGetWifiInfo F) :=
  pres_bind (pres_setParamI _ _) (fun _ =>
    pres_bind (pres_fptrOp _ _) (fun _r =>
      pres_bind (pres_check _ _ _) (fun _ =>
        pres_bind (pres_getParamString _ _) (fun _1 =>
          pres_bind (pres_getParamString _ _) (fun _2 =>
            pres_bind (pres_getParamString _ _) (fun _3 =>
              pres_bind (pres_getParamInt _ _) (fun _4 =>
                pres_bind (pres_getParamInt _ _) (fun _5 =>
                  pres_bind (pres_getParamBool _ _) (fun _6 =>
                    pres_bind (pres_setData _) (fun _ =>
                      pres_setSuccess _))))))))))

theorem pres_hReadFnDocument (F : Fptr) (kwargs : Val) :
    PreservesCid (hReadFnDocument F kwargs) :=
  pres_bind (pres_kwGet _ _) (fun dn =>
    pres_bind (pres_setParamI _ _) (fun _ =>
      pres_bind (pres_setParamV _ _) (fun _ =>
        pres_bind (pres_fptrOp _ _) (fun _r =>
          pres_bind (pres_check _ _ _) (fun _ =>
            pres_bind (pres_getParamInt _ _) (fun _dt =>
              pres_bind (pres_getParamInt _ _) (fun _ds =>
                pres_bind (pres_getParamString _ _) (fun rid =>
                  pres_bind (pres_setParamS _ _) (fun _ =>
                    pres_bind (pres_drainTLV _ _) (fun recs =>
                      pres_bind (pres_setParamS _ _) (fun _ =>
                        pres_bind (pres_fptrOp _ _) (fun _r2 =>
                          pres_bind (pres_check _ _ _) (fun _ =>
                            pres_bind (pres_setSuccess _) (fun _ =>
                              pres_bind (pres_setMessage _) (fun _ =>
                                pres_setData _)))))))))))))))

theorem pres_hReadLicenses (F : Fptr) : PreservesCid (hReadLicenses F) :=
  pres_bind (pres_setParamI _ _) (fun _ =>
    pres_bind (pres_fptrOp _ _) (fun _r =>
      pres_bind (pres_check _ _ _) (fun _ =>
        pres_bind (pres_getParamString _ _) (fun rid =>
          pres_bind (pres_setParamS _ _) (fun _ =>
            pres_bind (pres_drainLicenses _ _) (fun lics =>
              pres_bind (pres_setParamS _ _) (fun _ =>
                pres_bind (pres_fptrOp _ _) (fun _r2 =>
                  pres_bind (pres_check _ _ _) (fun _ =>
                    pres_bind (pres_setSuccess _) (fun _ =>
                      pres_bind (pres_setMessage _) (fun _ =>
                        pres_setData _)))))))))))

theorem pres_hReadRegistrationDocument (F : Fptr) (kwargs : Val) :
    PreservesCid (hReadRegistrationDocument F kwargs) :=
  pres_bind (pres_kwGet _ _) (fun rn =>
    pres_bind (pres_setParamI _ _) (fun _ =>
      pres_bind (pres_setParamV _ _) (fun _ =>
        pres_bind (pres_fptrOp _ _) (fun _r =>
          pres_bind (pres_check _ _ _) (fun _ =>
            pres_bind (pres_getParamString _ _) (fun rid =>
              pres_bind (pres_setParamS _ _) (fun _ =>
                pres_bind (pres_drainTLV _ _) (fun recs =>
                  pres_bind (pres_setParamS _ _) (fun _ =>
                    pres_bind (pres_fptrOp _ _) (fun _r2 =>
                      pres_bind (pres_check _ _ _) (fun _ =>
                        pres_bind (pres_setSuccess _) (fun _ =>
                          pres_bind (pres_setMessage _) (fun _ =>
                            pres_setData _)))))))))))))

theorem pres_hParseComplexAttribute (F : Fptr) (kwargs : Val) :
    PreservesCid (hParseComplexAttribute F kwargs) :=
  pres_bind (pres_kwGet _ _) (fun tv =>
    pres_bind (pres_pyBytes _) (fun bs =>
      pres_bind (pres_setParamI _ _) (fun _ =>
        pres_bind (pres_setParamV _ _) (fun _ =>
          pres_bind (pres_fptrOp _ _) (fun _r =>
            pres_bind (pres_check _ _ _) (fun _ =>
              pres_bind (pres_getParamString _ _) (fun rid =>
                pres_bind (pres_setParamS _ _) (fun _ =>
                  pres_bind (pres_drainTLV _ _) (fun recs =>
                    pres_bind (pres_setParamS _ _) (fun _ =>
                      pres_bind (pres_fptrOp _ _) (fun _r2 =>
                        pres_bind (pres_check _ _ _) (fun _ =>
                          pres_bind (pres_setSuccess _) (fun _ =>
                            pres_bind (pres_setMessage _) (fun _ =>
                              pres_setData _))))))))))))))

theorem pres_hReadKktSettings (F : Fptr) : PreservesCid (hReadKktSettings F) :=
  pres_bind (pres_setParamI _ _) (fun _ =>
    pres_bind (pres_fptrOp _ _) (fun _r =>
      pres_bind (pres_check _ _ _) (fun _ =>
        pres_bind (pres_getParamString _ _) (fun rid =>
          pres_bind (pres_setParamS _ _) (fun _ =>
            pres_bind (pres_drainSettings _ _) (fun sl =>
              pres_bind (pres_setParamS _ _) (fun _ =>
                pres_bind (pres_fptrOp _ _) (fun _r2 =>
                  pres_bind (pres_check _ _ _) (fun _ =>
                    pres_bind (pres_setSuccess _) (fun _ =>
                      pres_bind (pres_setMessage _) (fun _ =>
                        pres_setData _)))))))))))

theorem pres_hReadLastDocumentJournal (F : Fptr) :
    PreservesCid (hReadLastDocumentJournal F) :=
  pres_bind (pres_fptrOp _ _) (fun _r =>
    pres_bind (pres_check _ _ _) (fun _ =>
      pres_bind (pres_getParamByteArray _ _) (fun bs =>
        pres_bind (pres_setSuccess _) (fun _ =>
          pres_bind (pres_setMessage _) (fun _ => pres_setData _)))))

theorem pres_hQueryLastReceipt (F : Fptr) : PreservesCid (hQueryLastReceipt F) :=
  pres_bind (pres_setParamI _ _) (fun _ =>
    pres_bind (pres_fptrOp _ _) (fun _r =>
      pres_bind (pres_check _ _ _) (fun _ =>
        pres_bind (pres_getParamInt _ _) (fun _1 =>
          pres_bind (pres_getParamDouble _ _) (fun _2 =>
            pres_bind (pres_getParamString _ _) (fun _3 =>
              pres_bind (pres_getParamDateTime _ _) (fun _4 =>
                pres_bind (pres_getParamInt _ _) (fun _5 =>
                  pres_bind (pres_setSuccess _) (fun _ =>
                    pres_bind (pres_setMessage _) (fun _ =>
                      pres_setData _))))))))))

theorem pres_hQueryRegistrationInfo (F : Fptr) :
    PreservesCid (hQueryRegistrationInfo F) :=
  pres_bind (pres_setParamI _ _) (fun _ =>
    pres_bind (pres_fptrOp _ _) (fun _r =>
      pres_bind (pres_check _ _ _) (fun _ =>
        pres_bind (pres_getParamString _ _) (fun _1 =>
          pres_bind (pres_getParamString _ _) (fun _2 =>
            pres_bind (pres_getParamString _ _) (fun _3 =>
              pres_bind (pres_getParamString _ _) (fun _4 =>
                pres_bind (pres_getParamString _ _) (fun _5 =>
                  pres_bind (pres_getParamString _ _) (fun _6 =>
                    pres_bind (pres_getParamString _ _) (fun _7 =>
                      pres_bind (pres_getParamString _ _) (fun _8 =>
                        pres_bind (pres_getParamString _ _) (fun _9 =>
                          pres_bind (pres_getParamString _ _) (fun _10 =>
                            pres_bind (pres_getParamInt _ _) (fun _11 =>
                              pres_bind (pres_getParamInt _ _) (fun _12 =>
                                pres_bind (pres_getParamInt _ _) (fun _13 =>
                                  pres_bind (pres_getParamBool _ _) (fun _14 =>
                                    pres_bind (pres_getParamBool _ _) (fun _15 =>
                                      pres_bind (pres_getParamBool _ _) (fun _16 =>
                                        pres_bind (pres_getParamBool _ _) (fun _17 =>
                                          pres_bind (pres_getParamBool _ _) (fun _18 =>
                                            pres_bind (pres_getParamBool _ _) (fun _19 =>
                                              pres_bind (pres_tryBoolFields _ _ _) (fun d1 =>
                                                pres_bind (pres_tryBoolFields _ _ _) (fun d2 =>
                                                  pres_bind (pres_setSuccess _) (fun _ =>
                                                    pres_bind (pres_setMessage _) (fun _ =>
                                                      pres_setData _))))))))))))))))))))))))))

theorem pres_fnInfoUriData (F : Fptr) (b : Bool) (d : List (String × Val)) :
    PreservesCid (fnInfoUriData F b d) := by
  unfold fnInfoUriData
  split
  · exact pres_bind (pres_getParamString _ _) (fun uri => pres_pure _)
  · exact pres_pure _

theorem pres_hQueryFnInfo (F : Fptr) : PreservesCid (hQueryFnInfo F) :=
  pres_bind (pres_setParamI _ _) (fun _ =>
    pres_bind (pres_fptrOp _ _) (fun _r =>
      pres_bind (pres_check _ _ _) (fun _ =>
        pres_bind (pres_getParamString _ _) (fun _1 =>
          pres_bind (pres_getParamString _ _) (fun _2 =>
            pres_bind (pres_tryStrFields _ _ _) (fun d1 =>
              pres_bind (pres_getParamInt _ _) (fun _3 =>
                pres_bind (pres_getParamInt _ _) (fun _4 =>
                  pres_bind (pres_getParamInt _ _) (fun _5 =>
                    pres_bind (pres_getParamBool _ _) (fun _6 =>
                      pres_bind (pres_getParamBool _ _) (fun _7 =>
                        pres_bind (pres_getParamBool _ _) (fun _8 =>
                          pres_bind (pres_getParamBool _ _) (fun _9 =>
                            pres_bind (pres_getParamBool _ _) (fun _10 =>
                              pres_bind (pres_getParamBool _ _) (fun _11 =>
                                pres_bind (pres_fnInfoUriData _ _ _) (fun d6 =>
                                  pres_bind (pres_setSuccess _) (fun _ =>
                                    pres_bind (pres_setMessage _) (fun _ =>
                                      pres_setData _))))))))))))))))))

theorem pres_hQueryOfdExchangeStatus (F : Fptr) :
    PreservesCid (hQueryOfdExchangeStatus F) :=
  pres_bind (pres_setParamI _ _) (fun _ =>
    pres_bind (pres_fptrOp _ _) (fun _r =>
      pres_bind (pres_check _ _ _) (fun _ =>
        pres_bind (pres_getParamInt _ _) (fun _1 =>
          pres_bind (pres_getParamDateTime _ _) (fun _2 =>
            pres_bind (pres_getParamDateTime _ _) (fun _3 =>
              pres_bind (pres_getParamInt _ _) (fun _4 =>
                pres_bind (pres_getParamInt _ _) (fun _5 =>
                  pres_bind (pres_getParamBool _ _) (fun _6 =>
                    pres_bind (pres_setSuccess _) (fun _ =>
                      pres_bind (pres_setMessage _) (fun _ =>
                        pres_setData _)))))))))))

theorem pres_hQueryShiftInfo (F : Fptr) : PreservesCid (hQueryShiftInfo F) :=
  pres_bind (pres_setParamI _ _) (fun _ =>
    pres_bind (pres_fptrOp _ _) (fun _r =>
      pres_bind (pres_check _ _ _) (fun _ =>
        pres_bind (pres_getParamInt _ _) (fun _1 =>
          pres_bind (pres_getParamInt _ _) (fun _2 =>
            pres_bind (pres_setSuccess _) (fun _ =>
              pres_bind (pres_setMessage _) (fun _ => pres_setData _)))))))

theorem pres_hQueryLastDocument (F : Fptr) : PreservesCid (hQueryLastDocument F) :=
  pres_bind (pres_setParamI _ _) (fun _ =>
    pres_bind (pres_fptrOp _ _) (fun _r =>
      pres_bind (pres_check _ _ _) (fun _ =>
        pres_bind (pres_getParamDateTime _ _) (fun _1 =>
          pres_bind (pres_getParamInt _ _) (fun _2 =>
            pres_bind (pres_getParamString _ _) (fun _3 =>
              pres_bind (pres_setSuccess _) (fun _ =>
                pres_bind (pres_setMessage _) (fun _ => pres_setData _))))))))

theorem pres_hQueryFnValidity (F : Fptr) : PreservesCid (hQueryFnValidity F) :=
  pres_bind (pres_setParamI _ _) (fun _ =>
    pres_bind (pres_fptrOp _ _) (fun _r =>
      pres_bind (pres_check _ _ _) (fun _ =>
        pres_bind (pres_getParamDateTime _ _) (fun _1 =>
          pres_bind (pres_getParamInt _ _) (fun _2 =>
            pres_bind (pres_getParamInt _ _) (fun _3 =>
              pres_bind (pres_setSuccess _) (fun _ =>
                pres_bind (pres_setMessage _) (fun _ => pres_setData _))))))))

theorem pres_ite {α : Type} {c : Prop} [Decidable c] {m1 m2 : PM α}
    (h1 : PreservesCid m1) (h2 : PreservesCid m2) :
    PreservesCid (if c then m1 else m2) := by
  split
  · exact h1
  · exact h2

/-- Every dispatch branch — hence the whole `try:` body — leaves
`response['command_id']` untouched. -/
theorem pres_runCmd (F : Fptr) (cli : Option RedisClient) (cfg : Settings)
    (command kwargs device_id : Val) :
    PreservesCid (runCmd F cli cfg command kwargs device_id) := by
  unfold runCmd
  exact
    pres_ite (pres_hConnectionOpen _ _)
      (pres_ite (pres_hConnectionClose _)
      (pres_ite (pres_hConnectionIsOpened _)
      (pres_ite (pres_hShiftOpen _ _ _ _ _)
      (pres_ite (pres_hShiftClose _ _ _ _ _)
      (pres_ite (pres_hShiftGetStatus _)
      (pres_ite (pres_hShiftPrintXReport _ _ _ _ _)
      (pres_ite (pres_hReceiptOpen _ _ _ _ _)
      (pres_ite (pres_hRegistration _ _)
      (pres_ite (pres_hPayment _ _)
      (pres_ite (pres_hReceiptClose _)
      (pres_ite (pres_hReceiptCancel _)
      (pres_ite (pres_hBeep _ _)
      (pres_ite (pres_hPlayArcaneMelody _)
      (pres_ite (pres_hCashIncome _ _)
      (pres_ite (pres_hCashOutcome _ _)
      (pres_ite (pres_hPrintText _ _)
      (pres_ite (pres_hPrintFeed _ _)
      (pres_ite (pres_hPrintBarcode _ _)
      (pres_ite (pres_hPrintPicture _ _)
      (pres_ite (pres_hPrintPictureByNumber _ _)
      (pres_ite (pres_hOpenNonfiscalDocument _)
      (pres_ite (pres_hCloseNonfiscalDocument _)
      (pres_ite (pres_hCutPaper _)
      (pres_ite (pres_hOpenCashDrawer _)
      (pres_ite (pres_hPrintXReport _)
      (pres_ite (pres_hGetStatus _)
      (pres_ite (pres_hGetShortStatus _)
      (pres_ite (pres_hGetCashSum _)
      (pres_ite (pres_hGetShiftState _)
      (pres_ite (pres_hGetReceiptState _)
      (pres_ite (pres_hGetDatetime _)
      (pres_ite (pres_hGetSerialNumber _)
      (pres_ite (pres_hGetModelInfo _)
      (pres_ite (pres_hGetReceiptLineLength _)
      (pres_ite (pres_hGetUnitVersion _ _)
      (pres_ite (pres_hGetPaymentSum _ _)
      (pres_ite (pres_hGetCashinSum _)
      (pres_ite (pres_hGetCashoutSum _)
      (pres_ite (pres_hGetReceiptCount _ _)
      (pres_ite (pres_hGetNonNullableSum _ _)
      (pres_ite (pres_hGetPowerSourceState _ _)
      (pres_ite (pres_hGetPrinterTemperature _)
      (pres_ite (pres_hGetFatalStatus _)
      (pres_ite (pres_hGetMacAddress _)
      (pres_ite (pres_hGetEthernetInfo _)
      (pres_ite (pres_hGetWifiInfo _)
      (pres_ite (pres_hOperatorLogin _ _)
      (pres_ite (pres_hContinuePrint _)
      (pres_ite (pres_hCheckDocumentClosed _)
      (pres_ite (pres_hConfigureLogging)
      (pres_ite (pres_hChangeDriverLabel _ _)
      (pres_ite (pres_hGetDefaultLoggingConfig)
      (pres_ite (pres_hReadFnDocument _ _)
      (pres_ite (pres_hReadLicenses _)
      (pres_ite (pres_hReadRegistrationDocument _ _)
      (pres_ite (pres_hParseComplexAttribute _ _)
      (pres_ite (pres_hReadKktSettings _)
      (pres_ite (pres_hReadLastDocumentJournal _)
      (pres_ite (pres_hQueryLastReceipt _)
      (pres_ite (pres_hQueryRegistrationInfo _)
      (pres_ite (pres_hQueryFnInfo _)
      (pres_ite (pres_hQueryOfdExchangeStatus _)
      (pres_ite (pres_hQueryShiftInfo _)
      (pres_ite (pres_hQueryLastDocument _)
      (pres_ite (pres_hQueryFnValidity _)
      (pres_setMessage _))))))))))))))))))))))))))))))))))))))))))))))))))))))))))))))))))

/-- Reduction of `process_command` on a mapping payload: the response
construction and dispatch, with the `except` conversion, laid out as one
`match` (definitionally equal to the definition). -/
theorem process_command_dict (F : Fptr) (cli : Option RedisClient) (cfg : Settings)
    (m : List (String × Val)) :
    process_command F cli cfg (.vDict m) =
      (match runCmd F cli cfg ((dlookup m "command").getD .vNull)
          ((dlookup m "kwargs").getD (.vDict []))
          ((dlookup m "device_id").getD (.vStr "default"))
          { resp := { command_id := (dlookup m "command_id").getD .vNull,
                      success := false, message := .vNull, data := .vNull },
            dev := { remaining := F.records, current := none, trace := [] } } with
        | .ok (_, s) => .ok (s.resp, s.dev)
        | .error (s, e) =>
          let error_msg := "Ошибка при выполнении команды '" ++
            pyStr ((dlookup m "command").getD .vNull) ++ "': " ++ exnStr e
          let r1 := { s.resp with message := Val.vStr error_msg }
          let r2 :=
            match e with
            | .atol m2 c d => { r1 with data := atolToDict m2 c d }
            | _ => r1
          .ok (r2, s.dev)) := rfl

/-- C1: for every `command_data` mapping handed to
`CommandProcessor.process_command`, the call returns (never raises) a
Response whose `command_id` equals the `command_id` field of the input
(`None` when absent) — on the success path and on every exception path,
for every device oracle, Redis client and configuration: no handler and
no error branch omits or mutates it. -/
theorem process_command_echoes_command_id (F : Fptr) (cli : Option RedisClient)
    (cfg : Settings) (m : List (String × Val)) :
    ∃ r st, process_command F cli cfg (.vDict m) = .ok (r, st) ∧
      r.command_id = (dlookup m "command_id").getD .vNull := by
  have hrun := pres_runCmd F cli cfg ((dlookup m "command").getD .vNull)
    ((dlookup m "kwargs").getD (.vDict []))
    ((dlookup m "device_id").getD (.vStr "default"))
    { resp := { command_id := (dlookup m "command_id").getD .vNull,
                success := false, message := .vNull, data := .vNull },
      dev := { remaining := F.records, current := none, trace := [] } }
  rw [process_command_dict]
  cases hres : runCmd F cli cfg ((dlookup m "command").getD .vNull)
      ((dlookup m "kwargs").getD (.vDict []))
      ((dlookup m "device_id").getD (.vStr "default"))
      { resp := { command_id := (dlookup m "command_id").getD .vNull,
                  success := false, message := .vNull, data := .vNull },
        dev := { remaining := F.records, current := none, trace := [] } } with
  | ok p =>
    obtain ⟨u, st⟩ := p
    rw [hres] at hrun
    exact ⟨st.resp, st.dev, rfl, hrun⟩
  | error p =>
    obtain ⟨st, e⟩ := p
    rw [hres] at hrun
    cases e <;> exact ⟨_, _, rfl, hrun⟩

/-- An unrecognized command name falls through every dispatch test to the
final `else`, which only writes the unknown-command message. -/
theorem runCmd_unknown (F : Fptr) (cli : Option RedisClient) (cfg : Settings)
    (s : String) (kwargs device_id : Val) (h : s ∉ knownCommands) :
    runCmd F cli cfg (.vStr s) kwargs device_id =
      setMessage ("Неизвестная команда: " ++ s) := by
  have hp : ∀ t, t ∈ knownCommands → pyEqStr (Val.vStr s) t = false := by
    intro t ht
    simp only [pyEqStr]
    exact beq_eq_false_iff_ne.mpr (fun he => h (he ▸ ht))
  unfold runCmd
  rw [hp "connection_open" (by decide),
    hp "connection_close" (by decide),
    hp "connection_is_opened" (by decide),
    hp "shift_open" (by decide),
    hp "shift_close" (by decide),
    hp "shift_get_status" (by decide),
    hp "shift_print_x_report" (by decide),
    hp "receipt_open" (by decide),
    hp "registration" (by decide),
    hp "payment" (by decide),
    hp "receipt_close" (by decide),
    hp "receipt_cancel" (by decide),
    hp "beep" (by decide),
    hp "play_arcane_melody" (by decide),
    hp "cash_income" (by decide),
    hp "cash_outcome" (by decide),
    hp "print_text" (by decide),
    hp "print_feed" (by decide),
    hp "print_barcode" (by decide),
    hp "print_picture" (by decide),
    hp "print_picture_by_number" (by decide),
    hp "open_nonfiscal_document" (by decide),
    hp "close_nonfiscal_document" (by decide),
    hp "cut_paper" (by decide),
    hp "open_cash_drawer" (by decide),
    hp "print_x_report" (by decide),
    hp "get_status" (by decide),
    hp "get_short_status" (by decide),
    hp "get_cash_sum" (by decide),
    hp "get_shift_state" (by decide),
    hp "get_receipt_state" (by decide),
    hp "get_datetime" (by decide),
    hp "get_serial_number" (by decide),
    hp "get_model_info" (by decide),
    hp "get_receipt_line_length" (by decide),
    hp "get_unit_version" (by decide),
    hp "get_payment_sum" (by decide),
    hp "get_cashin_sum" (by decide),
    hp "get_cashout_sum" (by decide),
    hp "get_receipt_count" (by decide),
    hp "get_non_nullable_sum" (by decide),
    hp "get_power_source_state" (by decide),
    hp "get_printer_temperature" (by decide),
    hp "get_fatal_status" (by decide),
    hp "get_mac_address" (by decide),
    hp "get_ethernet_info" (by decide),
    hp "get_wifi_info" (by decide),
    hp "operator_login" (by decide),
    hp "continue_print" (by decide),
    hp "check_document_closed" (by decide),
    hp "configure_logging" (by decide),
    hp "change_driver_label" (by decide),
    hp "get_default_logging_config" (by decide),
    hp "read_fn_document" (by decide),
    hp "read_licenses" (by decide),
    hp "read_registration_document" (by decide),
    hp "parse_complex_attribute" (by decide),
    hp "read_kkt_settings" (by decide),
    hp "read_last_document_journal" (by decide),
    hp "query_last_receipt" (by decide),
    hp "query_registration_info" (by decide),
    hp "query_fn_info" (by decide),
    hp "query_ofd_exchange_status" (by decide),
    hp "query_shift_info" (by decide),
    hp "query_last_document" (by decide),
    hp "query_fn_validity" (by decide)]
  simp [pyStr]

/-- C2: a well-formed Command whose `command` name is not in the dispatch
table makes `process_command` return (never raise) a Response with
`success = false`, the explanatory message naming the unknown command,
untouched `data`, no device interaction, and the request's `command_id`. -/
theorem unknown_command_response (F : Fptr) (cli : Option RedisClient)
    (cfg : Settings) (m : List (String × Val)) (s : String)
    (hcmd : dlookup m "command" = some (.vStr s))
    (hunk : s ∉ knownCommands) :
    process_command F cli cfg (.vDict m) =
      .ok ({ command_id := (dlookup m "command_id").getD .vNull,
             success := false,
             message := .vStr ("Неизвестная команда: " ++ s),
             data := .vNull },
           { remaining := F.records, current := none, trace := [] }) := by
  rw [process_command_dict, hcmd]
  rw [show (some (Val.vStr s)).getD Val.vNull = Val.vStr s from rfl]
  rw [runCmd_unknown F cli cfg s _ _ hunk]
  rfl

/-- Witness for C2 at a concrete unknown command. -/
theorem unknown_command_response_witness :
    process_command {} none {} (.vDict [("command_id", .vInt 9),
        ("command", .vStr "frobnicate")]) =
      .ok ({ command_id := (dlookup [("command_id", Val.vInt 9),
               ("command", Val.vStr "frobnicate")] "command_id").getD .vNull,
             success := false,
             message := .vStr ("Неизвестная команда: " ++ "frobnicate"),
             data := .vNull },
           { remaining := Fptr.records {}, current := none, trace := [] }) :=
  unknown_command_response {} none {} _ "frobnicate" rfl (by decide)

theorem pm_bind_def {α β : Type} (m : PM α) (f : α → PM β) : m >>= f = pmBind m f := rfl

theorem pm_pure_def {α : Type} (a : α) : (pure a : PM α) = pmPure a := rfl

theorem runCmd_receipt_close (F : Fptr) (cli : Option RedisClient) (cfg : Settings)
    (kw did : Val) : runCmd F cli cfg (.vStr "receipt_close") kw did = hReceiptClose F := rfl

/-- Evaluation of the `receipt_close` handler when the device call
succeeds: `success := True`, `data := None`, fixed message. -/
theorem hReceiptClose_run (F : Fptr) (h : 0 ≤ F.closeReceiptR) (s : PState) :
    hReceiptClose F s =
      .ok ((), { resp := { s.resp with
                            success := true
                            data := Val.vNull
                            message := Val.vStr "Чек успешно закрыт и напечатан" }
                 dev := { s.dev with trace := s.dev.trace ++ [.closeReceipt] } }) := by
  unfold hReceiptClose
  simp only [pm_bind_def, pm_pure_def, pmBind, pmPure, fptrOp, logCall, check_result,
    setSuccess, setData, setMessage]
  rw [if_neg (by omega)]
  rfl

/-- C4 counterexample: a `receipt_close` Command whose `closeReceipt`
call succeeds yields `success = true` but `data = None` — the Response
carries no mapping, hence no `fiscal_document_number` (nor fiscal sign or
shift number). -/
theorem receipt_close_returns_no_fiscal_data :
    process_command {} none {}
        (.vDict [("command_id", .vInt 2), ("command", .vStr "receipt_close")]) =
      .ok ({ command_id := .vInt 2, success := true,
             message := .vStr "Чек успешно закрыт и напечатан", data := .vNull },
           { remaining := [], current := none, trace := [.closeReceipt] }) := rfl

/-- C4 amended: for every `receipt_close` Command whose `closeReceipt`
device call succeeds, the Response has `success = true`, the success message,
and `data = None`: no fiscal identifiers are returned by this handler. -/
theorem receipt_close_success_null_data (F : Fptr) (cli : Option RedisClient)
    (cfg : Settings) (m : List (String × Val)) (h : 0 ≤ F.closeReceiptR)
    (hcmd : dlookup m "command" = some (.vStr "receipt_close")) :
    process_command F cli cfg (.vDict m) =
      .ok ({ command_id := (dlookup m "command_id").getD .vNull,
             success := true,
             message := .vStr "Чек успешно закрыт и напечатан",
             data := .vNull },
           { remaining := F.records, current := none, trace := [.closeReceipt] }) := by
  rw [process_command_dict, hcmd]
  rw [show (some (Val.vStr "receipt_close")).getD Val.vNull = Val.vStr "receipt_close"
    from rfl]
  rw [runCmd_receipt_close]
  rw [hReceiptClose_run F h]
  rfl

/-- Witness for C4's amended claim at a concrete device and command. -/
theorem receipt_close_success_null_data_witness :
    process_command { closeReceiptR := 3 } none {}
        (.vDict [("command_id", .vStr "q"), ("command", .vStr "receipt_close")]) =
      .ok ({ command_id := (dlookup [("command_id", Val.vStr "q"),
               ("command", Val.vStr "receipt_close")] "command_id").getD .vNull,
             success := true,
             message := .vStr "Чек успешно закрыт и напечатан",
             data := .vNull },
           { remaining := Fptr.records { closeReceiptR := 3 }, current := none,
             trace := [.closeReceipt] }) :=
  receipt_close_success_null_data { closeReceiptR := 3 } none {} _ (by decide) rfl

theorem runCmd_registration (F : Fptr) (cli : Option RedisClient) (cfg : Settings)
    (kw did : Val) : runCmd F cli cfg (.vStr "registration") kw did = hRegistration F kw := rfl

/-- One evaluation step of the monad: when the first computation ends in
state `s1` with value `a`, the bind continues with `f a` from `s1`. -/
theorem pmBind_run {α β : Type} {m : PM α} {f : α → PM β} {s s1 : PState} {a : α}
    (h : m s = .ok (a, s1)) : (m >>= f) s = f a s1 := by
  show pmBind m f s = f a s1
  unfold pmBind
  rw [h]

/-- The error analogue: a raise in the first computation short-circuits. -/
theorem pmBind_err {α β : Type} {m : PM α} {f : α → PM β} {s s1 : PState} {e : Exn}
    (h : m s = .error (s1, e)) : (m >>= f) s = .error (s1, e) := by
  show pmBind m f s = .error (s1, e)
  unfold pmBind
  rw [h]

/-- Each iteration of the `registration` parameter loop only appends
device calls; it always returns and never touches the response. -/
theorem regSetOne_run (k : String) (v : Val) (s : PState) :
    ∃ tr, regSetOne k v s =
      .ok ((), { resp := s.resp
                 dev := { remaining := s.dev.remaining
                          current := s.dev.current
                          trace := s.dev.trace ++ tr } }) := by
  unfold regSetOne
  split_ifs <;> first
    | exact ⟨_, rfl⟩
    | exact ⟨[], by simp only [List.append_nil]; rfl⟩

theorem regSetParams_run (items : List (String × Val)) :
    ∀ s : PState, ∃ tr, regSetParams items s =
      .ok ((), { resp := s.resp
                 dev := { remaining := s.dev.remaining
                          current := s.dev.current
                          trace := s.dev.trace ++ tr } }) := by
  induction items with
  | nil =>
    intro s
    exact ⟨[], by simp only [List.append_nil]; rfl⟩
  | cons p rest ih =>
    intro s
    obtain ⟨k, v⟩ := p
    obtain ⟨tr1, h1⟩ := regSetOne_run k v s
    obtain ⟨tr2, h2⟩ := ih { resp := s.resp
                             dev := { remaining := s.dev.remaining
                                      current := s.dev.current
                                      trace := s.dev.trace ++ tr1 } }
    refine ⟨tr1 ++ tr2, ?_⟩
    have hb : regSetParams ((k, v) :: rest) s =
        regSetParams rest { resp := s.resp
                            dev := { remaining := s.dev.remaining
                                     current := s.dev.current
                                     trace := s.dev.trace ++ tr1 } } :=
      pmBind_run h1
    rw [hb, h2]
    simp

/-- Evaluation of the `registration` handler when the device accepts the
registration but `kwargs` has no `name` key: the handler sets
`success = True` and only then raises `KeyError('name')` while building
its message. -/
theorem hRegistration_run (F : Fptr) (km : List (String × Val))
    (h : 0 ≤ F.registrationR) (hname : dlookup km "name" = none) (s : PState) :
    ∃ st, hRegistration F (.vDict km) s = .error (st, .keyError "name") ∧
      st.resp = { s.resp with success := true } := by
  obtain ⟨tr, hrs⟩ := regSetParams_run km s
  unfold hRegistration
  simp only [pm_bind_def, pmBind, kwItems, pm_pure_def, pmPure]
  rw [hrs]
  simp only [fptrOp, logCall, pm_bind_def, pmBind, pm_pure_def, pmPure, check_result]
  rw [if_neg (by omega)]
  simp only [setSuccess, kwGet, pm_bind_def, pmBind, pm_pure_def, pmPure]
  rw [hname]
  exact ⟨_, rfl, rfl⟩

/-- C10: the exception handler of `process_command` never resets the
`success` flag. For every `registration` Command whose device call
succeeds but whose `kwargs` lacks `'name'`, the handler sets
`success = True` and then raises `KeyError` formatting its message; the
returned Response has `success = true` while `message` is the error text
— `success = true` does not imply the handler ran to completion. -/
theorem registration_error_keeps_success (F : Fptr) (cli : Option RedisClient)
    (cfg : Settings) (m km : List (String × Val)) (h : 0 ≤ F.registrationR)
    (hcmd : dlookup m "command" = some (.vStr "registration"))
    (hkw : dlookup m "kwargs" = some (.vDict km))
    (hname : dlookup km "name" = none) :
    ∃ st, process_command F cli cfg (.vDict m) =
      .ok ({ command_id := (dlookup m "command_id").getD .vNull
             success := true
             message := .vStr "Ошибка при выполнении команды 'registration': 'name'"
             data := .vNull }, st) := by
  rw [process_command_dict, hcmd, hkw]
  rw [show (some (Val.vStr "registration")).getD Val.vNull = Val.vStr "registration"
    from rfl]
  rw [show (some (Val.vDict km)).getD (Val.vDict []) = Val.vDict km from rfl]
  rw [runCmd_registration]
  obtain ⟨st, hrun, hresp⟩ := hRegistration_run F km h hname
    { resp := { command_id := (dlookup m "command_id").getD .vNull, success := false,
                message := .vNull, data := .vNull },
      dev := { remaining := F.records, current := none, trace := [] } }
  rw [hrun]
  refine ⟨st.dev, ?_⟩
  show Except.ok (({ command_id := st.resp.command_id
                     success := st.resp.success
                     message := Val.vStr ("Ошибка при выполнении команды '" ++
                       pyStr (Val.vStr "registration") ++ "': " ++
                       exnStr (Exn.keyError "name"))
                     data := st.resp.data } : Response), st.dev) = _
  rw [hresp]
  rfl

/-- Witness for C10 at a concrete device and command. -/
theorem registration_error_keeps_success_witness :
    ∃ st, process_command { registrationR := 0 } none {}
        (.vDict [("command_id", .vInt 3), ("command", .vStr "registration"),
                 ("kwargs", .vDict [("price", .vFloat 50)])]) =
      .ok ({ command_id := (dlookup [("command_id", Val.vInt 3),
               ("command", Val.vStr "registration"),
               ("kwargs", Val.vDict [("price", Val.vFloat 50)])] "command_id").getD .vNull
             success := true
             message := .vStr "Ошибка при выполнении команды 'registration': 'name'"
             data := .vNull }, st) :=
  registration_error_keeps_success { registrationR := 0 } none {} _ _
    (by decide) rfl rfl rfl

/-- Witness for C6 at a concrete record set with a partial trailing
record (3 junk bytes, fewer than one header). -/
theorem parseTLVList_encode_witness :
    parseTLVList (encodeTLVList [(1030, [72, 105]), (7, [])] ++ [1, 0, 200]) =
      [(1030, 2, [72, 105]), (7, 0, [])] := by
  simpa using parseTLVList_encode [(1030, [72, 105]), (7, [])] [1, 0, 200]
    (by decide) (by decide)

/-- C5 counterexample: `listen_to_redis` constructs the client with
`decode_responses=True`, so `hgetall` materializes a `str`-keyed dict,
while `_get_cashier` looks up the `bytes` keys `b"cashier_name"` /
`b"cashier_inn"`. The lookups always miss: with kwargs name "A", stored
name "B" and default "C", removing the kwargs entry yields "C", not the
specified "B" — priority 2 of the chain is unreachable in production.
(Priority 1 behaves as specified, and a `bytes`-keyed client would
indeed return "B", pinning the mismatch to the key types.) -/
theorem cashier_store_priority_unreachable :
    get_cashier (some { decodeResponses := true
                        hashes := [("cashier:d1", [("cashier_name", "B"), ("cashier_inn", "I")])] })
      { cashier_name := "C", cashier_inn := "" } (.vStr "d1")
      (.vDict [("cashier_name", .vStr "A")]) = .ok (.vStr "A", .vStr "") ∧
    get_cashier (some { decodeResponses := true
                        hashes := [("cashier:d1", [("cashier_name", "B"), ("cashier_inn", "I")])] })
      { cashier_name := "C", cashier_inn := "" } (.vStr "d1")
      (.vDict []) = .ok (.vStr "C", .vStr "") ∧
    get_cashier (some { decodeResponses := false
                        hashes := [("cashier:d1", [("cashier_name", "B"), ("cashier_inn", "I")])] })
      { cashier_name := "C", cashier_inn := "" } (.vStr "d1")
      (.vDict []) = .ok (.vStr "B", .vStr "I") :=
  ⟨rfl, rfl, rfl⟩

/-- C8: for every `shift_open` Command against a device whose calls all
succeed and that reports shift number `n`, the processor resolves the
cashier and registers the operator, then opens the shift, then
immediately performs the document-closed check — in exactly that order —
and answers `success = true` with `data = {shift_number: n}`. -/
theorem shift_open_scenario (n : Int) (cli : Option RedisClient) (cfg : Settings) :
    process_command (shiftOpenDevice n) cli cfg (.vDict
      [("command_id", .vInt 4), ("command", .vStr "shift_open"),
       ("kwargs", .vDict [("cashier_name", .vStr "Ivanova")]),
       ("device_id", .vStr "d1")]) =
    .ok ({ command_id := .vInt 4
           success := true
           message := .vStr ("Смена #" ++ toString n ++ " успешно открыта")
           data := .vDict [("shift_number", .vInt n)] },
         { remaining := []
           current := none
           trace := [.setParam 1021 (.vStr "Ivanova"), .operatorLogin,
                     .openShift, .checkDocumentClosed] }) := rfl

/-- C3 counterexample: a `read_fn_document` run where `beginReadRecords`
succeeds and reading the first record's name raises mid-drain. The drain
loop has no try/finally, so the exception escapes it and
`endReadRecords` is never invoked: the trace records one
`beginReadRecords` and zero `endReadRecords` while the command still
produces an error Response — the read session leaks on this failure
path. -/
theorem read_fn_document_leaks_read_session :
    ∃ r st, process_command leakDevice none {} (.vDict
        [("command_id", .vInt 9), ("command", .vStr "read_fn_document"),
         ("kwargs", .vDict [("document_number", .vInt 1)])]) = .ok (r, st) ∧
      r.success = false ∧
      st.trace.countP (fun c => match c with
        | .beginReadRecords => true
        | _ => false) = 1 ∧
      st.trace.countP (fun c => match c with
        | .endReadRecords => true
        | _ => false) = 0 := by
  refine ⟨_, _, rfl, rfl, rfl, rfl⟩

/-- C7: a record whose declared tag type selects the string accessor (8)
but whose string register raises falls back to raw-byte decoding, and
the drain continues with the remaining records: `read_fn_document`
succeeds as a whole, the mismatched record's `tag_value` is the raw
bytes `bs`, and the following record is decoded normally. -/
theorem type_mismatch_falls_back_to_bytes (bs : List Nat) (s2 : String) :
    ∃ st, process_command (mismatchDevice bs s2) none {} (.vDict
        [("command_id", .vInt 7), ("command", .vStr "read_fn_document"),
         ("kwargs", .vDict [("document_number", .vInt 1)])]) =
      .ok ({ command_id := .vInt 7
             success := true
             message := .vStr "Документ №1 успешно прочитан из ФН"
             data := .vDict
               [("document_number", .vInt 1),
                ("document_type", .vInt 3),
                ("document_size", .vInt 2),
                ("tlv_records", .vList
                  [.vDict [("tag_number", .vInt 1000), ("tag_name", .vStr "first"),
                           ("tag_type", .vInt 8), ("tag_value", .vBytes bs),
                           ("is_complex", .vBool false),
                           ("is_repeatable", .vBool false)],
                   .vDict [("tag_number", .vInt 1001), ("tag_name", .vStr "second"),
                           ("tag_type", .vInt 8), ("tag_value", .vStr s2),
                           ("is_complex", .vBool false),
                           ("is_repeatable", .vBool false)]])] }, st) :=
  ⟨_, rfl⟩

/-- C9: `DeviceWorker.process_message` publishes at most one Response
per inbound message, and a payload that cannot be decoded as a Command
(`json.loads` raises) is dropped without publishing anything; the step
is a total function, so the router loop continues with the next
message. -/
theorem undecodable_message_dropped (F : Fptr) (cli : Option RedisClient)
    (cfg : Settings) (pj : String → Option Val) (msg : List (String × Val)) :
    (process_message F cli cfg pj msg).length ≤ 1 ∧
    (∀ s, dlookup msg "data" = some (.vStr s) → pj s = none →
      process_message F cli cfg pj msg = []) := by
  constructor
  · unfold process_message
    split
    · split
      · simp
      · split
        · split
          · simp
          · split
            · simp
            · simp
        · simp
    · simp
  · intro s hdata hpj
    unfold process_message
    rw [hdata]
    split
    · split
      · rfl
      · simp only [Option.getD_some]
        rw [hpj]
    · rfl

/-- Witness for C9 at a concrete undecodable payload. -/
theorem undecodable_message_dropped_witness :
    process_message {} none {} (fun _ => none)
      [("type", .vStr "message"), ("data", .vStr "not json")] = [] :=
  (undecodable_message_dropped {} none {} (fun _ => none)
    [("type", .vStr "message"), ("data", .vStr "not json")]).2
    "not json" rfl rfl
